import Mathlib

/-!
# DisasterAlert backend (`server/server.js`): incident enrichment pipeline

A shallow embedding of the ingestion handler `POST /api/incidents`, of the
reverse-geocoding chain (`reverseGeocode`, `reverseGeocodeWithGemini`,
`fallbackReverseGeocode`), of the photo description chain
(`analyzePhotoWithGemini`, `analyzePhoto`), of the status update with its
middlewares, of the read routes in their registration order, of the standalone
conversion endpoint, of signup and logout, and of the time format of the
client scripts (`public/script.js`, `public/admin.js`).

Modelling conventions

* A JavaScript string is a Lean `String`; one `Char` stands for one UTF-16 code
  unit (text outside the Basic Multilingual Plane is outside the model).
* A JavaScript number is a `JSNum`: `NaN`, an infinity, or a finite value kept
  exactly as `mant * 10 ^ exp`.  Binary rounding, overflow and underflow of
  IEEE doubles are outside the model: parsed values are those of literals
  within the range and precision of a double.
* `undefined` / `null` are `none`.  Fields of provider answers are typed after
  the documented schema of each provider: optional strings (`none` = missing,
  `null` or any other falsy value).
* External providers, the EXIF parser, the clock, the time zone and the
  database driver are inputs (`World`); every call to a provider is recorded in
  a trace.  The time zone is a function from instants to offsets, so that a
  zone with daylight saving time is covered.
* A text field of a multipart body is a string or missing; the field
  `description` may also be an array of strings (a repeated field), the case
  in which a statement of the ingestion handler throws.
* A row of the table holds the values handed to the database driver;
  `selectRow` is the row as a SELECT returns it and `jsonRow` the row as
  `res.json` writes it.
-/

namespace DisasterAlert

/-! ## JavaScript strings -/

/-- White space as removed by `String.prototype.trim` and skipped by `parseFloat`
(ECMAScript `WhiteSpace` and `LineTerminator`). -/
def isWhiteSpace (c : Char) : Bool :=
  let n := c.toNat
  n = 9 || n = 10 || n = 11 || n = 12 || n = 13 || n = 32 || n = 160 || n = 5760
    || (8192 ≤ n && n ≤ 8202) || n = 8232 || n = 8233 || n = 8239 || n = 8287
    || n = 12288 || n = 65279

/-- Leading white space removed. -/
def trimStartChars (l : List Char) : List Char := l.dropWhile isWhiteSpace

/-- Both ends trimmed: `s.trim()` on code units. -/
def trimChars (l : List Char) : List Char :=
  ((trimStartChars l).reverse.dropWhile isWhiteSpace).reverse

/-- The method `s.trim()`. -/
def jsTrim (s : String) : String := String.mk (trimChars s.data)

/-- The method `s.includes(c)` for a one-character needle. -/
def jsIncludes (s : String) (c : Char) : Bool := s.data.contains c

/-- Splitting of code units at every occurrence of `sep`. -/
def splitChars (sep : Char) : List Char → List (List Char)
  | [] => [[]]
  | c :: cs =>
    if c = sep then [] :: splitChars sep cs
    else
      match splitChars sep cs with
      | [] => [[c]]
      | h :: t => (c :: h) :: t

/-- The method `s.split(sep)` for a one-character separator. -/
def jsSplit (s : String) (sep : Char) : List String :=
  (splitChars sep s.data).map String.mk

/-- The method `s.substring(0, n)`. -/
def jsSubstring0 (s : String) (n : Nat) : String := String.mk (s.data.take n)

/-- Truthiness of a string or `undefined`: non-empty strings only. -/
def truthyStr : Option String → Bool
  | none => false
  | some s => decide (s ≠ "")

/-- The expression `x || ''`. -/
def orEmpty (x : Option String) : String :=
  match x with
  | some s => s
  | none => ""

/-- The expression `a || b` on strings: `a` unless it is empty. -/
def orStr (a b : String) : String :=
  if a = "" then b else a

/-- The expression `a || b` on optional strings: the first truthy one. -/
def orElseStr (a b : Option String) : Option String :=
  if truthyStr a then a else b

/-! ## JavaScript numbers -/

/-- A JavaScript number. -/
inductive JSNum where
  | nan : JSNum
  | inf (negative : Bool) : JSNum
  | fin (mant : Int) (exp : Int) : JSNum
  deriving DecidableEq

/-- The function `isNaN` on numbers. -/
def JSNum.isNaN : JSNum → Bool
  | .nan => true
  | _ => false

/-- Truthiness of a number: neither `NaN` nor zero. -/
def JSNum.truthy : JSNum → Bool
  | .nan => false
  | .inf _ => true
  | .fin m _ => decide (m ≠ 0)

/-- Truthiness of a number or `null`. -/
def truthyNum : Option JSNum → Bool
  | none => false
  | some n => n.truthy

/-- Value of a run of decimal digits. -/
def digitsValue (l : List Char) : Nat :=
  l.foldl (fun acc c => 10 * acc + (c.toNat - 48)) 0

/-- The exponent part `e[+-]digits` at the head of `l`, when complete. -/
def exponentPart (l : List Char) : Int :=
  match l with
  | c :: r =>
    if c = 'e' || c = 'E' then
      match r with
      | '+' :: r2 =>
        let ds := r2.takeWhile Char.isDigit
        if ds.isEmpty then 0 else (digitsValue ds : Int)
      | '-' :: r2 =>
        let ds := r2.takeWhile Char.isDigit
        if ds.isEmpty then 0 else - (digitsValue ds : Int)
      | _ =>
        let ds := r.takeWhile Char.isDigit
        if ds.isEmpty then 0 else (digitsValue ds : Int)
    else 0
  | [] => 0

/-- Canonical form of `m * 10 ^ e`: trailing zeros of the mantissa move into the
exponent (at most `fuel` of them), and zero is `0 * 10 ^ 0`. -/
def normDecimal : Nat → Nat → Int → Nat × Int
  | 0, m, e => if m = 0 then (0, 0) else (m, e)
  | fuel + 1, m, e =>
    if m = 0 then (0, 0)
    else if m % 10 = 0 then normDecimal fuel (m / 10) (e + 1)
    else (m, e)

/-- The unsigned part of `parseFloat`: the longest prefix that is a
`StrUnsignedDecimalLiteral`; `Sum.inl` is `Infinity`, `Sum.inr (m, e)` is the
value `m * 10 ^ e`. -/
def parseUnsigned (l : List Char) : Option (Sum Unit (Nat × Int)) :=
  if "Infinity".data.isPrefixOf l then some (Sum.inl ())
  else
    let ip := l.takeWhile Char.isDigit
    let r1 := l.dropWhile Char.isDigit
    match r1 with
    | '.' :: r =>
      let fp := r.takeWhile Char.isDigit
      let r2 := r.dropWhile Char.isDigit
      if ip.isEmpty && fp.isEmpty then none
      else some (Sum.inr (normDecimal (ip ++ fp).length (digitsValue (ip ++ fp))
        (exponentPart r2 - fp.length)))
    | _ =>
      if ip.isEmpty then none
      else some (Sum.inr (normDecimal ip.length (digitsValue ip) (exponentPart r1)))

/-- The global function `parseFloat` on code units. -/
def parseFloatChars (l : List Char) : JSNum :=
  match trimStartChars l with
  | '-' :: r =>
    match parseUnsigned r with
    | none => .nan
    | some (Sum.inl _) => .inf true
    | some (Sum.inr (m, e)) => .fin (-(m : Int)) e
  | '+' :: r =>
    match parseUnsigned r with
    | none => .nan
    | some (Sum.inl _) => .inf false
    | some (Sum.inr (m, e)) => .fin m e
  | r =>
    match parseUnsigned r with
    | none => .nan
    | some (Sum.inl _) => .inf false
    | some (Sum.inr (m, e)) => .fin m e

/-- The global function `parseFloat`. -/
def parseFloat (s : String) : JSNum := parseFloatChars s.data

/-! ## Values that need not be strings -/

/-- Property names of `Object.prototype` (ECMAScript, Annex B included): an
object literal has a truthy, non-string value under each of them. -/
def objectPrototypeKeys : List String :=
  ["constructor", "__defineGetter__", "__defineSetter__", "hasOwnProperty",
   "__lookupGetter__", "__lookupSetter__", "isPrototypeOf", "propertyIsEnumerable",
   "toString", "valueOf", "__proto__", "toLocaleString"]

/-- A value that need not be a string: a string, the member of
`Object.prototype` found under `key` (a built-in function, or the prototype
object itself for `__proto__`), or an array of strings (a body field that was
sent more than once). -/
inductive JSVal where
  | str (s : String) : JSVal
  | protoMember (key : String) : JSVal
  | list (items : List String) : JSVal
  deriving DecidableEq

/-- Truthiness of a value. -/
def JSVal.truthy : JSVal → Bool
  | .str s => decide (s ≠ "")
  | .protoMember _ => true
  | .list _ => true

/-- The string conversion applied by `+=` (V8 rendering of built-in functions). -/
def JSVal.toStr : JSVal → String
  | .str s => s
  | .protoMember key =>
    if key = "__proto__" then "[object Object]"
    else if key = "constructor" then "function Object() \x7b [native code] \x7d"
    else "function " ++ key ++ "() \x7b [native code] \x7d"
  | .list items => String.intercalate "," items

/-- Whether the value is a string that is not empty. -/
def JSVal.isNonEmptyString : JSVal → Bool
  | .str s => decide (s ≠ "")
  | .protoMember _ => false
  | .list _ => false

/-- Whether the value is a function: every member of `Object.prototype` but the
prototype object found under `__proto__`. -/
def JSVal.isFunction : JSVal → Bool
  | .protoMember key => decide (key ≠ "__proto__")
  | _ => false

/-! ## Photo description chain -/

/-- External calls made while serving a request. -/
inductive Provider where
  | gemini : Provider
  | google : Provider
  | osm : Provider
  | vision : Provider
  deriving DecidableEq

/-- The generic template of `analyzePhoto`. -/
def genericAnalysis : String := "Emergency incident reported. Visual evidence captured."

/-- The lookup `categoryAnalysis[category]` in the object literal of
`analyzePhoto`: the four own keys, then the inherited keys of
`Object.prototype`; `none` is `undefined`. -/
def categoryAnalysis (category : Option String) : Option JSVal :=
  match category with
  | none => none
  | some c =>
    if c = "Fire" then
      some (.str "Fire incident detected. Visible flames, smoke, or fire-related damage observed.")
    else if c = "Flood" then
      some (.str "Flooding situation visible. Water accumulation, submerged areas, or water damage present.")
    else if c = "Accident" then
      some (.str "Traffic or vehicular accident scene. Vehicles involved, debris, or emergency response visible.")
    else if c = "Electricity" then
      some (.str "Electrical issue detected. Power lines, electrical equipment, or power-related problem visible.")
    else if objectPrototypeKeys.contains c then some (.protoMember c)
    else none

/-- The function `analyzePhoto(category, description)`. -/
def analyzePhoto (category description : Option String) : JSVal :=
  let analysis : JSVal :=
    match categoryAnalysis category with
    | some v => if v.truthy then v else .str genericAnalysis
    | none => .str genericAnalysis
  if truthyStr description then
    .str (analysis.toStr ++ " Additional context: " ++ jsSubstring0 (orEmpty description) 100 ++ ".")
  else analysis

/-- Outcome of the vision call of `analyzePhotoWithGemini`. -/
inductive VisionOutcome where
  | readError : VisionOutcome
  | failure : VisionOutcome
  | text (s : String) : VisionOutcome

/-! ## Reverse geocoding chain -/

/-- The ten address fields returned by `reverseGeocode`. -/
structure AddressBundle where
  place_name : String
  full_address : String
  nearest_landmark : String
  area : String
  city : String
  taluk : String
  district : String
  state : String
  pincode : String
  country : String
  deriving DecidableEq

/-- The JSON object parsed from the Gemini answer. -/
structure GeminiLocationData where
  place_name : Option String
  full_address : Option String
  nearest_landmark : Option String
  area : Option String
  city : Option String
  taluk : Option String
  district : Option String
  state : Option String
  pincode : Option String
  country : Option String

/-- Outcome of the Gemini text call: anything thrown inside the `try`
(transport, JSON parsing) is `failure`. -/
inductive GeminiOutcome where
  | failure : GeminiOutcome
  | data (d : GeminiLocationData) : GeminiOutcome

/-- One entry of `address_components` in a Google Geocoding result. -/
structure GoogleComponent where
  long_name : String
  types : List String

/-- One entry of `results` in a Google Geocoding answer. -/
structure GoogleResult where
  formatted_address : Option String
  address_components : Option (List GoogleComponent)

/-- Outcome of the Google Geocoding request. -/
inductive GoogleOutcome where
  | failure : GoogleOutcome
  | response (status : String) (results : List GoogleResult) : GoogleOutcome

/-- The `address` object of a Nominatim answer. -/
structure OsmAddress where
  amenity : Option String
  building : Option String
  leisure : Option String
  tourism : Option String
  suburb : Option String
  neighbourhood : Option String
  quarter : Option String
  city : Option String
  town : Option String
  village : Option String
  municipality : Option String
  county : Option String
  district : Option String
  state : Option String
  region : Option String
  postcode : Option String
  country : Option String

/-- The empty object `{}` used when `data.address` is missing. -/
def OsmAddress.empty : OsmAddress :=
  ⟨none, none, none, none, none, none, none, none, none, none, none, none, none, none,
   none, none, none⟩

/-- The body of a Nominatim answer. -/
structure OsmData where
  display_name : Option String
  address : Option OsmAddress

/-- Outcome of the Nominatim request. -/
inductive OsmOutcome where
  | failure : OsmOutcome
  | data (d : OsmData) : OsmOutcome

/-- GPS tags of the parsed EXIF block. -/
structure ExifTags where
  GPSLatitude : Option JSNum
  GPSLongitude : Option JSNum

/-- Outcome of reading and parsing the EXIF block of the uploaded file. -/
inductive ExifOutcome where
  | failure : ExifOutcome
  | parsed (tags : Option ExifTags) : ExifOutcome

/-- Everything outside the server process that a request depends on: the
configuration, the built-in conversions, the answers of the providers
(`geminiAgain` is the answer to a second Gemini call within one request), the
errors raised by the database driver, the clock, the time zone of the server,
the random token and the password hash. `timezoneOffset t` is what
`getTimezoneOffset()` returns, in minutes, for a `Date` at the instant `t`
(milliseconds since the epoch); `localTimeOffset r` is the offset, in minutes,
at which `new Date` reads a date-time text without zone whose reading is `r`.
In a zone with daylight saving time both depend on their argument. -/
structure World where
  geminiAI : Bool
  GOOGLE_MAPS_API_KEY : String
  numToString : JSNum → String
  encodeURIComponent : String → String
  gemini : JSNum → JSNum → GeminiOutcome
  google : JSNum → JSNum → GoogleOutcome
  osm : JSNum → JSNum → OsmOutcome
  vision : String → Option String → Option String → VisionOutcome
  exif : String → ExifOutcome
  insertError : Option String
  readBackError : Option String
  updateError : Option String
  now : Nat
  timezoneOffset : Int → Int
  localTimeOffset : Int → Int
  geminiAgain : JSNum → JSNum → GeminiOutcome
  generateToken : String
  hashPassword : String → String
  userLookupError : Option String
  userInsertError : Option String

/-- The object returned by `reverseGeocodeWithGemini` on success. -/
def normalizeGemini (d : GeminiLocationData) : AddressBundle :=
  { place_name := orEmpty d.place_name
    full_address := orEmpty d.full_address
    nearest_landmark := orEmpty d.nearest_landmark
    area := orEmpty d.area
    city := orEmpty d.city
    taluk := orEmpty d.taluk
    district := orEmpty d.district
    state := orEmpty d.state
    pincode := orEmpty d.pincode
    country := orEmpty d.country }

/-- The function `reverseGeocodeWithGemini`: `none` is `null`. -/
def reverseGeocodeWithGemini (w : World) (latitude longitude : JSNum) :
    Option AddressBundle × List Provider :=
  if !w.geminiAI then (none, [])
  else
    match w.gemini latitude longitude with
    | .failure => (none, [Provider.gemini])
    | .data d => (some (normalizeGemini d), [Provider.gemini])

/-- The closure `getComponent(types, '')` of `reverseGeocode`. -/
def getComponent (addressComponents : List GoogleComponent) (types : List String) : String :=
  match addressComponents.find? (fun comp => types.any (fun t => comp.types.contains t)) with
  | some component => component.long_name
  | none => ""

/-- The object built from `results[0]` of a Google answer; `none` when building
it throws (`address_components[0]` on a missing array). -/
def normalizeGoogle (result : GoogleResult) : Option AddressBundle :=
  let addressComponents := result.address_components.getD []
  let landmark := addressComponents.find? (fun comp =>
    comp.types.contains "point_of_interest" || comp.types.contains "establishment"
      || comp.types.contains "premise")
  let taluk := getComponent addressComponents
    ["administrative_area_level_3", "sublocality_level_2", "sublocality_level_1"]
  let district := getComponent addressComponents ["administrative_area_level_2"]
  let placeName : Option String :=
    if truthyStr result.formatted_address then some (orEmpty result.formatted_address)
    else
      match result.address_components with
      | none => none
      | some comps => some (orEmpty (comps.head?.map (fun comp => comp.long_name)))
  match placeName with
  | none => none
  | some pn =>
    some
      { place_name := pn
        full_address := orEmpty result.formatted_address
        nearest_landmark :=
          match landmark with
          | some comp => comp.long_name
          | none => getComponent addressComponents ["premise", "establishment"]
        area := getComponent addressComponents ["sublocality", "sublocality_level_1", "neighborhood"]
        city := getComponent addressComponents ["locality"]
        taluk := orStr taluk (getComponent addressComponents ["sublocality"])
        district := orStr district (getComponent addressComponents ["administrative_area_level_2"])
        state := getComponent addressComponents ["administrative_area_level_1"]
        pincode := getComponent addressComponents ["postal_code"]
        country := getComponent addressComponents ["country"] }

/-- The object built from a Nominatim answer in `fallbackReverseGeocode`. -/
def normalizeOsm (d : OsmData) : AddressBundle :=
  let address := d.address.getD OsmAddress.empty
  { place_name := orEmpty d.display_name
    full_address := orEmpty d.display_name
    nearest_landmark := orEmpty (orElseStr (orElseStr (orElseStr address.amenity address.building)
      address.leisure) address.tourism)
    area := orEmpty (orElseStr (orElseStr address.suburb address.neighbourhood) address.quarter)
    city := orEmpty (orElseStr (orElseStr (orElseStr address.city address.town) address.village)
      address.municipality)
    taluk := orEmpty (orElseStr address.county address.district)
    district := orEmpty (orElseStr address.district address.county)
    state := orEmpty (orElseStr address.state address.region)
    pincode := orEmpty address.postcode
    country := orEmpty address.country }

/-- The object returned by the `catch` branch of `fallbackReverseGeocode`. -/
def terminalFallback (w : World) (latitude longitude : JSNum) : AddressBundle :=
  { place_name := ""
    full_address := w.numToString latitude ++ ", " ++ w.numToString longitude
    nearest_landmark := ""
    area := ""
    city := ""
    taluk := ""
    district := ""
    state := ""
    pincode := ""
    country := "" }

/-- The function `fallbackReverseGeocode`. -/
def fallbackReverseGeocode (w : World) (latitude longitude : JSNum) :
    AddressBundle × List Provider :=
  match w.osm latitude longitude with
  | .data d => (normalizeOsm d, [Provider.osm])
  | .failure => (terminalFallback w latitude longitude, [Provider.osm])

/-- The Google part of `reverseGeocode` (the `try` block after the Gemini attempt). -/
def reverseGeocodeGoogle (w : World) (latitude longitude : JSNum) :
    AddressBundle × List Provider :=
  let viaOsm := fallbackReverseGeocode w latitude longitude
  match w.google latitude longitude with
  | .response status results =>
    if status = "OK" && decide (results.length > 0) then
      match results.head? with
      | some result =>
        match normalizeGoogle result with
        | some bundle => (bundle, [Provider.google])
        | none => (viaOsm.1, Provider.google :: viaOsm.2)
      | none => (viaOsm.1, Provider.google :: viaOsm.2)
    else (viaOsm.1, Provider.google :: viaOsm.2)
  | .failure => (viaOsm.1, Provider.google :: viaOsm.2)

/-- The function `reverseGeocode`: the bundle and the provider calls made, in order. -/
def reverseGeocode (w : World) (latitude longitude : JSNum) :
    AddressBundle × List Provider :=
  if w.geminiAI then
    let geminiResult := reverseGeocodeWithGemini w latitude longitude
    let viaGoogle := reverseGeocodeGoogle w latitude longitude
    match geminiResult.1 with
    | some bundle =>
      if bundle.full_address ≠ "" then (bundle, geminiResult.2)
      else (viaGoogle.1, geminiResult.2 ++ viaGoogle.2)
    | none => (viaGoogle.1, geminiResult.2 ++ viaGoogle.2)
  else reverseGeocodeGoogle w latitude longitude

/-- The function `analyzePhotoWithGemini`; the image is named by its file name. -/
def analyzePhotoWithGemini (w : World) (filename : String) (category description : Option String) :
    JSVal × List Provider :=
  if !w.geminiAI then (analyzePhoto category description, [])
  else
    match w.vision filename category description with
    | .readError => (analyzePhoto category description, [])
    | .failure => (analyzePhoto category description, [Provider.vision])
    | .text s =>
      let analysis := jsTrim s
      if analysis ≠ "" then (.str analysis, [Provider.vision])
      else (analyzePhoto category description, [Provider.vision])

/-! ## Server clock -/

/-- The method `String(n).padStart(2, '0')` for a natural number. -/
def pad2 (n : Nat) : String :=
  if n < 10 then "0" ++ toString n else toString n

/-- Year, month and day of the proleptic Gregorian calendar, from the number of
days since 1970-01-01 (what the getters of `Date` compute). -/
def civilFromDays (days : Nat) : Nat × Nat × Nat :=
  let z := days + 719468
  let era := z / 146097
  let doe := z % 146097
  let yoe := (doe - doe / 1460 + doe / 36524 - doe / 146096) / 365
  let doy := doe - (365 * yoe + yoe / 4 - yoe / 100)
  let mp := (5 * doy + 2) / 153
  let d := doy - (153 * mp + 2) / 5 + 1
  let m := if mp < 10 then mp + 3 else mp - 9
  let y := yoe + era * 400
  (if m ≤ 2 then y + 1 else y, m, d)

/-- The function `getISTDateTime`, for the clock reading `now` (milliseconds since
the epoch) and the time zone of the server: `now.getTimezoneOffset()` is the
offset at the instant `now`, and the getters of `istTime` read that shifted
date at the offset in force at its own instant. -/
def getISTDateTime (now : Nat) (timezoneOffset : Int → Int) : String :=
  let utcTime : Int := (now : Int) + timezoneOffset now * 60 * 1000
  let istTime : Int := utcTime + 19800000
  let localMs : Nat := (istTime - timezoneOffset istTime * 60 * 1000).toNat
  let secs := localMs / 1000
  let ymd := civilFromDays (secs / 86400)
  let rem := secs % 86400
  pad2 ymd.2.2 ++ "-" ++ pad2 ymd.2.1 ++ "-" ++ toString ymd.1 ++ " "
    ++ pad2 (rem / 3600) ++ ":" ++ pad2 (rem % 3600 / 60) ++ ":" ++ pad2 (rem % 60)

/-! ## Incident store -/

/-- A row of the table `incidents`; each field holds the value handed to the
database driver for that column. -/
structure Incident where
  id : Nat
  title : String
  description : JSVal
  category : String
  location : String
  latitude : Option JSNum
  longitude : Option JSNum
  status : String
  image_url : Option String
  user_id : String
  department : Option String
  created_at : Nat
  updated_at : Nat
  place_name : String
  full_address : String
  nearest_landmark : String
  area : String
  city : String
  taluk : String
  district : String
  state : String
  pincode : String
  country : String
  google_maps_link : String
  photo_analysis : JSVal
  deriving DecidableEq

/-- The table `incidents` with its AUTOINCREMENT counter. -/
structure Store where
  incidents : List Incident
  lastId : Nat

/-! ## Ingestion handler `POST /api/incidents` -/

/-- The file accepted by `upload.single('image')`. -/
structure UploadedFile where
  filename : String

/-- A submission: the uploaded file and the fields of the multipart body, each
text field sent at most once, so that it is a string or missing. -/
structure IncidentRequest where
  file : Option UploadedFile
  title : Option String
  description : Option String
  category : Option String
  location : Option String
  latitude : Option String
  longitude : Option String
  user_id : Option String

/-- The success object of STEP 6. -/
structure SuccessBody where
  status : String
  place_name : String
  full_address : String
  nearest_landmark : String
  area : String
  city : String
  state : String
  pincode : String
  country : String
  google_maps_link : String
  photo_analysis : JSVal
  user_description : JSVal
  reported_datetime : String

/-- A JSON body sent by a handler: an object with `status` and `message`, an
object with `error`, the success object of the ingestion, a row as read back
after a status update (`none` is `undefined`), a row with its
`reported_datetime`, an array of rows, the answer of the standalone conversion
(status, the ten address fields and the map link), the answer of a signup or
login (token and user), or an object with `message`. -/
inductive ResponseBody where
  | statusMessage (status message : String) : ResponseBody
  | error (error : String) : ResponseBody
  | success (body : SuccessBody) : ResponseBody
  | row (row : Option Incident) : ResponseBody
  | incident (row : Incident) (reported_datetime : String) : ResponseBody
  | rows (rows : List Incident) : ResponseBody
  | conversion (status : String) (bundle : AddressBundle) (google_maps_link : String) :
      ResponseBody
  | session (token : String) (id : Nat) (username role : String) : ResponseBody
  | message (message : String) : ResponseBody

/-- The `status` member of a body, when it has one. -/
def ResponseBody.status? : ResponseBody → Option String
  | .statusMessage status _ => some status
  | .error _ => none
  | .success body => some body.status
  | .row r => r.map (fun x => x.status)
  | .incident r _ => some r.status
  | .rows _ => none
  | .conversion status _ _ => some status
  | .session _ _ _ _ => none
  | .message _ => none

/-- The `error` member of a body, when it has one. -/
def ResponseBody.error? : ResponseBody → Option String
  | .error text => some text
  | _ => none

/-- The row carried by a body, when it is a single row. -/
def ResponseBody.incident? : ResponseBody → Option Incident
  | .row r => r
  | .incident r _ => some r
  | _ => none

/-- An HTTP answer. -/
structure Response where
  code : Nat
  body : ResponseBody

/-- What one run of the handler did. -/
structure HandlerResult where
  response : Response
  calls : List Provider
  store : Store

/-- The function `extractGPSFromImage`, on the file named `filename`. -/
def extractGPSFromImage (w : World) (filename : String) : Option (JSNum × JSNum) :=
  match w.exif filename with
  | .failure => none
  | .parsed none => none
  | .parsed (some tags) =>
    if truthyNum tags.GPSLatitude && truthyNum tags.GPSLongitude then
      match tags.GPSLatitude, tags.GPSLongitude with
      | some lat, some lng => some (lat, lng)
      | _, _ => none
    else none

/-- The explicit field `x ? parseFloat(x) : null`. -/
def explicitCoordinate (x : Option String) : Option JSNum :=
  if truthyStr x then some (parseFloat (orEmpty x)) else none

/-- The pair read from the free-text location: the string contains a comma,
splits into exactly two parts, and `parseFloat` of each trimmed part is a number. -/
def parseLocationPair (location : Option String) : Option (JSNum × JSNum) :=
  if truthyStr location && jsIncludes (orEmpty location) ',' then
    match (jsSplit (orEmpty location) ',').map (fun c => parseFloat (jsTrim c)) with
    | [c0, c1] => if !c0.isNaN && !c1.isNaN then some (c0, c1) else none
    | _ => none
  else none

/-- STEP 2 of the handler: the values of `finalLat` and `finalLng`. -/
def resolveCoordinates (latitude longitude location : Option String)
    (gpsFromImage : Option (JSNum × JSNum)) : Option JSNum × Option JSNum :=
  let afterExif : Option JSNum × Option JSNum :=
    match gpsFromImage with
    | some gps => (some gps.1, some gps.2)
    | none => (explicitCoordinate latitude, explicitCoordinate longitude)
  if !truthyNum afterExif.1 || !truthyNum afterExif.2 then
    match parseLocationPair location with
    | some coords => (some coords.1, some coords.2)
    | none => afterExif
  else afterExif

/-- The object `locationDetails` after STEP 3. -/
structure LocationDetails where
  place_name : String
  full_address : String
  nearest_landmark : String
  area : String
  city : String
  taluk : Option String
  district : Option String
  state : String
  pincode : String
  country : String
  google_maps_link : String

/-- The map link built from a coordinate pair in STEP 3. -/
def coordinateMapLink (w : World) (lat lng : JSNum) : String :=
  "https://www.google.com/maps?q=" ++ w.numToString lat ++ "," ++ w.numToString lng
    ++ "&key=" ++ w.GOOGLE_MAPS_API_KEY

/-- The text-search map link built from the location string in STEP 3. -/
def searchMapLink (w : World) (location : Option String) : String :=
  "https://www.google.com/maps/search/" ++ w.encodeURIComponent (orEmpty location)

/-- The details built without geocoding. -/
def localDetails (w : World) (location : Option String) : LocationDetails :=
  { place_name := orEmpty location
    full_address := orEmpty location
    nearest_landmark := ""
    area := ""
    city := ""
    taluk := none
    district := none
    state := ""
    pincode := ""
    country := ""
    google_maps_link := searchMapLink w location }

/-- The details built from a geocoded bundle. -/
def geocodedDetails (w : World) (lat lng : JSNum) (bundle : AddressBundle) : LocationDetails :=
  { place_name := bundle.place_name
    full_address := bundle.full_address
    nearest_landmark := bundle.nearest_landmark
    area := bundle.area
    city := bundle.city
    taluk := some bundle.taluk
    district := some bundle.district
    state := bundle.state
    pincode := bundle.pincode
    country := bundle.country
    google_maps_link := coordinateMapLink w lat lng }

/-- STEP 3 of the handler. -/
def locateIncident (w : World) (location : Option String) (finalLat finalLng : Option JSNum) :
    LocationDetails × List Provider :=
  match finalLat, finalLng with
  | some lat, some lng =>
    if lat.truthy && lng.truthy then
      let geocoded := reverseGeocode w lat lng
      (geocodedDetails w lat lng geocoded.1, geocoded.2)
    else (localDetails w location, [])
  | _, _ => (localDetails w location, [])

/-- STEP 4 of the handler, reached with a file. -/
def describePhoto (w : World) (filename : String) (category description : Option String) :
    JSVal × List Provider :=
  if w.geminiAI then analyzePhotoWithGemini w filename category description
  else (analyzePhoto category description, [])

/-- The expression `v || ''` on a value. -/
def JSVal.orEmpty (v : JSVal) : JSVal :=
  if v.truthy then v else .str ""

/-- The row written by STEP 5. -/
def newIncident (w : World) (st : Store) (filename title category : String)
    (req : IncidentRequest) (finalLat finalLng : Option JSNum) (details : LocationDetails)
    (photo : JSVal) : Incident :=
  { id := st.lastId + 1
    title := title
    description := .str (orEmpty req.description)
    category := category
    location := if truthyStr req.location then orEmpty req.location else details.full_address
    latitude := finalLat
    longitude := finalLng
    status := "Reported"
    image_url := some ("/uploads/" ++ filename)
    user_id := if truthyStr req.user_id then orEmpty req.user_id else "anonymous"
    department := none
    created_at := w.now
    updated_at := w.now
    place_name := details.place_name
    full_address := details.full_address
    nearest_landmark := details.nearest_landmark
    area := details.area
    city := details.city
    taluk := orEmpty details.taluk
    district := orEmpty details.district
    state := details.state
    pincode := details.pincode
    country := details.country
    google_maps_link := details.google_maps_link
    photo_analysis := photo }

/-- The success object of STEP 6. -/
def successBody (w : World) (req : IncidentRequest) (finalLat finalLng : Option JSNum)
    (details : LocationDetails) (photo : JSVal) : SuccessBody :=
  { status := "success"
    place_name := details.place_name
    full_address := details.full_address
    nearest_landmark := details.nearest_landmark
    area := details.area
    city := details.city
    state := details.state
    pincode := details.pincode
    country := details.country
    google_maps_link := orStr details.google_maps_link
      ("https://www.google.com/maps?q="
        ++ (if truthyNum finalLat then (finalLat.map w.numToString).getD "" else "") ++ ","
        ++ (if truthyNum finalLng then (finalLng.map w.numToString).getD "" else ""))
    photo_analysis := photo.orEmpty
    user_description := .str (orEmpty req.description)
    reported_datetime := getISTDateTime w.now w.timezoneOffset }

/-- The handler of `POST /api/incidents` on a body whose text fields are each
sent at most once. On such a body no statement of the `try` block throws;
`postIncidentsMultipart` below is the handler with its `catch` branch, on a
body whose description may be repeated, and agrees with this one on the bodies
of this kind. -/
def postIncidents (w : World) (st : Store) (req : IncidentRequest) : HandlerResult :=
  match req.file with
  | none =>
    { response := ⟨400, .statusMessage "error"
        "Camera image is required. Report cannot be accepted."⟩
      calls := []
      store := st }
  | some file =>
    match req.title, req.category with
    | some title, some category =>
      if title = "" || category = "" then
        { response := ⟨400, .error "Title and category are required"⟩, calls := [], store := st }
      else
        let final := resolveCoordinates req.latitude req.longitude req.location
          (extractGPSFromImage w file.filename)
        let located := locateIncident w req.location final.1 final.2
        let described := describePhoto w file.filename req.category req.description
        let calls := located.2 ++ described.2
        match w.insertError with
        | some message => { response := ⟨500, .error message⟩, calls := calls, store := st }
        | none =>
          let row := newIncident w st file.filename title category req final.1 final.2
            located.1 described.1
          let st2 : Store := { incidents := st.incidents ++ [row], lastId := st.lastId + 1 }
          match w.readBackError with
          | some message => { response := ⟨500, .error message⟩, calls := calls, store := st2 }
          | none =>
            { response := ⟨201, .success (successBody w req final.1 final.2 located.1
                described.1)⟩
              calls := calls
              store := st2 }
    | _, _ =>
      { response := ⟨400, .error "Title and category are required"⟩, calls := [], store := st }

/-! ## Ingestion of a body with a repeated description -/

/-- The field `description` of a multipart body: sent at most once (a string, or
missing), or sent more than once, which the body parser delivers as the array
of its values. A field name with brackets (`description[key]`), which the
parser delivers as an object, is outside the model. -/
inductive DescriptionField where
  | single (value : Option String) : DescriptionField
  | repeated (values : List String) : DescriptionField

/-- The expression `description || ''`: an array is truthy. -/
def DescriptionField.orEmpty : DescriptionField → JSVal
  | .single value => .str (DisasterAlert.orEmpty value)
  | .repeated values => .list values

/-- The description as the prompt of the photo description provider shows it:
an array is written as its values joined by commas. -/
def DescriptionField.text : DescriptionField → Option String
  | .single value => value
  | .repeated values => some (String.intercalate "," values)

/-- A submission as the body parser delivers it: the uploaded file and the fields
of the multipart body. The text fields other than `description` are taken as
sent at most once. -/
structure MultipartSubmission where
  file : Option UploadedFile
  title : Option String
  description : DescriptionField
  category : Option String
  location : Option String
  latitude : Option String
  longitude : Option String
  user_id : Option String

/-- The submission whose text fields are those of `req`, each sent at most once. -/
def MultipartSubmission.ofRequest (req : IncidentRequest) : MultipartSubmission :=
  { file := req.file
    title := req.title
    description := .single req.description
    category := req.category
    location := req.location
    latitude := req.latitude
    longitude := req.longitude
    user_id := req.user_id }

/-- The fields of a submission other than a repeated description. -/
def MultipartSubmission.fields (sub : MultipartSubmission) : IncidentRequest :=
  { file := sub.file
    title := sub.title
    description :=
      match sub.description with
      | .single value => value
      | .repeated _ => none
    category := sub.category
    location := sub.location
    latitude := sub.latitude
    longitude := sub.longitude
    user_id := sub.user_id }

/-- The function `analyzePhoto` on any description; `none` is a thrown error. An
array is truthy and has no method `substring`, so `description.substring(0, 100)`
throws a TypeError. -/
def analyzePhotoAny (category : Option String) (description : DescriptionField) : Option JSVal :=
  match description with
  | .single value => some (analyzePhoto category value)
  | .repeated _ => none

/-- The function `analyzePhotoWithGemini` on any description; `none` is a thrown
error. Both `analysis || analyzePhoto(...)` inside the `try` block and the call
in its `catch` branch end in `analyzePhoto`, which throws on an array. -/
def analyzePhotoWithGeminiAny (w : World) (filename : String) (category : Option String)
    (description : DescriptionField) : Option JSVal × List Provider :=
  if !w.geminiAI then (analyzePhotoAny category description, [])
  else
    match w.vision filename category description.text with
    | .readError => (analyzePhotoAny category description, [])
    | .failure => (analyzePhotoAny category description, [Provider.vision])
    | .text s =>
      let analysis := jsTrim s
      if analysis ≠ "" then (some (.str analysis), [Provider.vision])
      else (analyzePhotoAny category description, [Provider.vision])

/-- STEP 4 of the handler on any description; `none` is an error thrown out of
the step: the `catch` of the step calls `analyzePhoto` again. -/
def describePhotoAny (w : World) (filename : String) (category : Option String)
    (description : DescriptionField) : Option JSVal × List Provider :=
  if w.geminiAI then
    let viaGemini := analyzePhotoWithGeminiAny w filename category description
    match viaGemini.1 with
    | some photo => (some photo, viaGemini.2)
    | none => (analyzePhotoAny category description, viaGemini.2)
  else (analyzePhotoAny category description, [])

/-- The handler of `POST /api/incidents`, with the `catch` branch of its `try`
block: an error thrown by STEP 4 is answered with HTTP 500 before anything is
stored. The row and the success object are those of the body with one
description, with `description || ''` in the place of the description. -/
def postIncidentsMultipart (w : World) (st : Store) (sub : MultipartSubmission) :
    HandlerResult :=
  match sub.file with
  | none =>
    { response := ⟨400, .statusMessage "error"
        "Camera image is required. Report cannot be accepted."⟩
      calls := []
      store := st }
  | some file =>
    match sub.title, sub.category with
    | some title, some category =>
      if title = "" || category = "" then
        { response := ⟨400, .error "Title and category are required"⟩, calls := [], store := st }
      else
        let final := resolveCoordinates sub.latitude sub.longitude sub.location
          (extractGPSFromImage w file.filename)
        let located := locateIncident w sub.location final.1 final.2
        let described := describePhotoAny w file.filename sub.category sub.description
        let calls := located.2 ++ described.2
        match described.1 with
        | none =>
          { response := ⟨500, .statusMessage "error"
              "Failed to process incident. Please try again."⟩
            calls := calls
            store := st }
        | some photo =>
          match w.insertError with
          | some message => { response := ⟨500, .error message⟩, calls := calls, store := st }
          | none =>
            let row : Incident :=
              { newIncident w st file.filename title category sub.fields final.1 final.2
                  located.1 photo with
                description := sub.description.orEmpty }
            let st2 : Store := { incidents := st.incidents ++ [row], lastId := st.lastId + 1 }
            match w.readBackError with
            | some message => { response := ⟨500, .error message⟩, calls := calls, store := st2 }
            | none =>
              { response := ⟨201, .success
                  { successBody w sub.fields final.1 final.2 located.1 photo with
                    user_description := sub.description.orEmpty }⟩
                calls := calls
                store := st2 }
    | _, _ =>
      { response := ⟨400, .error "Title and category are required"⟩, calls := [], store := st }

/-! ## A concrete world -/

/-- Percent-encoding of one byte. -/
def percentByte (b : Nat) : List Char :=
  ['%', (Nat.toDigits 16 (b / 16)).head!.toUpper, (Nat.toDigits 16 (b % 16)).head!.toUpper]

/-- UTF-8 bytes of a code point of the Basic Multilingual Plane. -/
def utf8Bytes (n : Nat) : List Nat :=
  if n < 128 then [n]
  else if n < 2048 then [192 + n / 64, 128 + n % 64]
  else [224 + n / 4096, 128 + n / 64 % 64, 128 + n % 64]

/-- Characters left alone by `encodeURIComponent`. -/
def isUriUnreserved (c : Char) : Bool :=
  c.isAlphanum || c = '-' || c = '_' || c = '.' || c = '!' || c = '~' || c = '*'
    || c.toNat = 39 || c = '(' || c = ')'

/-- The global function `encodeURIComponent` on well-formed text. -/
def encodeURIComponentText (s : String) : String :=
  String.mk (s.data.flatMap (fun c =>
    if isUriUnreserved c then [c] else (utf8Bytes c.toNat).flatMap percentByte))

/-- Plain decimal rendering of a number, as JavaScript prints values of ordinary
magnitude. -/
def decimalToString : JSNum → String
  | .nan => "NaN"
  | .inf true => "-Infinity"
  | .inf false => "Infinity"
  | .fin m e =>
    let norm := normDecimal (toString m.natAbs).length m.natAbs e
    let digits := toString norm.1
    let sign := if m < 0 then "-" else ""
    if 0 ≤ norm.2 then sign ++ digits ++ String.mk (List.replicate norm.2.toNat '0')
    else
      let k := (-norm.2).toNat
      if k < digits.length then
        sign ++ String.mk (digits.data.take (digits.length - k)) ++ "."
          ++ String.mk (digits.data.drop (digits.length - k))
      else sign ++ "0." ++ String.mk (List.replicate (k - digits.length) '0') ++ digits

/-- A world in which no AI provider is configured and every request to a
geocoding provider fails. -/
def offlineWorld : World :=
  { geminiAI := false
    GOOGLE_MAPS_API_KEY := "test-key"
    numToString := decimalToString
    encodeURIComponent := encodeURIComponentText
    gemini := fun _ _ => .failure
    google := fun _ _ => .failure
    osm := fun _ _ => .failure
    vision := fun _ _ _ => .failure
    exif := fun _ => .parsed none
    insertError := none
    readBackError := none
    updateError := none
    now := 1730793600000
    timezoneOffset := fun _ => 0
    localTimeOffset := fun _ => 0
    geminiAgain := fun _ _ => .failure
    generateToken := "3f9a1c0de4b7"
    hashPassword := fun password => "sha256:" ++ password
    userLookupError := none
    userInsertError := none }

/-- The empty table. -/
def emptyStore : Store := { incidents := [], lastId := 0 }

/-- A submission without a photo. -/
def requestWithoutPhoto : IncidentRequest :=
  { file := none
    title := some "Fire at the market"
    description := some "Smoke from the roof"
    category := some "Fire"
    location := some "12.9716, 77.5946"
    latitude := some "12.9716"
    longitude := some "77.5946"
    user_id := some "7" }

/-- A photo named `photo.jpg`, without GPS tags in `offlineWorld`. -/
def plainPhoto : UploadedFile := { filename := "photo.jpg" }

/-- A submission with explicit latitude "0" and longitude "77.5" and a free-text
coordinate pair. -/
def requestZeroLatitude : IncidentRequest :=
  { file := some plainPhoto
    title := some "Flooded underpass"
    description := none
    category := some "Flood"
    location := some "12.9, 77.6"
    latitude := some "0"
    longitude := some "77.5"
    user_id := none }

/-- A submission with an explicit latitude, no longitude and a location text that
holds no coordinates. -/
def requestLatitudeOnly : IncidentRequest :=
  { file := some plainPhoto
    title := some "Tree on the road"
    description := none
    category := some "Accident"
    location := some "near the old bridge"
    latitude := some "12.5"
    longitude := none
    user_id := none }

/-- Whether the text starts with an unsigned decimal literal or `Infinity`. -/
def beginsWithDecimal (l : List Char) : Bool :=
  "Infinity".data.isPrefixOf l ||
    match l with
    | c :: r =>
      c.isDigit || (c == '.' &&
        match r with
        | d :: _ => d.isDigit
        | [] => false)
    | [] => false

/-- Whether the text, after leading white space and an optional sign, starts with
a number: what `parseFloat` needs to return something other than `NaN`. -/
def beginsWithNumber (l : List Char) : Bool :=
  match trimStartChars l with
  | '-' :: r => beginsWithDecimal r
  | '+' :: r => beginsWithDecimal r
  | r => beginsWithDecimal r

/-- An EXIF block with both GPS tags set. -/
def taggedExif : ExifTags :=
  { GPSLatitude := some (.fin 13 0), GPSLongitude := some (.fin 80 0) }

/-- The offline world with a photo that carries GPS tags. -/
def taggedWorld : World := { offlineWorld with exif := fun _ => .parsed (some taggedExif) }

/-! ## The geocoding chain as an ordered list of attempts -/

/-- Success of the Gemini attempt in `reverseGeocode`: an answer whose normalized
`full_address` is not empty. -/
def geminiAttempt (w : World) (latitude longitude : JSNum) : Option AddressBundle :=
  match w.gemini latitude longitude with
  | .data d => if (normalizeGemini d).full_address ≠ "" then some (normalizeGemini d) else none
  | .failure => none

/-- Success of the Google attempt in `reverseGeocode`: status `OK`, a first result,
and an object built from it without an exception. -/
def googleAttempt (w : World) (latitude longitude : JSNum) : Option AddressBundle :=
  match w.google latitude longitude with
  | .response status results => if status = "OK" then results.head?.bind normalizeGoogle else none
  | .failure => none

/-- Success of the OpenStreetMap attempt in `fallbackReverseGeocode`: any answer. -/
def osmAttempt (w : World) (latitude longitude : JSNum) : Option AddressBundle :=
  match w.osm latitude longitude with
  | .data d => some (normalizeOsm d)
  | .failure => none

/-- A chain runner in the words of the specification: the attempts are tried in
order, the first success is the result, and the terminal value is used when none
succeeds; the providers tried are listed in order. -/
def firstSuccess : List (Provider × Option AddressBundle) → AddressBundle →
    AddressBundle × List Provider
  | [], terminal => (terminal, [])
  | (p, some bundle) :: _, _ => (bundle, [p])
  | (p, none) :: rest, terminal => ((firstSuccess rest terminal).1, p :: (firstSuccess rest terminal).2)

/-- The attempts of `reverseGeocode`, in order. -/
def geocodeChain (w : World) (latitude longitude : JSNum) :
    List (Provider × Option AddressBundle) :=
  (if w.geminiAI then [(Provider.gemini, geminiAttempt w latitude longitude)] else [])
    ++ [(Provider.google, googleAttempt w latitude longitude),
        (Provider.osm, osmAttempt w latitude longitude)]

/-- A Google answer with status `OK` whose first result has no formatted address. -/
def blankGoogleResult : GoogleResult :=
  { formatted_address := none, address_components := some [] }

/-- A world where Google answers `OK` without a formatted address and
OpenStreetMap knows the place. -/
def blankGoogleWorld : World :=
  { offlineWorld with
    google := fun _ _ => .response "OK" [blankGoogleResult]
    osm := fun _ _ => .data { display_name := some "MG Road, Bengaluru", address := none } }

/-- A world where Google fails and OpenStreetMap answers without a display name
(its answer for a point it cannot geocode). -/
def blankOsmWorld : World :=
  { offlineWorld with osm := fun _ _ => .data { display_name := none, address := none } }

/-- A submission with a photo and explicit coordinates 12.9716, 77.5946. -/
def requestExplicitPair : IncidentRequest :=
  { file := some plainPhoto
    title := some "Transformer sparks"
    description := none
    category := some "Electricity"
    location := none
    latitude := some "12.9716"
    longitude := some "77.5946"
    user_id := some "7" }

/-- No component of the list carries any of the given types. -/
def lacksTypes (components : List GoogleComponent) (types : List String) : Prop :=
  ∀ comp ∈ components, ∀ t ∈ types, t ∉ comp.types

/-- The offline world with the AI provider configured and every call to it failing. -/
def visionDownWorld : World := { offlineWorld with geminiAI := true }

/-- A submission whose category is the text "constructor", without description. -/
def requestConstructorCategory : IncidentRequest :=
  { file := some plainPhoto
    title := some "Report"
    description := none
    category := some "constructor"
    location := some "MG Road"
    latitude := none
    longitude := none
    user_id := none }

/-! ## Database engine -/

/-- What the SQL engine decides and the source does not: how a bound text
compares with the INTEGER column `id`, and the outcome of `db.all` on the
statement of the nearby handler (the coordinates of the centre, the radius and
the table are its inputs). -/
structure SqlEngine where
  idEquals : String → Nat → Bool
  nearbyAll : JSNum → JSNum → JSNum → List Incident → Except String (List Incident)

/-- White space that SQLite skips around a number. -/
def isSqlSpace (c : Char) : Bool :=
  c = ' ' || c.toNat = 9 || c.toNat = 10 || c.toNat = 12 || c.toNat = 13

/-- Whether the characters are, to the end, `digits [. digits] [e [+-] digits]`. -/
def isNumericBody (l : List Char) : Bool :=
  let ip := l.takeWhile Char.isDigit
  let r1 := l.dropWhile Char.isDigit
  let mantissa : List Char × Bool :=
    match r1 with
    | '.' :: r => (r.dropWhile Char.isDigit, !(ip.isEmpty && (r.takeWhile Char.isDigit).isEmpty))
    | _ => (r1, !ip.isEmpty)
  mantissa.2 &&
    match mantissa.1 with
    | [] => true
    | c :: r =>
      (c = 'e' || c = 'E') &&
        match r with
        | '+' :: t => !t.isEmpty && t.all Char.isDigit
        | '-' :: t => !t.isEmpty && t.all Char.isDigit
        | t => !t.isEmpty && t.all Char.isDigit

/-- Whether the whole text, white space around it apart, is a signed decimal
number: the texts SQLite converts to a number before comparing them with an
INTEGER column. -/
def isNumericText (s : String) : Bool :=
  match ((s.data.dropWhile isSqlSpace).reverse.dropWhile isSqlSpace).reverse with
  | '-' :: r => isNumericBody r
  | '+' :: r => isNumericBody r
  | r => isNumericBody r

/-- The comparison `id = ?` of SQLite for a bound text: the text is a number and
its value is the integer `id`. -/
def sqliteIdEquals (text : String) (id : Nat) : Bool :=
  isNumericText text &&
    parseFloat text == JSNum.fin (normDecimal (toString id).length id 0).1
      (normDecimal (toString id).length id 0).2

/-- The engine the server uses. SQLite refuses to prepare the statement of the
nearby handler, which has a HAVING clause and no aggregate, so `db.all` reports
an error for it. -/
def sqlite : SqlEngine :=
  { idEquals := sqliteIdEquals
    nearbyAll := fun _ _ _ _ => .error "HAVING clause on a non-aggregate query" }

/-! ## Authentication middleware -/

/-- The value kept in `activeTokens` for a token. -/
structure UserData where
  id : Nat
  username : String
  role : String

/-- The places where `authenticateToken` looks for a token. -/
structure Credentials where
  authorization : Option String
  queryToken : Option String
  bodyToken : Option String

/-- The value of `token` in `authenticateToken` before it is checked. -/
def extractToken (c : Credentials) : Option String :=
  let fromHeader : Option String :=
    if truthyStr c.authorization then
      if "Bearer ".data.isPrefixOf (orEmpty c.authorization).data then
        some (jsTrim (String.mk ((orEmpty c.authorization).data.drop 7)))
      else some (jsTrim (orEmpty c.authorization))
    else none
  let fromQuery : Option String :=
    if !truthyStr fromHeader && truthyStr c.queryToken then some (jsTrim (orEmpty c.queryToken))
    else fromHeader
  if !truthyStr fromQuery && truthyStr c.bodyToken then some (jsTrim (orEmpty c.bodyToken))
  else fromQuery

/-- The middleware `authenticateToken`: the user bound to `req.user`, or the
answer that ends the request. -/
def authenticateToken (activeTokens : List (String × UserData)) (c : Credentials) :
    Except Response UserData :=
  if !truthyStr (extractToken c) then .error ⟨401, .error "No token provided"⟩
  else
    match activeTokens.lookup (orEmpty (extractToken c)) with
    | none => .error ⟨401, .error "Invalid or expired token. Please login again."⟩
    | some userData => .ok userData

/-- The middleware `requireAdmin`, after `authenticateToken` has set `req.user`. -/
def requireAdmin (user : UserData) : Except Response Unit :=
  if user.role ≠ "admin" then .error ⟨403, .error "Admin access required"⟩ else .ok ()

/-! ## Rows read back from the database -/

/-- The value that a REAL column returns for a bound number: SQLite keeps `NaN`
as NULL. -/
def sqlReal : Option JSNum → Option JSNum
  | some .nan => none
  | x => x

/-- The value that a TEXT column returns for a bound value: the driver binds a
value that is an object (a function, an array) as the text "[object Object]". -/
def sqlText : JSVal → JSVal
  | .str s => .str s
  | _ => .str "[object Object]"

/-- The row that a SELECT returns for a row written with the given values; the
time stamps have a resolution of one second. -/
def selectRow (row : Incident) : Incident :=
  { row with
    latitude := sqlReal row.latitude
    longitude := sqlReal row.longitude
    description := sqlText row.description
    photo_analysis := sqlText row.photo_analysis
    created_at := row.created_at / 1000 * 1000
    updated_at := row.updated_at / 1000 * 1000 }

/-- The value that `JSON.stringify` writes for a number: `null` for `NaN` and
for the infinities. -/
def jsonNumber : Option JSNum → Option JSNum
  | some (.fin m e) => some (.fin m e)
  | _ => none

/-- The row as `res.json` sends it. -/
def jsonRow (row : Incident) : Incident :=
  { row with latitude := jsonNumber row.latitude, longitude := jsonNumber row.longitude }

/-! ## Status update `PATCH /api/incidents/:id/status` -/

/-- The array `validStatuses`. -/
def validStatuses : List String := ["Reported", "Verified", "In Progress", "Resolved"]

/-- A status update request. -/
structure StatusUpdateRequest where
  credentials : Credentials
  id : String
  status : Option String
  department : Option String

/-- What one run of the status handler did. -/
structure UpdateResult where
  response : Response
  store : Store

/-- The row after `UPDATE incidents SET status = ?, department = ?,
updated_at = CURRENT_TIMESTAMP`. -/
def applyStatus (w : World) (status : String) (department : Option String) (row : Incident) :
    Incident :=
  { row with
    status := status
    department := if truthyStr department then department else none
    updated_at := w.now }

/-- The handler of the status update, without its middlewares. -/
def updateStatus (db : SqlEngine) (w : World) (st : Store) (req : StatusUpdateRequest) :
    UpdateResult :=
  if !truthyStr req.status || !validStatuses.contains (orEmpty req.status) then
    { response := ⟨400, .error "Invalid status"⟩, store := st }
  else
    match w.updateError with
    | some message => { response := ⟨500, .error message⟩, store := st }
    | none =>
      let st2 : Store :=
        { st with
          incidents := st.incidents.map (fun row =>
            if db.idEquals req.id row.id then
              applyStatus w (orEmpty req.status) req.department row
            else row) }
      match w.readBackError with
      | some message => { response := ⟨500, .error message⟩, store := st2 }
      | none =>
        { response := ⟨200, .row ((st2.incidents.find? (fun row => db.idEquals req.id row.id)).map
            (fun row => jsonRow (selectRow row)))⟩
          store := st2 }

/-- The route `PATCH /api/incidents/:id/status`: `authenticateToken`, then
`requireAdmin`, then the handler. -/
def patchIncidentStatus (db : SqlEngine) (w : World) (activeTokens : List (String × UserData))
    (st : Store) (req : StatusUpdateRequest) : UpdateResult :=
  match authenticateToken activeTokens req.credentials with
  | .error response => { response := response, store := st }
  | .ok user =>
    match requireAdmin user with
    | .error response => { response := response, store := st }
    | .ok _ => updateStatus db w st req

/-! ## Read handlers and the route table -/

/-- The function `formatISTDateTime` on the `created_at` text of a row written at
clock reading `created`: the text has a resolution of one second, holds UTC, and
is read by `new Date` as local time. -/
def formatISTDateTime (created : Nat) (timezoneOffset localTimeOffset : Int → Int) : String :=
  let reading : Int := ((created / 1000 * 1000 : Nat) : Int)
  let dateTime : Int := reading + localTimeOffset reading * 60 * 1000
  let utcTime : Int := dateTime + timezoneOffset dateTime * 60 * 1000
  let istTime : Int := utcTime + 19800000
  let localMs : Nat := (istTime - timezoneOffset istTime * 60 * 1000).toNat
  let secs := localMs / 1000
  let ymd := civilFromDays (secs / 86400)
  let rem := secs % 86400
  pad2 ymd.2.2 ++ "-" ++ pad2 ymd.2.1 ++ "-" ++ toString ymd.1 ++ " "
    ++ pad2 (rem / 3600) ++ ":" ++ pad2 (rem % 3600 / 60) ++ ":" ++ pad2 (rem % 60)

/-- The handler of `GET /api/incidents/:id`. -/
def getIncident (db : SqlEngine) (w : World) (st : Store) (id : String) : Response :=
  match w.readBackError with
  | some message => ⟨500, .error message⟩
  | none =>
    match st.incidents.find? (fun row => db.idEquals id row.id) with
    | none => ⟨404, .error "Incident not found"⟩
    | some row =>
      ⟨200, .incident (jsonRow (selectRow row))
        (formatISTDateTime (selectRow row).created_at w.timezoneOffset w.localTimeOffset)⟩

/-- The query parameters read by the nearby handler. -/
structure NearbyQuery where
  latitude : Option String
  longitude : Option String
  radius : Option String

/-- The handler of `GET /api/incidents/nearby`. -/
def getNearbyIncidents (db : SqlEngine) (st : Store) (q : NearbyQuery) : Response :=
  if !truthyStr q.latitude || !truthyStr q.longitude then
    ⟨400, .error "Latitude and longitude required"⟩
  else
    match db.nearbyAll (parseFloat (orEmpty q.latitude)) (parseFloat (orEmpty q.longitude))
        (match q.radius with
          | none => parseFloat "5000"
          | some radius => parseFloat radius)
        st.incidents with
    | .error message => ⟨500, .error message⟩
    | .ok rows => ⟨200, .rows (rows.map (fun row => jsonRow (selectRow row)))⟩

/-- A segment of a route path: literal text or a named parameter. -/
inductive Segment where
  | lit (text : String) : Segment
  | param (name : String) : Segment

/-- The handlers registered with `app.get`. -/
inductive GetHandler where
  | authMe : GetHandler
  | listIncidents : GetHandler
  | incidentById : GetHandler
  | incidentLocation : GetHandler
  | userIncidents : GetHandler
  | nearbyIncidents : GetHandler
  | roleBased : GetHandler
  | analytics : GetHandler
  | departments : GetHandler
  | landing : GetHandler
  deriving DecidableEq

/-- The `app.get` routes of `server.js`, in the order of their registration. -/
def getRoutes : List (List Segment × GetHandler) :=
  [ ([.lit "api", .lit "auth", .lit "me"], .authMe),
    ([.lit "api", .lit "incidents"], .listIncidents),
    ([.lit "api", .lit "incidents", .param "id"], .incidentById),
    ([.lit "api", .lit "incidents", .param "id", .lit "location"], .incidentLocation),
    ([.lit "api", .lit "users", .param "userId", .lit "incidents"], .userIncidents),
    ([.lit "api", .lit "incidents", .lit "nearby"], .nearbyIncidents),
    ([.lit "api", .lit "incidents", .lit "role-based"], .roleBased),
    ([.lit "api", .lit "analytics"], .analytics),
    ([.lit "api", .lit "departments"], .departments),
    ([], .landing) ]

/-- Lower case of a text, as the router compares literal segments. -/
def lowerText (s : String) : String := String.mk (s.data.map Char.toLower)

/-- The segments of a request path: the text between the slashes, one trailing
slash being optional. -/
def pathSegments (path : String) : Option (List String) :=
  match jsSplit path '/' with
  | "" :: rest => some (if rest.getLast? = some "" then rest.dropLast else rest)
  | _ => none

/-- Matching of a route path against the segments of a request path; the result
binds the parameters. A parameter takes one non-empty segment. -/
def matchSegments : List Segment → List String → Option (List (String × String))
  | [], [] => some []
  | .lit text :: pattern, segment :: segments =>
    if lowerText text = lowerText segment then matchSegments pattern segments else none
  | .param name :: pattern, segment :: segments =>
    if segment = "" then none
    else (matchSegments pattern segments).map (fun params => (name, segment) :: params)
  | _, _ => none

/-- The first route, in registration order, whose path matches. -/
def firstMatch : List (List Segment × GetHandler) → List String →
    Option (GetHandler × List (String × String))
  | [], _ => none
  | (pattern, handler) :: routes, segments =>
    match matchSegments pattern segments with
    | some params => some (handler, params)
    | none => firstMatch routes segments

/-- The handler that serves a GET request for `path`, with its parameters. -/
def dispatchGet (path : String) : Option (GetHandler × List (String × String)) :=
  (pathSegments path).bind (firstMatch getRoutes)

/-- The answer to a GET request, for the handlers of this development (`none`
for the other handlers and for a path without a route). -/
def handleGet (db : SqlEngine) (w : World) (st : Store) (path : String) (q : NearbyQuery) :
    Option Response :=
  match dispatchGet path with
  | some (.incidentById, params) => some (getIncident db w st (orEmpty (params.lookup "id")))
  | some (.nearbyIncidents, _) => some (getNearbyIncidents db st q)
  | _ => none

/-- The members of the JSON text that `res.status(201).json` sends for the
object of STEP 6, key by key: `JSON.stringify` leaves out a member whose value
is a function. -/
def SuccessBody.toObject (b : SuccessBody) : List (String × JSVal) :=
  List.filter (fun member => !member.2.isFunction)
  [ ("status", .str b.status),
    ("place_name", .str b.place_name),
    ("full_address", .str b.full_address),
    ("nearest_landmark", .str b.nearest_landmark),
    ("area", .str b.area),
    ("city", .str b.city),
    ("state", .str b.state),
    ("pincode", .str b.pincode),
    ("country", .str b.country),
    ("google_maps_link", .str b.google_maps_link),
    ("photo_analysis", b.photo_analysis),
    ("user_description", b.user_description),
    ("reported_datetime", .str b.reported_datetime) ]

/-! ## Reachable stores -/

/-- The stores reachable from the empty table by ingestions (of bodies with one
description or with a repeated one) and status update requests, each in an
arbitrary world and with arbitrary active tokens. -/
inductive Reachable : Store → Prop where
  | empty : Reachable { incidents := [], lastId := 0 }
  | ingest (w : World) (st : Store) (req : IncidentRequest) :
      Reachable st → Reachable (postIncidents w st req).store
  | ingestMultipart (w : World) (st : Store) (sub : MultipartSubmission) :
      Reachable st → Reachable (postIncidentsMultipart w st sub).store
  | update (db : SqlEngine) (w : World) (activeTokens : List (String × UserData)) (st : Store)
      (req : StatusUpdateRequest) :
      Reachable st → Reachable (patchIncidentStatus db w activeTokens st req).store

/-! ## Sample data for the status workflow and the read handlers -/

/-- A stored incident with the given id, coordinates and status. -/
def sampleIncident (id : Nat) (latitude longitude : Option JSNum) (status : String) : Incident :=
  { id := id
    title := "Fire at the market"
    description := .str "Smoke from the roof"
    category := "Fire"
    location := "MG Road"
    latitude := latitude
    longitude := longitude
    status := status
    image_url := some "/uploads/1730793600000-photo.jpg"
    user_id := "7"
    department := some "Fire"
    created_at := 1730790000000
    updated_at := 1730790000000
    place_name := "MG Road"
    full_address := "MG Road, Bengaluru"
    nearest_landmark := ""
    area := ""
    city := "Bengaluru"
    taluk := "Bangalore North"
    district := "Bengaluru Urban"
    state := "Karnataka"
    pincode := "560001"
    country := "India"
    google_maps_link := "https://www.google.com/maps?q=12.9716,77.5946&key=test-key"
    photo_analysis := .str "Fire incident detected." }

/-- A table with a resolved incident 1 and a reported incident 2. -/
def twoIncidents : Store :=
  { incidents := [sampleIncident 1 (some (.fin 129716 (-4))) (some (.fin 775946 (-4))) "Resolved",
      sampleIncident 2 (some (.fin 13 0)) (some (.fin 80 0)) "Reported"]
    lastId := 2 }

/-- Active tokens of an administrator and of a citizen. -/
def sampleTokens : List (String × UserData) :=
  [("admin-token", { id := 1, username := "admin", role := "admin" }),
   ("citizen-token", { id := 2, username := "asha", role := "user" })]

/-- A status update sent with the given Authorization header. -/
def statusRequest (authorization : Option String) (id : String) (status : Option String) :
    StatusUpdateRequest :=
  { credentials := { authorization := authorization, queryToken := none, bodyToken := none }
    id := id
    status := status
    department := none }

/-- The array of rows carried by a body, when it is one. -/
def ResponseBody.rows? (body : ResponseBody) : Option (List Incident) :=
  match body with
  | ResponseBody.rows list => some list
  | _ => none

/-- The success object carried by a body, when it is one. -/
def ResponseBody.success? : ResponseBody → Option SuccessBody
  | .success body => some body
  | _ => none

/-- A table with open incidents about 0 m, 4999 m, 5000 m and 5001 m north of the
point 12, 77 (one degree of latitude is about 111195 m) and a resolved incident
at that point. -/
def nearbyScenario : Store :=
  { incidents :=
      [sampleIncident 1 (some (.fin 12 0)) (some (.fin 77 0)) "Reported",
       sampleIncident 2 (some (.fin 120449571 (-7))) (some (.fin 77 0)) "Verified",
       sampleIncident 3 (some (.fin 120449661 (-7))) (some (.fin 77 0)) "Reported",
       sampleIncident 4 (some (.fin 120449751 (-7))) (some (.fin 77 0)) "In Progress",
       sampleIncident 5 (some (.fin 12 0)) (some (.fin 77 0)) "Resolved"]
    lastId := 5 }

/-- A table with eleven open incidents at the point 12, 77. -/
def crowdedStore : Store :=
  { incidents := (List.range 11).map (fun i =>
      sampleIncident (i + 1) (some (.fin 12 0)) (some (.fin 77 0)) "Reported")
    lastId := 11 }

/-- The query `?latitude=12&longitude=77&radius=5000`. -/
def centreQuery : NearbyQuery :=
  { latitude := some "12", longitude := some "77", radius := some "5000" }

/-- The query `?latitude=12&longitude=77`, without a radius. -/
def centreQueryDefaultRadius : NearbyQuery :=
  { latitude := some "12", longitude := some "77", radius := none }

/-- The two decimal digits of a number below 100. -/
def twoDigits (n : Nat) : List Char := [Nat.digitChar (n / 10), Nat.digitChar (n % 10)]

/-- The four decimal digits of a number below 10000. -/
def fourDigits (n : Nat) : List Char :=
  [Nat.digitChar (n / 1000), Nat.digitChar (n / 100 % 10), Nat.digitChar (n / 10 % 10),
   Nat.digitChar (n % 10)]

/-- A world where the AI provider is not configured, Google fails and
OpenStreetMap resolves every point to an address in Bengaluru. -/
def osmWorld : World :=
  { offlineWorld with
    osm := fun _ _ => .data
      { display_name := some "MG Road, Bengaluru"
        address := some
          { OsmAddress.empty with
            city := some "Bengaluru"
            county := some "Bangalore North"
            district := some "Bengaluru Urban"
            state := some "Karnataka"
            postcode := some "560001"
            country := some "India" } } }

/-- The text that `getISTDateTime` and `formatISTDateTime` build from the getters
of a `Date` whose local reading is `localMs` milliseconds after the epoch. -/
def renderDateTime (localMs : Nat) : String :=
  pad2 (civilFromDays (localMs / 1000 / 86400)).2.2 ++ "-"
    ++ pad2 (civilFromDays (localMs / 1000 / 86400)).2.1 ++ "-"
    ++ toString (civilFromDays (localMs / 1000 / 86400)).1 ++ " "
    ++ pad2 (localMs / 1000 % 86400 / 3600) ++ ":" ++ pad2 (localMs / 1000 % 86400 % 3600 / 60)
    ++ ":" ++ pad2 (localMs / 1000 % 86400 % 60)

/-! ## Standalone conversion `POST /api/gemini/convert-location` -/

/-- A member of a JSON body that should hold a coordinate: missing (or `null`),
a number, or a string. -/
inductive BodyValue where
  | missing : BodyValue
  | num (n : JSNum) : BodyValue
  | str (s : String) : BodyValue

/-- Truthiness of a body member. -/
def BodyValue.truthy : BodyValue → Bool
  | .missing => false
  | .num n => n.truthy
  | .str s => decide (s ≠ "")

/-- The call `parseFloat(x)` on a body member: a number is turned into text and
read back, which gives the number again. -/
def BodyValue.parseFloat : BodyValue → JSNum
  | .missing => .nan
  | .num n => n
  | .str s => DisasterAlert.parseFloat s

/-- What one run of the conversion handler did. -/
structure ConversionResult where
  response : Response
  calls : List Provider

/-- The map link of the conversion handler. -/
def conversionMapLink (w : World) (lat lng : JSNum) : String :=
  "https://www.google.com/maps?q=" ++ w.numToString lat ++ "," ++ w.numToString lng

/-- The handler of `POST /api/gemini/convert-location`. The call of
`reverseGeocode` in its fallback branch comes after a first Gemini call, so the
Gemini call inside it gets the answer `geminiAgain`. -/
def convertLocation (w : World) (latitude longitude : BodyValue) : ConversionResult :=
  if !latitude.truthy || !longitude.truthy then
    { response := ⟨400, .statusMessage "error" "Latitude and longitude are required"⟩
      calls := [] }
  else if latitude.parseFloat.isNaN || longitude.parseFloat.isNaN then
    { response := ⟨400, .statusMessage "error" "Invalid coordinates"⟩, calls := [] }
  else
    let lat := latitude.parseFloat
    let lng := longitude.parseFloat
    let locationDetails := reverseGeocodeWithGemini w lat lng
    let fallbackDetails := reverseGeocode { w with gemini := w.geminiAgain } lat lng
    match locationDetails.1 with
    | some bundle =>
      if bundle.full_address ≠ "" then
        { response := ⟨200, .conversion "success" bundle (conversionMapLink w lat lng)⟩
          calls := locationDetails.2 }
      else
        { response := ⟨200, .conversion "success" fallbackDetails.1 (conversionMapLink w lat lng)⟩
          calls := locationDetails.2 ++ fallbackDetails.2 }
    | none =>
      { response := ⟨200, .conversion "success" fallbackDetails.1 (conversionMapLink w lat lng)⟩
        calls := locationDetails.2 ++ fallbackDetails.2 }

/-- The bundle and map link carried by a conversion answer. -/
def ResponseBody.conversion? : ResponseBody → Option (AddressBundle × String)
  | .conversion _ bundle link => some (bundle, link)
  | _ => none

/-! ## Sessions: logout and signup -/

/-- What a session handler did: its answer and the map `activeTokens` afterwards. -/
structure AuthResult where
  response : Response
  activeTokens : List (String × UserData)

/-- The key that the logout handler deletes:
`req.headers['authorization']?.split(' ')[1] || req.query.token`. -/
def logoutToken (c : Credentials) : Option String :=
  let fromHeader : Option String :=
    match c.authorization with
    | none => none
    | some header => (jsSplit header ' ')[1]?
  if truthyStr fromHeader then fromHeader else c.queryToken

/-- The route `POST /api/auth/logout`: `authenticateToken`, then the handler. -/
def postLogout (activeTokens : List (String × UserData)) (c : Credentials) : AuthResult :=
  match authenticateToken activeTokens c with
  | .error response => { response := response, activeTokens := activeTokens }
  | .ok _ =>
    { response := ⟨200, .message "Logged out successfully"⟩
      activeTokens :=
        match logoutToken c with
        | some token => activeTokens.filter (fun entry => entry.1 ≠ token)
        | none => activeTokens }

/-- A row of the table `users`. -/
structure User where
  id : Nat
  username : String
  password_hash : String
  role : String

/-- The table `users` with its AUTOINCREMENT counter, and the map `activeTokens`. -/
structure AuthState where
  users : List User
  lastUserId : Nat
  activeTokens : List (String × UserData)

/-- The body of a signup request; `role` is `none` when the body has no such
member. The handler reads `username`, `password` and `role` and nothing else
of the body, so `securityKey` stands for a member that it never looks at. -/
structure SignupRequest where
  username : Option String
  password : Option String
  role : Option String
  securityKey : Option String

/-- What one run of the signup handler did. -/
structure SignupResult where
  response : Response
  state : AuthState

/-- The SQL expression `LOWER(TRIM(username))`: spaces removed at both ends, ASCII
letters in lower case. -/
def sqlLowerTrim (s : String) : String :=
  lowerText (String.mk (((s.data.dropWhile (fun c => c = ' ')).reverse.dropWhile
    (fun c => c = ' ')).reverse))

/-- The method `s.includes(sub)`. -/
def jsIncludesText (s sub : String) : Bool :=
  s.data.tails.any (fun tail => sub.data.isPrefixOf tail)

/-- The handler of `POST /api/auth/signup`. Lengths are counted in characters,
and letters other than ASCII are outside the model of `toLowerCase`. The second
existence test is the UNIQUE constraint of the column `username`. -/
def postSignup (w : World) (st : AuthState) (req : SignupRequest) : SignupResult :=
  let role : String :=
    match req.role with
    | none => "user"
    | some r => r
  if !truthyStr req.username || !truthyStr req.password then
    { response := ⟨400, .error "Username and password required"⟩, state := st }
  else
    let trimmedUsername := jsTrim (orEmpty req.username)
    if trimmedUsername.length < 3 then
      { response := ⟨400, .error "Username must be at least 3 characters"⟩, state := st }
    else if (orEmpty req.password).length < 6 then
      { response := ⟨400, .error "Password must be at least 6 characters"⟩, state := st }
    else
      match w.userLookupError with
      | some _ => { response := ⟨500, .error "Database error. Please try again."⟩, state := st }
      | none =>
        if st.users.any (fun u => sqlLowerTrim u.username = lowerText trimmedUsername) then
          { response := ⟨400, .error "Username already exists"⟩, state := st }
        else if st.users.any (fun u => u.username = trimmedUsername) then
          { response := ⟨400, .error "Username already exists"⟩, state := st }
        else
          match w.userInsertError with
          | some text =>
            if jsIncludesText text "UNIQUE" then
              { response := ⟨400, .error "Username already exists"⟩, state := st }
            else
              { response := ⟨500, .error "Failed to create account. Please try again."⟩
                state := st }
          | none =>
            let user : UserData :=
              { id := st.lastUserId + 1, username := trimmedUsername, role := role }
            { response := ⟨200, .session w.generateToken user.id user.username user.role⟩
              state :=
                { users := st.users ++
                    [{ id := st.lastUserId + 1
                       username := trimmedUsername
                       password_hash := w.hashPassword (orEmpty req.password)
                       role := role }]
                  lastUserId := st.lastUserId + 1
                  activeTokens := (w.generateToken, user)
                    :: st.activeTokens.filter (fun entry => entry.1 ≠ w.generateToken) } }

/-! ## Client time format (`public/script.js` and `public/admin.js`) -/

/-- The argument of `formatTimeWithAmPm`: nothing, a `Date` given by its time
value in milliseconds since the epoch (`none` is an invalid date; a time value
is at most 8640000000000000, and dates before 1970 are outside the model), a
string, an object with `created_at`, or anything else. -/
inductive TimeInput where
  | absent : TimeInput
  | date (ms : Option Nat) : TimeInput
  | text (s : String) : TimeInput
  | record (created_at : Option String) : TimeInput
  | other : TimeInput

/-- The text built from the getters of a `Date` whose local reading is `localMs`
milliseconds after the epoch, with the hour on a 12-hour clock and AM or PM. -/
def renderDateTime12 (localMs : Nat) : String :=
  pad2 (civilFromDays (localMs / 1000 / 86400)).2.2 ++ "-"
    ++ pad2 (civilFromDays (localMs / 1000 / 86400)).2.1 ++ "-"
    ++ toString (civilFromDays (localMs / 1000 / 86400)).1 ++ " "
    ++ pad2 (if localMs / 1000 % 86400 / 3600 % 12 ≠ 0 then localMs / 1000 % 86400 / 3600 % 12
        else 12)
    ++ ":" ++ pad2 (localMs / 1000 % 86400 % 3600 / 60)
    ++ ":" ++ pad2 (localMs / 1000 % 86400 % 60) ++ " "
    ++ (if localMs / 1000 % 86400 / 3600 ≥ 12 then "PM" else "AM")

/-- The function `formatTimeWithAmPm` of `public/script.js`; `parseDate` is
`new Date(text).getTime()` (`none` for an invalid date) and `timezoneOffset t`
is what `getTimezoneOffset()` returns in the browser, in minutes, for a `Date`
at the instant `t`. The getters of `istTime` read the shifted date at the
offset in force at its own instant; when the shifted time value is out of
range `istTime` is an invalid date and every getter returns `NaN`. -/
def Script.formatTimeWithAmPm (parseDate : String → Option Nat) (timezoneOffset : Int → Int)
    (date : TimeInput) : String :=
  let dateObj : Option (Option Nat) :=
    match date with
    | .absent => none
    | .date ms => some ms
    | .text s => if s = "" then none else some (parseDate s)
    | .record created_at =>
      if truthyStr created_at then some (parseDate (orEmpty created_at)) else none
    | .other => none
  match dateObj with
  | none => "Just now"
  | some none => "Just now"
  | some (some ms) =>
    let utcTime : Int := (ms : Int) + timezoneOffset ms * 60 * 1000
    let istTime : Int := utcTime + 19800000
    if istTime.natAbs > 8640000000000000 then "NaN-NaN-NaN 12:NaN:NaN AM"
    else
      let localMs : Nat := (istTime - timezoneOffset istTime * 60 * 1000).toNat
      let hours := localMs / 1000 % 86400 / 3600
      let ampm := if hours ≥ 12 then "PM" else "AM"
      let hours12 := if hours % 12 ≠ 0 then hours % 12 else 12
      pad2 (civilFromDays (localMs / 1000 / 86400)).2.2 ++ "-"
        ++ pad2 (civilFromDays (localMs / 1000 / 86400)).2.1 ++ "-"
        ++ toString (civilFromDays (localMs / 1000 / 86400)).1 ++ " "
        ++ pad2 hours12 ++ ":" ++ pad2 (localMs / 1000 % 86400 % 3600 / 60)
        ++ ":" ++ pad2 (localMs / 1000 % 86400 % 60) ++ " " ++ ampm

/-- The function `formatTimeWithAmPm` of `public/admin.js`. -/
def Admin.formatTimeWithAmPm (parseDate : String → Option Nat) (timezoneOffset : Int → Int)
    (date : TimeInput) : String :=
  let dateObj : Option (Option Nat) :=
    match date with
    | .absent => none
    | .date ms => some ms
    | .text s => if s = "" then none else some (parseDate s)
    | .record created_at =>
      if truthyStr created_at then some (parseDate (orEmpty created_at)) else none
    | .other => none
  match dateObj with
  | none => "Just now"
  | some none => "Just now"
  | some (some ms) =>
    let utcTime : Int := (ms : Int) + timezoneOffset ms * 60 * 1000
    let istTime : Int := utcTime + 19800000
    if istTime.natAbs > 8640000000000000 then "NaN-NaN-NaN 12:NaN:NaN AM"
    else
      let localMs : Nat := (istTime - timezoneOffset istTime * 60 * 1000).toNat
      let hours := localMs / 1000 % 86400 / 3600
      let ampm := if hours ≥ 12 then "PM" else "AM"
      let hours12 := if hours % 12 ≠ 0 then hours % 12 else 12
      pad2 (civilFromDays (localMs / 1000 / 86400)).2.2 ++ "-"
        ++ pad2 (civilFromDays (localMs / 1000 / 86400)).2.1 ++ "-"
        ++ toString (civilFromDays (localMs / 1000 / 86400)).1 ++ " "
        ++ pad2 hours12 ++ ":" ++ pad2 (localMs / 1000 % 86400 % 3600 / 60)
        ++ ":" ++ pad2 (localMs / 1000 % 86400 % 60) ++ " " ++ ampm

/-! ## Sample data for the last sections -/

/-- The offline world with the AI provider configured: every Gemini call fails. -/
def geminiDownWorld : World := { offlineWorld with geminiAI := true }

/-- A submission of the category "Earthquake". -/
def requestEarthquake : IncidentRequest :=
  { file := some plainPhoto
    title := some "Cracks in the wall"
    description := none
    category := some "Earthquake"
    location := some "MG Road"
    latitude := none
    longitude := none
    user_id := none }

/-- A submission with explicit fields "0" and "77.5" and the location text
"0, 77.5". -/
def requestZeroOnly : IncidentRequest :=
  { file := some plainPhoto
    title := some "Boat adrift"
    description := none
    category := some "Flood"
    location := some "0, 77.5"
    latitude := some "0"
    longitude := some "77.5"
    user_id := none }

/-- The world with every provider failing in which the photo carries a GPS
latitude tag equal to 0. -/
def zeroTagWorld : World :=
  { geminiDownWorld with
    exif := fun _ => .parsed (some { GPSLatitude := some (.fin 0 0)
                                     GPSLongitude := some (.fin 775 (-1)) }) }

/-- A table of users that holds the default administrator. -/
def defaultAuthState : AuthState :=
  { users := [{ id := 1, username := "admin", password_hash := "sha256:admin123", role := "admin" }]
    lastUserId := 1
    activeTokens := [] }

/-- A submission whose location text holds two numbers followed by other text. -/
def requestMalformedLocation : IncidentRequest :=
  { file := some plainPhoto
    title := some "Landslide on the ghat road"
    description := some "Road blocked"
    category := some "Accident"
    location := some "12.97x, 77.59y"
    latitude := none
    longitude := none
    user_id := none }

/-- The world with every provider failing in which the read-back of a new row
fails as well. -/
def readBackDownWorld : World :=
  { geminiDownWorld with readBackError := some "SQLITE_BUSY: database is locked" }

/-- The latitude that the test script sends, as a number. -/
def testLatitude : BodyValue := .num (.fin 129716 (-4))

/-- The longitude that the test script sends. -/
def testLongitude : BodyValue := .num (.fin 775946 (-4))

/-- The hour of a 12-hour clock for the hour `h` of a 24-hour clock. -/
def twelveHour (h : Nat) : Nat := if h % 12 = 0 then 12 else h % 12

/-- A signup with the role 'admin' and no security key. -/
def signupAsAdmin : SignupRequest :=
  { username := some "mallory", password := some "secret1", role := some "admin"
    securityKey := none }

/-- Credentials that carry the token in the Authorization header without the
prefix "Bearer ". -/
def bareHeader (token : String) : Credentials :=
  { authorization := some token, queryToken := none, bodyToken := none }

/-- Credentials that carry the token in the body. -/
def bodyField (token : String) : Credentials :=
  { authorization := none, queryToken := none, bodyToken := some token }

/-- Credentials that carry the token in the Authorization header after "Bearer ". -/
def bearerHeader (token : String) : Credentials :=
  { authorization := some ("Bearer " ++ token), queryToken := none, bodyToken := none }

/-- The value of `getTimezoneOffset()` in the zone America/New_York for the
instants between 2024-03-10 and 2025-03-09: 240 minutes until daylight saving
time ends on 2024-11-03 at 06:00 UTC, 300 minutes from then on. -/
def newYorkOffset (t : Int) : Int := if t < 1730613600000 then 240 else 300

/-- The offset at which `new Date` reads a date-time text without zone in the
zone America/New_York, for the readings of the same period: 240 minutes for a
reading before 02:00 on 2024-11-03, 300 minutes from then on. -/
def newYorkLocalOffset (r : Int) : Int := if r < 1730599200000 then 240 else 300

/-- The world with every provider failing whose server runs in the zone
America/New_York, at 2024-11-03 05:30:00 UTC. -/
def newYorkWorld : World :=
  { geminiDownWorld with
    now := 1730611800000
    timezoneOffset := newYorkOffset
    localTimeOffset := newYorkLocalOffset }

/-- Whether a number is finite, not zero, has at most 15 significant digits and
a magnitude between 1e-292 and 1e307: a decimal literal of that kind is read by
`parseFloat` as a double that stands for it and is printed back as it. -/
def JSNum.isPlainDecimal : JSNum → Bool
  | .fin m e => decide (m ≠ 0) && decide (m.natAbs < 10 ^ 15) && decide (-292 ≤ e)
      && decide (e ≤ 292)
  | _ => false

/-- A submission with explicit latitude "Infinity" and longitude "77.5". -/
def requestInfiniteLatitude : IncidentRequest :=
  { file := some plainPhoto
    title := some "Signal lost"
    description := none
    category := some "Electricity"
    location := none
    latitude := some "Infinity"
    longitude := some "77.5"
    user_id := none }

/-- A submission with the field `description` sent twice. -/
def repeatedDescription : MultipartSubmission :=
  { file := some plainPhoto
    title := some "Landslide on the ghat road"
    description := .repeated ["Road blocked", "Two cars under the rocks"]
    category := some "Accident"
    location := some "12.97, 77.59"
    latitude := none
    longitude := none
    user_id := none }

/-- The world with every geocoding provider failing in which the photo
description provider answers. -/
def visionWorld : World :=
  { geminiDownWorld with vision := fun _ _ _ => .text "Rocks and two cars on a mountain road." }

/-! # Theorems -/

/-! ## Missing photo -/

/-- C1: a submission without an image file is answered with HTTP 400 and status
"error"; no provider is invoked and the incident store is left as it was,
whatever the other fields are. -/
theorem postIncidents_without_file (w : World) (st : Store) (req : IncidentRequest)
    (h : req.file = none) :
    (postIncidents w st req).response.code = 400
      ∧ (postIncidents w st req).response.body.status? = some "error"
      ∧ (postIncidents w st req).calls = []
      ∧ (postIncidents w st req).store = st := by
  simp [postIncidents, h, ResponseBody.status?]

/-- Witness of C1 on a full submission that lacks only the photo. -/
theorem postIncidents_without_file_witness :
    requestWithoutPhoto.file = none
      ∧ (postIncidents offlineWorld emptyStore requestWithoutPhoto).response.code = 400
      ∧ (postIncidents offlineWorld emptyStore requestWithoutPhoto).response.body.status?
          = some "error"
      ∧ (postIncidents offlineWorld emptyStore requestWithoutPhoto).calls = []
      ∧ (postIncidents offlineWorld emptyStore requestWithoutPhoto).store = emptyStore :=
  ⟨rfl, postIncidents_without_file offlineWorld emptyStore requestWithoutPhoto rfl⟩

/-! ## Coordinate resolution -/

theorem splitChars_of_not_mem (sep : Char) (l : List Char) (h : sep ∉ l) :
    splitChars sep l = [l] := by
  induction l with
  | nil => rfl
  | cons c cs ih =>
    have hc : c ≠ sep := fun e => h (by simp [e])
    have hcs : sep ∉ cs := fun e => h (by simp [e])
    simp [splitChars, hc, ih hcs]

theorem parseUnsigned_eq_none_iff (l : List Char) :
    parseUnsigned l = none ↔ beginsWithDecimal l = false := by
  unfold parseUnsigned beginsWithDecimal
  by_cases hinf : "Infinity".data.isPrefixOf l = true
  · simp [hinf]
  · simp only [hinf, Bool.false_eq_true, if_false, Bool.false_or]
    cases l with
    | nil => simp
    | cons c r =>
      by_cases hc : c.isDigit = true
      · simp only [List.takeWhile, List.dropWhile, hc]
        split <;> simp
      · have hc2 : c.isDigit = false := by simpa using hc
        simp only [List.takeWhile, List.dropWhile, hc2]
        by_cases hdot : c = '.'
        · subst hdot
          cases r with
          | nil => simp
          | cons d r2 =>
            by_cases hd : d.isDigit = true <;> simp [List.takeWhile, hd]
        · simp [hdot]

theorem parseFloatChars_isNaN_iff (l : List Char) :
    (parseFloatChars l).isNaN = false ↔ beginsWithNumber l = true := by
  have key : ∀ r : List Char, (match parseUnsigned r with
      | none => JSNum.nan
      | some (Sum.inl _) => JSNum.inf false
      | some (Sum.inr (m, e)) => JSNum.fin m e).isNaN = false ↔ beginsWithDecimal r = true := by
    intro r
    have h := parseUnsigned_eq_none_iff r
    cases hp : parseUnsigned r with
    | none => simp [JSNum.isNaN, h.mp hp]
    | some v =>
      have : beginsWithDecimal r = true := by
        by_contra hb
        have := h.mpr (by simpa using hb)
        simp [hp] at this
      cases v <;> simp [JSNum.isNaN, this]
  have keyNeg : ∀ r : List Char, (match parseUnsigned r with
      | none => JSNum.nan
      | some (Sum.inl _) => JSNum.inf true
      | some (Sum.inr (m, e)) => JSNum.fin (-(m : Int)) e).isNaN = false
        ↔ beginsWithDecimal r = true := by
    intro r
    have h := parseUnsigned_eq_none_iff r
    cases hp : parseUnsigned r with
    | none => simp [JSNum.isNaN, h.mp hp]
    | some v =>
      have : beginsWithDecimal r = true := by
        by_contra hb
        have := h.mpr (by simpa using hb)
        simp [hp] at this
      cases v <;> simp [JSNum.isNaN, this]
  unfold parseFloatChars beginsWithNumber
  split
  · exact keyNeg _
  · exact key _
  · exact key _

theorem extractGPSFromImage_truthy (w : World) (filename : String) (g : JSNum × JSNum)
    (h : extractGPSFromImage w filename = some g) : g.1.truthy = true ∧ g.2.truthy = true := by
  unfold extractGPSFromImage at h
  split at h
  · simp at h
  · simp at h
  · rename_i tags _
    split at h
    · rename_i ht
      cases hla : tags.GPSLatitude <;> cases hlo : tags.GPSLongitude <;>
        simp [hla, hlo, truthyNum] at h ht
      subst h
      exact ht
    · simp at h

theorem extractGPSFromImage_of_tags (w : World) (filename : String) (tags : ExifTags)
    (h : w.exif filename = .parsed (some tags)) (hla : truthyNum tags.GPSLatitude = true)
    (hlo : truthyNum tags.GPSLongitude = true) :
    ∃ g, extractGPSFromImage w filename = some g ∧ tags.GPSLatitude = some g.1
      ∧ tags.GPSLongitude = some g.2 := by
  unfold extractGPSFromImage
  cases ha : tags.GPSLatitude <;> cases ho : tags.GPSLongitude <;>
    simp [h, ha, ho, truthyNum] at hla hlo ⊢
  simp [hla, hlo]

/-- C2 (as amended): the EXIF pair is taken whenever both GPS tags are non-zero
numbers; without an EXIF pair the explicit fields are taken whenever both parse
to non-zero numbers; and in every case the resolved latitude and longitude come
together from one source: the EXIF pair, the two explicit fields, or the pair
parsed from the free-text location. -/
theorem resolveCoordinates_priority (w : World) (filename : String)
    (latitude longitude location : Option String) :
    (∀ tags : ExifTags, w.exif filename = .parsed (some tags) →
        truthyNum tags.GPSLatitude = true → truthyNum tags.GPSLongitude = true →
        resolveCoordinates latitude longitude location (extractGPSFromImage w filename)
          = (tags.GPSLatitude, tags.GPSLongitude))
      ∧ (extractGPSFromImage w filename = none →
        truthyNum (explicitCoordinate latitude) = true →
        truthyNum (explicitCoordinate longitude) = true →
        resolveCoordinates latitude longitude location (extractGPSFromImage w filename)
          = (explicitCoordinate latitude, explicitCoordinate longitude))
      ∧ ((∃ g, extractGPSFromImage w filename = some g
            ∧ resolveCoordinates latitude longitude location (extractGPSFromImage w filename)
              = (some g.1, some g.2))
          ∨ resolveCoordinates latitude longitude location (extractGPSFromImage w filename)
              = (explicitCoordinate latitude, explicitCoordinate longitude)
          ∨ (∃ c, parseLocationPair location = some c
            ∧ resolveCoordinates latitude longitude location (extractGPSFromImage w filename)
              = (some c.1, some c.2))) := by
  refine ⟨?_, ?_, ?_⟩
  · intro tags h hla hlo
    obtain ⟨g, hg, h1, h2⟩ := extractGPSFromImage_of_tags w filename tags h hla hlo
    have ht := extractGPSFromImage_truthy w filename g hg
    simp [resolveCoordinates, hg, h1, h2, truthyNum, ht.1, ht.2]
  · intro hn hla hlo
    simp [resolveCoordinates, hn, hla, hlo]
  · cases hg : extractGPSFromImage w filename with
    | some g =>
      have ht := extractGPSFromImage_truthy w filename g hg
      exact Or.inl ⟨g, rfl, by simp [resolveCoordinates, truthyNum, ht.1, ht.2]⟩
    | none =>
      cases hp : parseLocationPair location with
      | none =>
        refine Or.inr (Or.inl ?_)
        simp [resolveCoordinates, hp]
      | some c =>
        by_cases hb : (!truthyNum (explicitCoordinate latitude)
            || !truthyNum (explicitCoordinate longitude)) = true
        · exact Or.inr (Or.inr ⟨c, rfl, by simp [resolveCoordinates, hp, hb]⟩)
        · refine Or.inr (Or.inl ?_)
          simp [resolveCoordinates, hb]

/-- Witness of C2 (as amended): all three sources present, the EXIF pair wins;
explicit fields and a free-text pair present, the explicit fields win. -/
theorem resolveCoordinates_priority_witness :
    resolveCoordinates (some "12.9716") (some "77.5946") (some "1, 2")
        (extractGPSFromImage taggedWorld "photo.jpg") = (some (.fin 13 0), some (.fin 80 0))
      ∧ resolveCoordinates (some "12.9716") (some "77.5946") (some "1, 2")
        (extractGPSFromImage offlineWorld "photo.jpg")
          = (explicitCoordinate (some "12.9716"), explicitCoordinate (some "77.5946")) :=
  ⟨(resolveCoordinates_priority taggedWorld "photo.jpg" (some "12.9716") (some "77.5946")
      (some "1, 2")).1 taggedExif rfl (by decide) (by decide),
   (resolveCoordinates_priority offlineWorld "photo.jpg" (some "12.9716") (some "77.5946")
      (some "1, 2")).2.1 (by decide) (by decide) (by decide)⟩

/-- C2 fails as stated: with explicit latitude "0" and longitude "77.5" (a numeric
pair) and the free-text location "12.9, 77.6", the handler resolves and stores
the free-text pair, not the explicit fields. -/
theorem resolveCoordinates_zero_explicit_loses :
    explicitCoordinate (some "0") = some (.fin 0 0)
      ∧ explicitCoordinate (some "77.5") = some (.fin 775 (-1))
      ∧ extractGPSFromImage offlineWorld plainPhoto.filename = none
      ∧ resolveCoordinates (some "0") (some "77.5") (some "12.9, 77.6")
          (extractGPSFromImage offlineWorld plainPhoto.filename)
          = (some (.fin 129 (-1)), some (.fin 776 (-1)))
      ∧ (postIncidents offlineWorld emptyStore requestZeroLatitude).store.incidents.map
          (fun row => (row.latitude, row.longitude))
          = [(some (.fin 129 (-1)), some (.fin 776 (-1)))] := by
  decide

/-- C3, failing input: explicit latitude "12.5", no longitude, and a location text
without coordinates. The submission is accepted (201) and the stored row has a
latitude and no longitude. -/
theorem postIncidents_stores_half_pair :
    (postIncidents offlineWorld emptyStore requestLatitudeOnly).response.code = 201
      ∧ (postIncidents offlineWorld emptyStore requestLatitudeOnly).store.incidents.map
          (fun row => (row.latitude, row.longitude)) = [(some (.fin 125 (-1)), none)] := by
  decide

theorem jsSplit_pair_includes (s p q : String) (h : jsSplit s ',' = [p, q]) :
    s ≠ "" ∧ jsIncludes s ',' = true := by
  have hmem : ',' ∈ s.data := by
    by_contra hn
    have := splitChars_of_not_mem ',' s.data hn
    simp [jsSplit, this] at h
  refine ⟨?_, by simpa [jsIncludes] using hmem⟩
  intro he
  subst he
  simp at hmem

theorem parseLocationPair_eq_some_iff (location : Option String) (a b : JSNum) :
    parseLocationPair location = some (a, b) ↔
      ∃ s p q, location = some s ∧ jsSplit s ',' = [p, q] ∧ parseFloat (jsTrim p) = a
        ∧ parseFloat (jsTrim q) = b ∧ a.isNaN = false ∧ b.isNaN = false := by
  constructor
  · intro h
    unfold parseLocationPair at h
    split at h
    · rename_i hc
      cases location with
      | none => simp [truthyStr] at hc
      | some s =>
        simp only [orEmpty] at h
        cases hs : jsSplit s ',' with
        | nil => simp [hs] at h
        | cons p t =>
          cases t with
          | nil => simp [hs] at h
          | cons q t2 =>
            cases t2 with
            | nil =>
              simp [hs] at h
              exact ⟨s, p, q, rfl, hs, h.2.1, h.2.2, by rw [← h.2.1]; exact h.1.1,
                by rw [← h.2.2]; exact h.1.2⟩
            | cons r t3 => simp [hs] at h
    · simp at h
  · rintro ⟨s, p, q, rfl, hs, ha, hb, hna, hnb⟩
    obtain ⟨hne, hinc⟩ := jsSplit_pair_includes s p q hs
    simp [parseLocationPair, truthyStr, orEmpty, hne, hinc, hs, ha, hb, hna, hnb]

/-- C4 (as amended): when neither the EXIF block nor the explicit fields give a
pair, the handler takes the coordinates from the free-text location exactly when
the text splits at commas into two parts and `parseFloat` reads a number from
each trimmed part, that is, when each part begins (after white space and an
optional sign) with a decimal literal or `Infinity`; what follows the numeric
beginning of a part is ignored. -/
theorem resolveCoordinates_from_location (latitude longitude location : Option String)
    (h : (truthyNum (explicitCoordinate latitude)
      && truthyNum (explicitCoordinate longitude)) = false) :
    (∀ a b : JSNum,
        (resolveCoordinates latitude longitude location none = (some a, some b)
          ∧ parseLocationPair location = some (a, b)) ↔
        ∃ s p q, location = some s ∧ jsSplit s ',' = [p, q] ∧ parseFloat (jsTrim p) = a
          ∧ parseFloat (jsTrim q) = b ∧ beginsWithNumber (jsTrim p).data = true
          ∧ beginsWithNumber (jsTrim q).data = true)
      ∧ (parseLocationPair location = none →
        resolveCoordinates latitude longitude location none
          = (explicitCoordinate latitude, explicitCoordinate longitude)) := by
  have hb : (!truthyNum (explicitCoordinate latitude)
      || !truthyNum (explicitCoordinate longitude)) = true := by
    cases h1 : truthyNum (explicitCoordinate latitude) <;>
      cases h2 : truthyNum (explicitCoordinate longitude) <;> simp [h1, h2] at h ⊢
  refine ⟨?_, ?_⟩
  · intro a b
    constructor
    · rintro ⟨_, hp⟩
      obtain ⟨s, p, q, hl, hs, ha, hb2, hna, hnb⟩ :=
        (parseLocationPair_eq_some_iff location a b).mp hp
      refine ⟨s, p, q, hl, hs, ha, hb2, ?_, ?_⟩
      · rw [← parseFloatChars_isNaN_iff]
        rw [← ha] at hna
        exact hna
      · rw [← parseFloatChars_isNaN_iff]
        rw [← hb2] at hnb
        exact hnb
    · rintro ⟨s, p, q, hl, hs, ha, hb2, hna, hnb⟩
      have hp : parseLocationPair location = some (a, b) := by
        refine (parseLocationPair_eq_some_iff location a b).mpr
          ⟨s, p, q, hl, hs, ha, hb2, ?_, ?_⟩
        · rw [← ha]
          exact (parseFloatChars_isNaN_iff _).mpr hna
        · rw [← hb2]
          exact (parseFloatChars_isNaN_iff _).mpr hnb
      refine ⟨?_, hp⟩
      simp only [resolveCoordinates, hb, if_true, hp]
  · intro hp
    simp only [resolveCoordinates, hb, if_true, hp]

/-- Witness of C4 (as amended): no explicit fields and the text "12.5abc, 77.1xyz". -/
theorem resolveCoordinates_from_location_witness :
    (resolveCoordinates none none (some "12.5abc, 77.1xyz") none
        = (some (.fin 125 (-1)), some (.fin 771 (-1)))
      ∧ parseLocationPair (some "12.5abc, 77.1xyz") = some (.fin 125 (-1), .fin 771 (-1)))
      ∧ resolveCoordinates none none (some "1,2,3") none = (none, none) :=
  ⟨((resolveCoordinates_from_location none none (some "12.5abc, 77.1xyz") (by decide)).1
      (.fin 125 (-1)) (.fin 771 (-1))).mpr
      ⟨"12.5abc, 77.1xyz", "12.5abc", " 77.1xyz", rfl, by decide, by decide, by decide,
        by decide, by decide⟩,
   (resolveCoordinates_from_location none none (some "1,2,3") (by decide)).2 (by decide)⟩

/-- C4 fails as stated: the text "12.5abc, 77.1xyz" does not match the strict
pattern, yet with no EXIF pair and no explicit fields the handler takes the
coordinates 12.5 and 77.1 from it. -/
theorem parseLocationPair_accepts_trailing_text :
    parseLocationPair (some "12.5abc, 77.1xyz") = some (.fin 125 (-1), .fin 771 (-1))
      ∧ resolveCoordinates none none (some "12.5abc, 77.1xyz") none
          = (some (.fin 125 (-1)), some (.fin 771 (-1)))
      ∧ parseLocationPair (some "1,2,3") = none := by
  decide

/-! ## Reverse geocoding chain -/

theorem fallbackReverseGeocode_eq (w : World) (latitude longitude : JSNum) :
    fallbackReverseGeocode w latitude longitude
      = firstSuccess [(Provider.osm, osmAttempt w latitude longitude)]
          (terminalFallback w latitude longitude) := by
  unfold fallbackReverseGeocode osmAttempt
  cases w.osm latitude longitude <;> simp [firstSuccess]

theorem reverseGeocodeGoogle_eq (w : World) (latitude longitude : JSNum) :
    reverseGeocodeGoogle w latitude longitude
      = firstSuccess [(Provider.google, googleAttempt w latitude longitude),
          (Provider.osm, osmAttempt w latitude longitude)]
          (terminalFallback w latitude longitude) := by
  unfold reverseGeocodeGoogle googleAttempt
  rw [fallbackReverseGeocode_eq]
  cases w.google latitude longitude with
  | failure => simp [firstSuccess]
  | response status results =>
    cases results with
    | nil => by_cases hs : status = "OK" <;> simp [firstSuccess, hs]
    | cons r rs =>
      by_cases hs : status = "OK"
      · cases hn : normalizeGoogle r <;> simp [firstSuccess, hs, hn]
      · simp [firstSuccess, hs]

theorem reverseGeocode_eq_firstSuccess (w : World) (latitude longitude : JSNum) :
    reverseGeocode w latitude longitude
      = firstSuccess (geocodeChain w latitude longitude)
          (terminalFallback w latitude longitude) := by
  unfold reverseGeocode geocodeChain
  rw [reverseGeocodeGoogle_eq]
  by_cases hg : w.geminiAI = true
  · simp only [hg, if_true, reverseGeocodeWithGemini, geminiAttempt, Bool.not_true,
      Bool.false_eq_true, if_false]
    cases w.gemini latitude longitude with
    | failure => simp [firstSuccess]
    | data d =>
      by_cases hf : (normalizeGemini d).full_address = "" <;> simp [firstSuccess, hf]
  · simp [hg]

theorem geminiAttempt_full_address (w : World) (latitude longitude : JSNum) (b : AddressBundle)
    (h : geminiAttempt w latitude longitude = some b) : b.full_address ≠ "" := by
  unfold geminiAttempt at h
  split at h
  · split at h
    · rename_i hne
      simp at h
      rw [← h]
      exact hne
    · simp at h
  · simp at h

/-- C5 (as amended): `reverseGeocode` tries Gemini (when configured), Google and
OpenStreetMap in this order and returns the answer of the first attempt that
succeeds, or the terminal fallback; Gemini succeeds only with a non-empty
`full_address`, Google succeeds when it answers `OK` with a first result from
which the object can be built, OpenStreetMap succeeds whenever its request
returns. A Gemini answer with an empty full address is never returned. -/
theorem reverseGeocode_first_success (w : World) (latitude longitude : JSNum) :
    reverseGeocode w latitude longitude
        = firstSuccess
            ((if w.geminiAI then [(Provider.gemini, geminiAttempt w latitude longitude)] else [])
              ++ [(Provider.google, googleAttempt w latitude longitude),
                  (Provider.osm, osmAttempt w latitude longitude)])
            (terminalFallback w latitude longitude)
      ∧ (∀ b, geminiAttempt w latitude longitude = some b → b.full_address ≠ "") :=
  ⟨reverseGeocode_eq_firstSuccess w latitude longitude,
   fun b h => geminiAttempt_full_address w latitude longitude b h⟩

/-- C5 fails as stated: Google answering `OK` with an empty full address is the
source of the returned bundle and OpenStreetMap, which has a non-empty address,
is not tried; and an OpenStreetMap answer with an empty full address is returned
as it is. -/
theorem reverseGeocode_returns_empty_full_address :
    (reverseGeocode blankGoogleWorld (.fin 129716 (-4)) (.fin 775946 (-4))).1.full_address = ""
      ∧ (reverseGeocode blankGoogleWorld (.fin 129716 (-4)) (.fin 775946 (-4))).2
          = [Provider.google]
      ∧ osmAttempt blankGoogleWorld (.fin 129716 (-4)) (.fin 775946 (-4))
          = some ⟨"MG Road, Bengaluru", "MG Road, Bengaluru", "", "", "", "", "", "", "", ""⟩
      ∧ reverseGeocode blankOsmWorld (.fin 129716 (-4)) (.fin 775946 (-4))
          = (⟨"", "", "", "", "", "", "", "", "", ""⟩, [Provider.google, Provider.osm]) := by
  decide

theorem append_ne_empty_of_left (a b : String) (h : a ≠ "") : a ++ b ≠ "" := by
  intro he
  apply h
  have hd := congrArg String.data he
  simp [String.data_append] at hd
  exact String.ext hd.1

theorem append_ne_empty_of_right (a b : String) (h : b ≠ "") : a ++ b ≠ "" := by
  intro he
  apply h
  have hd := congrArg String.data he
  simp [String.data_append] at hd
  exact String.ext hd.2

theorem coordinateMapLink_ne_empty (w : World) (lat lng : JSNum) :
    coordinateMapLink w lat lng ≠ "" := by
  unfold coordinateMapLink
  repeat apply append_ne_empty_of_left
  decide

theorem terminalFallback_full_address_ne_empty (w : World) (lat lng : JSNum) :
    (terminalFallback w lat lng).full_address ≠ "" := by
  unfold terminalFallback
  apply append_ne_empty_of_left
  apply append_ne_empty_of_right
  decide

theorem reverseGeocode_of_all_fail (w : World) (lat lng : JSNum)
    (hgem : w.geminiAI = false ∨ geminiAttempt w lat lng = none)
    (hgoo : googleAttempt w lat lng = none) (hosm : w.osm lat lng = .failure) :
    (reverseGeocode w lat lng).1 = terminalFallback w lat lng := by
  rw [reverseGeocode_eq_firstSuccess]
  unfold geocodeChain
  have ho : osmAttempt w lat lng = none := by simp [osmAttempt, hosm]
  rcases hgem with hg | hg
  · simp [hg, firstSuccess, hgoo, ho]
  · by_cases hc : w.geminiAI = true <;> simp [hc, hg, firstSuccess, hgoo, ho]

theorem postIncidents_incidents_of_accepted (w : World) (st : Store) (req : IncidentRequest)
    (file : UploadedFile) (title category : String)
    (hfile : req.file = some file) (htitle : req.title = some title)
    (hcat : req.category = some category) (ht : title ≠ "") (hc : category ≠ "")
    (hins : w.insertError = none) :
    (postIncidents w st req).store.incidents
      = st.incidents ++ [newIncident w st file.filename title category req
          (resolveCoordinates req.latitude req.longitude req.location
            (extractGPSFromImage w file.filename)).1
          (resolveCoordinates req.latitude req.longitude req.location
            (extractGPSFromImage w file.filename)).2
          (locateIncident w req.location
            (resolveCoordinates req.latitude req.longitude req.location
              (extractGPSFromImage w file.filename)).1
            (resolveCoordinates req.latitude req.longitude req.location
              (extractGPSFromImage w file.filename)).2).1
          (describePhoto w file.filename req.category req.description).1] := by
  unfold postIncidents
  simp only [hfile, htitle, hcat, ht, hc, hins, decide_False, Bool.or_self, Bool.false_eq_true,
    if_false]
  cases w.readBackError <;> rfl

/-- C6 (as amended): when a coordinate pair is resolved and all three geocoding
providers fail (Gemini not configured or without a non-empty full address, no
usable Google answer, the OpenStreetMap request throwing), the stored incident
has every address field other than `full_address` equal to the empty string,
`full_address` equal to the text "<lat>, <lng>" built from the raw coordinates,
and a non-empty map link built from the raw latitude and longitude. -/
theorem postIncidents_all_providers_fail (w : World) (st : Store) (req : IncidentRequest)
    (file : UploadedFile) (title category : String) (lat lng : JSNum)
    (hfile : req.file = some file) (htitle : req.title = some title)
    (hcat : req.category = some category) (ht : title ≠ "") (hc : category ≠ "")
    (hres : resolveCoordinates req.latitude req.longitude req.location
      (extractGPSFromImage w file.filename) = (some lat, some lng))
    (hlat : lat.truthy = true) (hlng : lng.truthy = true)
    (hgem : w.geminiAI = false ∨ geminiAttempt w lat lng = none)
    (hgoo : googleAttempt w lat lng = none) (hosm : w.osm lat lng = .failure)
    (hins : w.insertError = none) :
    ∃ row, (postIncidents w st req).store.incidents = st.incidents ++ [row]
      ∧ row.latitude = some lat ∧ row.longitude = some lng
      ∧ row.place_name = "" ∧ row.nearest_landmark = "" ∧ row.area = "" ∧ row.city = ""
      ∧ row.taluk = "" ∧ row.district = "" ∧ row.state = "" ∧ row.pincode = ""
      ∧ row.country = ""
      ∧ row.full_address = w.numToString lat ++ ", " ++ w.numToString lng
      ∧ row.full_address ≠ ""
      ∧ row.google_maps_link = "https://www.google.com/maps?q=" ++ w.numToString lat ++ ","
          ++ w.numToString lng ++ "&key=" ++ w.GOOGLE_MAPS_API_KEY
      ∧ row.google_maps_link ≠ "" := by
  refine ⟨_, postIncidents_incidents_of_accepted w st req file title category hfile htitle hcat
    ht hc hins, ?_⟩
  have hrev := reverseGeocode_of_all_fail w lat lng hgem hgoo hosm
  have hlink := coordinateMapLink_ne_empty w lat lng
  have hfull := terminalFallback_full_address_ne_empty w lat lng
  simp only [hres, newIncident, locateIncident, hlat, hlng, Bool.and_self, if_true,
    geocodedDetails, hrev, orEmpty]
  exact ⟨trivial, trivial, rfl, rfl, rfl, rfl, rfl, rfl, rfl, rfl, rfl, rfl, hfull, rfl, hlink⟩

/-- Witness of C6 (as amended): explicit coordinates 12.9716, 77.5946 in the
offline world. -/
theorem postIncidents_all_providers_fail_witness :
    ∃ row, (postIncidents offlineWorld emptyStore requestExplicitPair).store.incidents
        = emptyStore.incidents ++ [row]
      ∧ row.latitude = some (.fin 129716 (-4)) ∧ row.longitude = some (.fin 775946 (-4))
      ∧ row.place_name = "" ∧ row.nearest_landmark = "" ∧ row.area = "" ∧ row.city = ""
      ∧ row.taluk = "" ∧ row.district = "" ∧ row.state = "" ∧ row.pincode = ""
      ∧ row.country = ""
      ∧ row.full_address = offlineWorld.numToString (.fin 129716 (-4)) ++ ", "
          ++ offlineWorld.numToString (.fin 775946 (-4))
      ∧ row.full_address ≠ ""
      ∧ row.google_maps_link = "https://www.google.com/maps?q="
          ++ offlineWorld.numToString (.fin 129716 (-4)) ++ ","
          ++ offlineWorld.numToString (.fin 775946 (-4)) ++ "&key="
          ++ offlineWorld.GOOGLE_MAPS_API_KEY
      ∧ row.google_maps_link ≠ "" :=
  postIncidents_all_providers_fail offlineWorld emptyStore requestExplicitPair plainPhoto
    "Transformer sparks" "Electricity" (.fin 129716 (-4)) (.fin 775946 (-4)) rfl rfl rfl
    (by decide) (by decide) (by decide) (by decide) (by decide) (Or.inl rfl) (by decide) rfl rfl

/-- C6 fails as stated: with all three providers failing at 12.9716, 77.5946 the
stored `full_address` is the text "12.9716, 77.5946", not the empty string. -/
theorem postIncidents_fallback_full_address_not_empty :
    (postIncidents offlineWorld emptyStore requestExplicitPair).calls
        = [Provider.google, Provider.osm]
      ∧ (postIncidents offlineWorld emptyStore requestExplicitPair).store.incidents.map
          (fun row => (row.full_address, row.google_maps_link))
        = [("12.9716, 77.5946",
            "https://www.google.com/maps?q=12.9716,77.5946&key=test-key")] := by
  decide

theorem firstSuccess_source (chain : List (Provider × Option AddressBundle))
    (terminal : AddressBundle) :
    (firstSuccess chain terminal).1 = terminal
      ∨ ∃ p, (p, some (firstSuccess chain terminal).1) ∈ chain := by
  induction chain with
  | nil => exact Or.inl rfl
  | cons a rest ih =>
    obtain ⟨p, r⟩ := a
    cases r with
    | some b => exact Or.inr ⟨p, by simp [firstSuccess]⟩
    | none =>
      rcases ih with h | ⟨q, hq⟩
      · exact Or.inl (by simpa [firstSuccess] using h)
      · exact Or.inr ⟨q, by simp [firstSuccess, hq]⟩

theorem geminiAttempt_eq_some (w : World) (lat lng : JSNum) (b : AddressBundle)
    (h : geminiAttempt w lat lng = some b) :
    ∃ d, w.gemini lat lng = .data d ∧ b = normalizeGemini d := by
  unfold geminiAttempt at h
  split at h
  · rename_i d hd
    split at h
    · exact ⟨d, hd, by simpa using h.symm⟩
    · simp at h
  · simp at h

theorem googleAttempt_eq_some (w : World) (lat lng : JSNum) (b : AddressBundle)
    (h : googleAttempt w lat lng = some b) :
    ∃ status results r, w.google lat lng = .response status results
      ∧ results.head? = some r ∧ normalizeGoogle r = some b := by
  unfold googleAttempt at h
  split at h
  · rename_i status results hr
    split at h
    · cases hh : results.head? with
      | none => simp [hh] at h
      | some r => exact ⟨status, results, r, hr, hh, by simpa [hh] using h⟩
    · simp at h
  · simp at h

theorem osmAttempt_eq_some (w : World) (lat lng : JSNum) (b : AddressBundle)
    (h : osmAttempt w lat lng = some b) :
    ∃ d, w.osm lat lng = .data d ∧ b = normalizeOsm d := by
  unfold osmAttempt at h
  split at h
  · rename_i d hd
    exact ⟨d, hd, by simpa using h.symm⟩
  · simp at h

theorem getComponent_of_lacksTypes (components : List GoogleComponent) (types : List String)
    (h : lacksTypes components types) : getComponent components types = "" := by
  unfold getComponent
  have hfind : components.find? (fun comp => types.any (fun t => comp.types.contains t))
      = none := by
    rw [List.find?_eq_none]
    intro comp hc
    simp only [List.any_eq_true, not_exists, not_and]
    intro t ht
    simpa using h comp hc t ht
  rw [hfind]

theorem lacksTypes_mono (components : List GoogleComponent) (types sub : List String)
    (h : lacksTypes components types) (hsub : ∀ t ∈ sub, t ∈ types) :
    lacksTypes components sub :=
  fun comp hc t ht => h comp hc t (hsub t ht)

theorem reverseGeocode_source (w : World) (lat lng : JSNum) :
    (w.geminiAI = true
        ∧ ∃ d, w.gemini lat lng = .data d ∧ (reverseGeocode w lat lng).1 = normalizeGemini d)
      ∨ (∃ status results r, w.google lat lng = .response status results
          ∧ results.head? = some r ∧ normalizeGoogle r = some (reverseGeocode w lat lng).1)
      ∨ (∃ d, w.osm lat lng = .data d ∧ (reverseGeocode w lat lng).1 = normalizeOsm d)
      ∨ (reverseGeocode w lat lng).1 = terminalFallback w lat lng := by
  rw [reverseGeocode_eq_firstSuccess]
  have key := firstSuccess_source (geocodeChain w lat lng) (terminalFallback w lat lng)
  generalize (firstSuccess (geocodeChain w lat lng) (terminalFallback w lat lng)).1 = b at key ⊢
  rcases key with h | ⟨p, hp⟩
  · exact Or.inr (Or.inr (Or.inr h))
  · unfold geocodeChain at hp
    rw [List.mem_append] at hp
    rcases hp with hp | hp
    · by_cases hg : w.geminiAI = true
      · simp only [hg, if_true, List.mem_singleton, Prod.mk.injEq] at hp
        exact Or.inl ⟨hg, geminiAttempt_eq_some w lat lng _ hp.2.symm⟩
      · simp [hg] at hp
    · simp only [List.mem_cons, Prod.mk.injEq, List.mem_singleton, List.not_mem_nil,
        or_false] at hp
      rcases hp with hp | hp
      · exact Or.inr (Or.inl (googleAttempt_eq_some w lat lng _ hp.2.symm))
      · exact Or.inr (Or.inr (Or.inl (osmAttempt_eq_some w lat lng _ hp.2.symm)))

theorem landmark_find_of_lacksTypes (components : List GoogleComponent)
    (h : lacksTypes components ["point_of_interest", "establishment", "premise"]) :
    components.find? (fun comp =>
      comp.types.contains "point_of_interest" || comp.types.contains "establishment"
        || comp.types.contains "premise") = none := by
  rw [List.find?_eq_none]
  intro comp hc
  have h1 := h comp hc "point_of_interest" (by simp)
  have h2 := h comp hc "establishment" (by simp)
  have h3 := h comp hc "premise" (by simp)
  simp [h1, h2, h3]

theorem normalizeGoogle_missing (r : GoogleResult) (b : AddressBundle)
    (h : normalizeGoogle r = some b) :
    (r.formatted_address = none → b.full_address = "")
      ∧ (r.formatted_address = none → r.address_components.getD [] = [] → b.place_name = "")
      ∧ (lacksTypes (r.address_components.getD [])
          ["point_of_interest", "establishment", "premise"] → b.nearest_landmark = "")
      ∧ (lacksTypes (r.address_components.getD [])
          ["sublocality", "sublocality_level_1", "neighborhood"] → b.area = "")
      ∧ (lacksTypes (r.address_components.getD []) ["locality"] → b.city = "")
      ∧ (lacksTypes (r.address_components.getD [])
          ["administrative_area_level_3", "sublocality_level_2", "sublocality_level_1",
            "sublocality"] → b.taluk = "")
      ∧ (lacksTypes (r.address_components.getD []) ["administrative_area_level_2"] →
          b.district = "")
      ∧ (lacksTypes (r.address_components.getD []) ["administrative_area_level_1"] →
          b.state = "")
      ∧ (lacksTypes (r.address_components.getD []) ["postal_code"] → b.pincode = "")
      ∧ (lacksTypes (r.address_components.getD []) ["country"] → b.country = "") := by
  simp only [normalizeGoogle] at h
  split at h
  · simp at h
  · rename_i pn hpn
    simp only [Option.some.injEq] at h
    subst h
    refine ⟨?_, ?_, ?_, ?_, ?_, ?_, ?_, ?_, ?_, ?_⟩
    · intro hf
      simp [hf, orEmpty]
    · intro hf hcomps
      simp only [hf, truthyStr, Bool.false_eq_true, if_false] at hpn
      cases hac : r.address_components with
      | none => simp [hac] at hpn
      | some comps =>
        simp only [hac, Option.getD_some] at hcomps
        subst hcomps
        simp only [hac, List.head?_nil, Option.map_none', orEmpty, Option.some.injEq] at hpn
        exact hpn.symm
    · intro hl
      simp only [landmark_find_of_lacksTypes _ hl]
      exact getComponent_of_lacksTypes _ _ (lacksTypes_mono _ _ _ hl (by simp))
    · intro hl
      exact getComponent_of_lacksTypes _ _ hl
    · intro hl
      exact getComponent_of_lacksTypes _ _ hl
    · intro hl
      have h1 := getComponent_of_lacksTypes _ _ (lacksTypes_mono _ _
        ["administrative_area_level_3", "sublocality_level_2", "sublocality_level_1"] hl
        (by simp))
      have h2 := getComponent_of_lacksTypes _ _ (lacksTypes_mono _ _ ["sublocality"] hl
        (by simp))
      simp [orStr, h1, h2]
    · intro hl
      have h1 := getComponent_of_lacksTypes _ _ hl
      simp [orStr, h1]
    · intro hl
      exact getComponent_of_lacksTypes _ _ hl
    · intro hl
      exact getComponent_of_lacksTypes _ _ hl
    · intro hl
      exact getComponent_of_lacksTypes _ _ hl

theorem normalizeOsm_missing (d : OsmData) :
    (d.display_name = none →
        (normalizeOsm d).place_name = "" ∧ (normalizeOsm d).full_address = "")
      ∧ ((d.address.getD OsmAddress.empty).amenity = none →
          (d.address.getD OsmAddress.empty).building = none →
          (d.address.getD OsmAddress.empty).leisure = none →
          (d.address.getD OsmAddress.empty).tourism = none →
          (normalizeOsm d).nearest_landmark = "")
      ∧ ((d.address.getD OsmAddress.empty).suburb = none →
          (d.address.getD OsmAddress.empty).neighbourhood = none →
          (d.address.getD OsmAddress.empty).quarter = none → (normalizeOsm d).area = "")
      ∧ ((d.address.getD OsmAddress.empty).city = none →
          (d.address.getD OsmAddress.empty).town = none →
          (d.address.getD OsmAddress.empty).village = none →
          (d.address.getD OsmAddress.empty).municipality = none → (normalizeOsm d).city = "")
      ∧ ((d.address.getD OsmAddress.empty).county = none →
          (d.address.getD OsmAddress.empty).district = none →
          (normalizeOsm d).taluk = "" ∧ (normalizeOsm d).district = "")
      ∧ ((d.address.getD OsmAddress.empty).state = none →
          (d.address.getD OsmAddress.empty).region = none → (normalizeOsm d).state = "")
      ∧ ((d.address.getD OsmAddress.empty).postcode = none → (normalizeOsm d).pincode = "")
      ∧ ((d.address.getD OsmAddress.empty).country = none → (normalizeOsm d).country = "") := by
  refine ⟨?_, ?_, ?_, ?_, ?_, ?_, ?_, ?_⟩
  · intro h
    simp [normalizeOsm, h, orEmpty]
  · intro h1 h2 h3 h4
    simp [normalizeOsm, h1, h2, h3, h4, orEmpty, orElseStr, truthyStr]
  · intro h1 h2 h3
    simp [normalizeOsm, h1, h2, h3, orEmpty, orElseStr, truthyStr]
  · intro h1 h2 h3 h4
    simp [normalizeOsm, h1, h2, h3, h4, orEmpty, orElseStr, truthyStr]
  · intro h1 h2
    simp [normalizeOsm, h1, h2, orEmpty, orElseStr, truthyStr]
  · intro h1 h2
    simp [normalizeOsm, h1, h2, orEmpty, orElseStr, truthyStr]
  · intro h1
    simp [normalizeOsm, h1, orEmpty]
  · intro h1
    simp [normalizeOsm, h1, orEmpty]

theorem normalizeGemini_missing (d : GeminiLocationData) :
    (d.place_name = none → (normalizeGemini d).place_name = "")
      ∧ (d.full_address = none → (normalizeGemini d).full_address = "")
      ∧ (d.nearest_landmark = none → (normalizeGemini d).nearest_landmark = "")
      ∧ (d.area = none → (normalizeGemini d).area = "")
      ∧ (d.city = none → (normalizeGemini d).city = "")
      ∧ (d.taluk = none → (normalizeGemini d).taluk = "")
      ∧ (d.district = none → (normalizeGemini d).district = "")
      ∧ (d.state = none → (normalizeGemini d).state = "")
      ∧ (d.pincode = none → (normalizeGemini d).pincode = "")
      ∧ (d.country = none → (normalizeGemini d).country = "") := by
  refine ⟨?_, ?_, ?_, ?_, ?_, ?_, ?_, ?_, ?_, ?_⟩ <;> intro h <;>
    simp [normalizeGemini, h, orEmpty]

/-- C7: the ten address fields returned by `reverseGeocode` are, as a whole, the
normalized answer of one single provider (Gemini, Google or OpenStreetMap) or
the terminal fallback, so no field comes from a provider other than the one that
gave `full_address`; and in each normalized answer a field that the provider did
not supply is the empty string. -/
theorem reverseGeocode_single_provider (w : World) (lat lng : JSNum) :
    ((w.geminiAI = true
        ∧ ∃ d, w.gemini lat lng = .data d ∧ (reverseGeocode w lat lng).1 = normalizeGemini d)
      ∨ (∃ status results r, w.google lat lng = .response status results
          ∧ results.head? = some r ∧ normalizeGoogle r = some (reverseGeocode w lat lng).1)
      ∨ (∃ d, w.osm lat lng = .data d ∧ (reverseGeocode w lat lng).1 = normalizeOsm d)
      ∨ (reverseGeocode w lat lng).1 = terminalFallback w lat lng)
    ∧ (∀ d : GeminiLocationData,
        (d.place_name = none → (normalizeGemini d).place_name = "")
        ∧ (d.full_address = none → (normalizeGemini d).full_address = "")
        ∧ (d.nearest_landmark = none → (normalizeGemini d).nearest_landmark = "")
        ∧ (d.area = none → (normalizeGemini d).area = "")
        ∧ (d.city = none → (normalizeGemini d).city = "")
        ∧ (d.taluk = none → (normalizeGemini d).taluk = "")
        ∧ (d.district = none → (normalizeGemini d).district = "")
        ∧ (d.state = none → (normalizeGemini d).state = "")
        ∧ (d.pincode = none → (normalizeGemini d).pincode = "")
        ∧ (d.country = none → (normalizeGemini d).country = ""))
    ∧ (∀ (r : GoogleResult) (b : AddressBundle), normalizeGoogle r = some b →
        (r.formatted_address = none → b.full_address = "")
        ∧ (r.formatted_address = none → r.address_components.getD [] = [] → b.place_name = "")
        ∧ (lacksTypes (r.address_components.getD [])
            ["point_of_interest", "establishment", "premise"] → b.nearest_landmark = "")
        ∧ (lacksTypes (r.address_components.getD [])
            ["sublocality", "sublocality_level_1", "neighborhood"] → b.area = "")
        ∧ (lacksTypes (r.address_components.getD []) ["locality"] → b.city = "")
        ∧ (lacksTypes (r.address_components.getD [])
            ["administrative_area_level_3", "sublocality_level_2", "sublocality_level_1",
              "sublocality"] → b.taluk = "")
        ∧ (lacksTypes (r.address_components.getD []) ["administrative_area_level_2"] →
            b.district = "")
        ∧ (lacksTypes (r.address_components.getD []) ["administrative_area_level_1"] →
            b.state = "")
        ∧ (lacksTypes (r.address_components.getD []) ["postal_code"] → b.pincode = "")
        ∧ (lacksTypes (r.address_components.getD []) ["country"] → b.country = ""))
    ∧ (∀ d : OsmData,
        (d.display_name = none →
          (normalizeOsm d).place_name = "" ∧ (normalizeOsm d).full_address = "")
        ∧ ((d.address.getD OsmAddress.empty).amenity = none →
            (d.address.getD OsmAddress.empty).building = none →
            (d.address.getD OsmAddress.empty).leisure = none →
            (d.address.getD OsmAddress.empty).tourism = none →
            (normalizeOsm d).nearest_landmark = "")
        ∧ ((d.address.getD OsmAddress.empty).suburb = none →
            (d.address.getD OsmAddress.empty).neighbourhood = none →
            (d.address.getD OsmAddress.empty).quarter = none → (normalizeOsm d).area = "")
        ∧ ((d.address.getD OsmAddress.empty).city = none →
            (d.address.getD OsmAddress.empty).town = none →
            (d.address.getD OsmAddress.empty).village = none →
            (d.address.getD OsmAddress.empty).municipality = none → (normalizeOsm d).city = "")
        ∧ ((d.address.getD OsmAddress.empty).county = none →
            (d.address.getD OsmAddress.empty).district = none →
            (normalizeOsm d).taluk = "" ∧ (normalizeOsm d).district = "")
        ∧ ((d.address.getD OsmAddress.empty).state = none →
            (d.address.getD OsmAddress.empty).region = none → (normalizeOsm d).state = "")
        ∧ ((d.address.getD OsmAddress.empty).postcode = none → (normalizeOsm d).pincode = "")
        ∧ ((d.address.getD OsmAddress.empty).country = none → (normalizeOsm d).country = ""))
    ∧ ((terminalFallback w lat lng).place_name = ""
        ∧ (terminalFallback w lat lng).nearest_landmark = ""
        ∧ (terminalFallback w lat lng).area = "" ∧ (terminalFallback w lat lng).city = ""
        ∧ (terminalFallback w lat lng).taluk = "" ∧ (terminalFallback w lat lng).district = ""
        ∧ (terminalFallback w lat lng).state = "" ∧ (terminalFallback w lat lng).pincode = ""
        ∧ (terminalFallback w lat lng).country = "") :=
  ⟨reverseGeocode_source w lat lng, normalizeGemini_missing,
   fun r b h => normalizeGoogle_missing r b h, normalizeOsm_missing,
   ⟨rfl, rfl, rfl, rfl, rfl, rfl, rfl, rfl, rfl⟩⟩

/-- Witness of C7: in a world where only Google answers, the bundle is the object
built from the Google answer, and its missing full address is the empty string. -/
theorem reverseGeocode_single_provider_witness :
    normalizeGoogle blankGoogleResult
        = some (reverseGeocode blankGoogleWorld (.fin 129716 (-4)) (.fin 775946 (-4))).1
      ∧ (reverseGeocode blankGoogleWorld (.fin 129716 (-4)) (.fin 775946 (-4))).1.full_address
        = "" :=
  ⟨by decide,
   ((reverseGeocode_single_provider blankGoogleWorld (.fin 129716 (-4)) (.fin 775946 (-4))).2.2.1
      blankGoogleResult _ (by decide)).1 rfl⟩

/-! ## Photo description chain -/

/-- C8, failing input: category "constructor", no description, and the vision
provider not configured or failing. The submission is accepted and the photo
description stored with the incident is the function inherited from
`Object.prototype`, not a string. -/
theorem postIncidents_photo_description_not_a_string :
    (postIncidents offlineWorld emptyStore requestConstructorCategory).response.code = 201
      ∧ (postIncidents offlineWorld emptyStore requestConstructorCategory).store.incidents.map
          (fun row => row.photo_analysis) = [JSVal.protoMember "constructor"]
      ∧ (postIncidents visionDownWorld emptyStore requestConstructorCategory).store.incidents.map
          (fun row => row.photo_analysis.isNonEmptyString) = [false] := by
  decide

/-- C9, failing input: for the category "constructor" (and the other property
names of `Object.prototype`) `analyzePhoto` does not return the generic
template; for the four categories and for other texts it returns the template
the claim names. -/
theorem analyzePhoto_inherited_key :
    analyzePhoto (some "constructor") none = JSVal.protoMember "constructor"
      ∧ analyzePhoto (some "constructor") none ≠ JSVal.str genericAnalysis
      ∧ analyzePhoto (some "toString") none ≠ JSVal.str genericAnalysis
      ∧ analyzePhoto (some "__proto__") none ≠ JSVal.str genericAnalysis
      ∧ analyzePhoto (some "") none = JSVal.str genericAnalysis
      ∧ analyzePhoto (some "Earthquake") none = JSVal.str genericAnalysis
      ∧ analyzePhoto (some "Fire") none = JSVal.str
          "Fire incident detected. Visible flames, smoke, or fire-related damage observed." := by
  decide

theorem jsSubstring0_length (s : String) (n : Nat) : (jsSubstring0 s n).length ≤ n := by
  show (s.data.take n).length ≤ n
  rw [List.length_take]
  exact Nat.min_le_left _ _

/-- C10: for each of the four categories and every description `d`,
`analyzePhoto` returns the template of the category alone when `d` is absent or
empty, and otherwise the template followed by " Additional context: ", the first
100 characters of `d` and a full stop; the excerpt has at most 100 characters
and is a prefix of `d`. -/
theorem analyzePhoto_known_category (c : String) (d : Option String)
    (hc : c = "Fire" ∨ c = "Flood" ∨ c = "Accident" ∨ c = "Electricity") :
    ∃ t, categoryAnalysis (some c) = some (JSVal.str t)
      ∧ (c = "Fire" → t
          = "Fire incident detected. Visible flames, smoke, or fire-related damage observed.")
      ∧ (c = "Flood" → t
          = "Flooding situation visible. Water accumulation, submerged areas, or water damage present.")
      ∧ (c = "Accident" → t
          = "Traffic or vehicular accident scene. Vehicles involved, debris, or emergency response visible.")
      ∧ (c = "Electricity" → t
          = "Electrical issue detected. Power lines, electrical equipment, or power-related problem visible.")
      ∧ (d = none ∨ d = some "" → analyzePhoto (some c) d = JSVal.str t)
      ∧ (∀ s, d = some s → s ≠ "" →
          analyzePhoto (some c) d
            = JSVal.str (t ++ " Additional context: " ++ jsSubstring0 s 100 ++ ".")
          ∧ (jsSubstring0 s 100).length ≤ 100
          ∧ (jsSubstring0 s 100).data = s.data.take 100
          ∧ (jsSubstring0 s 100).data <+: s.data) := by
  have tail : ∀ t : String, t ≠ "" → categoryAnalysis (some c) = some (JSVal.str t) →
      (d = none ∨ d = some "" → analyzePhoto (some c) d = JSVal.str t)
      ∧ (∀ s, d = some s → s ≠ "" →
          analyzePhoto (some c) d
            = JSVal.str (t ++ " Additional context: " ++ jsSubstring0 s 100 ++ ".")
          ∧ (jsSubstring0 s 100).length ≤ 100
          ∧ (jsSubstring0 s 100).data = s.data.take 100
          ∧ (jsSubstring0 s 100).data <+: s.data) := by
    intro t ht hcat
    refine ⟨?_, ?_⟩
    · rintro (hd | hd) <;> simp [analyzePhoto, hcat, JSVal.truthy, ht, hd, truthyStr]
    · intro s hd hs
      refine ⟨?_, jsSubstring0_length s 100, rfl, List.take_prefix _ _⟩
      simp [analyzePhoto, hcat, JSVal.truthy, ht, hd, truthyStr, hs, JSVal.toStr, orEmpty]
  rcases hc with h | h | h | h
  · subst h
    exact ⟨_, rfl, fun _ => rfl, by decide, by decide, by decide, tail _ (by decide) rfl⟩
  · subst h
    exact ⟨_, rfl, by decide, fun _ => rfl, by decide, by decide, tail _ (by decide) rfl⟩
  · subst h
    exact ⟨_, rfl, by decide, by decide, fun _ => rfl, by decide, tail _ (by decide) rfl⟩
  · subst h
    exact ⟨_, rfl, by decide, by decide, by decide, fun _ => rfl, tail _ (by decide) rfl⟩

/-- Witness of C10: category "Flood" with a short description. -/
theorem analyzePhoto_known_category_witness :
    analyzePhoto (some "Flood") (some "water rising")
      = JSVal.str ("Flooding situation visible. Water accumulation, submerged areas, or water damage present."
          ++ " Additional context: " ++ jsSubstring0 "water rising" 100 ++ ".") := by
  obtain ⟨t, _, _, hflood, _, _, _, hsome⟩ :=
    analyzePhoto_known_category "Flood" (some "water rising") (Or.inr (Or.inl rfl))
  rw [← hflood rfl]
  exact (hsome "water rising" rfl (by decide)).1

/-! ## Status workflow -/

theorem updateStatus_of_invalid (db : SqlEngine) (w : World) (st : Store)
    (req : StatusUpdateRequest) (h : ¬ ∃ s, req.status = some s ∧ s ∈ validStatuses) :
    updateStatus db w st req = { response := ⟨400, .error "Invalid status"⟩, store := st } := by
  unfold updateStatus
  have hc : (!truthyStr req.status || !validStatuses.contains (orEmpty req.status)) = true := by
    cases hs : req.status with
    | none => simp [truthyStr]
    | some s =>
      have hm : s ∉ validStatuses := fun hm => h ⟨s, hs, hm⟩
      simp [orEmpty, hm]
  rw [if_pos hc]

theorem updateStatus_valid_guard (req : StatusUpdateRequest) (s : String)
    (hs : req.status = some s) (hv : s ∈ validStatuses) :
    (!truthyStr req.status || !validStatuses.contains (orEmpty req.status)) = false := by
  have hne : s ≠ "" := by
    intro he
    subst he
    simp [validStatuses] at hv
  simp [hs, truthyStr, orEmpty, hne, hv]

theorem updateStatus_code_of_valid (db : SqlEngine) (w : World) (st : Store)
    (req : StatusUpdateRequest) (s : String) (hs : req.status = some s)
    (hv : s ∈ validStatuses) : (updateStatus db w st req).response.code ≠ 400 := by
  unfold updateStatus
  simp only [updateStatus_valid_guard req s hs hv, Bool.false_eq_true, if_false]
  cases w.updateError <;> cases w.readBackError <;> simp

theorem updateStatus_incidents_of_valid (db : SqlEngine) (w : World) (st : Store)
    (req : StatusUpdateRequest) (s : String) (hs : req.status = some s)
    (hv : s ∈ validStatuses) (hu : w.updateError = none) :
    (updateStatus db w st req).store
      = { st with
          incidents := st.incidents.map (fun row =>
            if db.idEquals req.id row.id then applyStatus w s req.department row else row) } := by
  unfold updateStatus
  simp only [updateStatus_valid_guard req s hs hv, Bool.false_eq_true, if_false]
  simp only [hu, hs, orEmpty]
  cases w.readBackError <;> rfl

theorem patchIncidentStatus_of_admin (db : SqlEngine) (w : World)
    (activeTokens : List (String × UserData)) (st : Store) (req : StatusUpdateRequest)
    (user : UserData) (hauth : authenticateToken activeTokens req.credentials = .ok user)
    (hadmin : user.role = "admin") :
    patchIncidentStatus db w activeTokens st req = updateStatus db w st req := by
  simp [patchIncidentStatus, hauth, requireAdmin, hadmin]

/-- C11: a status update request of an administrator is rejected with HTTP 400
exactly when the requested status is missing or is not one of 'Reported',
'Verified', 'In Progress', 'Resolved'; a rejected request leaves the store as it
was, and an accepted one (whatever the current status of the incident) sets the
status of the incident with that id to the requested one. -/
theorem patchIncidentStatus_accepts_iff_valid (db : SqlEngine) (w : World)
    (activeTokens : List (String × UserData)) (st : Store) (req : StatusUpdateRequest)
    (user : UserData) (hauth : authenticateToken activeTokens req.credentials = .ok user)
    (hadmin : user.role = "admin") :
    ((patchIncidentStatus db w activeTokens st req).response.code = 400
        ↔ ¬ ∃ s, req.status = some s ∧ s ∈ validStatuses)
      ∧ ((¬ ∃ s, req.status = some s ∧ s ∈ validStatuses) →
          (patchIncidentStatus db w activeTokens st req).store = st)
      ∧ (∀ s, req.status = some s → s ∈ validStatuses → w.updateError = none →
          ∀ row ∈ (patchIncidentStatus db w activeTokens st req).store.incidents,
            db.idEquals req.id row.id = true → row.status = s) := by
  rw [patchIncidentStatus_of_admin db w activeTokens st req user hauth hadmin]
  refine ⟨⟨?_, ?_⟩, ?_, ?_⟩
  · intro hcode hex
    obtain ⟨s, hs, hv⟩ := hex
    exact updateStatus_code_of_valid db w st req s hs hv hcode
  · intro h
    rw [updateStatus_of_invalid db w st req h]
  · intro h
    rw [updateStatus_of_invalid db w st req h]
  · intro s hs hv hu row hrow hid
    rw [updateStatus_incidents_of_valid db w st req s hs hv hu] at hrow
    simp only [List.mem_map] at hrow
    obtain ⟨old, _, hold⟩ := hrow
    by_cases hm : db.idEquals req.id old.id = true
    · rw [if_pos hm] at hold
      rw [← hold]
      rfl
    · rw [if_neg hm] at hold
      rw [hold] at hm
      exact absurd hid hm

/-- Witness of C11: the administrator moves the resolved incident 1 back to
'Reported', and a request for the status "Closed" is answered 400 with the store
unchanged. -/
theorem patchIncidentStatus_accepts_iff_valid_witness :
    (∀ row ∈ (patchIncidentStatus sqlite offlineWorld sampleTokens twoIncidents
          (statusRequest (some "Bearer admin-token") "1" (some "Reported"))).store.incidents,
        sqlite.idEquals "1" row.id = true → row.status = "Reported")
      ∧ (patchIncidentStatus sqlite offlineWorld sampleTokens twoIncidents
          (statusRequest (some "Bearer admin-token") "1" (some "Closed"))).response.code = 400
      ∧ (patchIncidentStatus sqlite offlineWorld sampleTokens twoIncidents
          (statusRequest (some "Bearer admin-token") "1" (some "Closed"))).store = twoIncidents :=
  ⟨(patchIncidentStatus_accepts_iff_valid sqlite offlineWorld sampleTokens twoIncidents
      (statusRequest (some "Bearer admin-token") "1" (some "Reported"))
      { id := 1, username := "admin", role := "admin" } rfl rfl).2.2
      "Reported" rfl (by decide) rfl,
   (patchIncidentStatus_accepts_iff_valid sqlite offlineWorld sampleTokens twoIncidents
      (statusRequest (some "Bearer admin-token") "1" (some "Closed"))
      { id := 1, username := "admin", role := "admin" } rfl rfl).1.mpr (by decide),
   (patchIncidentStatus_accepts_iff_valid sqlite offlineWorld sampleTokens twoIncidents
      (statusRequest (some "Bearer admin-token") "1" (some "Closed"))
      { id := 1, username := "admin", role := "admin" } rfl rfl).2.1 (by decide)⟩

/-- C12: an accepted status update sets the status of the incident with the
requested id to the requested status and its `updated_at` to the current time,
leaves its id, title, description, category, photo reference, raw location,
coordinates, resolved-address fields, photo description, reporter id and
`created_at` as they were, and leaves every other incident unchanged. -/
theorem patchIncidentStatus_frame (db : SqlEngine) (w : World)
    (activeTokens : List (String × UserData)) (st : Store) (req : StatusUpdateRequest)
    (user : UserData) (s : String)
    (hauth : authenticateToken activeTokens req.credentials = .ok user)
    (hadmin : user.role = "admin") (hs : req.status = some s) (hv : s ∈ validStatuses)
    (hu : w.updateError = none) :
    (patchIncidentStatus db w activeTokens st req).store.lastId = st.lastId
      ∧ List.Forall₂
          (fun old new =>
            (db.idEquals req.id old.id = true →
              new.status = s ∧ new.updated_at = w.now ∧ new.id = old.id
                ∧ new.title = old.title ∧ new.description = old.description
                ∧ new.category = old.category ∧ new.image_url = old.image_url
                ∧ new.location = old.location ∧ new.latitude = old.latitude
                ∧ new.longitude = old.longitude ∧ new.place_name = old.place_name
                ∧ new.full_address = old.full_address
                ∧ new.nearest_landmark = old.nearest_landmark ∧ new.area = old.area
                ∧ new.city = old.city ∧ new.taluk = old.taluk ∧ new.district = old.district
                ∧ new.state = old.state ∧ new.pincode = old.pincode
                ∧ new.country = old.country ∧ new.google_maps_link = old.google_maps_link
                ∧ new.photo_analysis = old.photo_analysis ∧ new.user_id = old.user_id
                ∧ new.created_at = old.created_at)
            ∧ (db.idEquals req.id old.id = false → new = old))
          st.incidents (patchIncidentStatus db w activeTokens st req).store.incidents := by
  rw [patchIncidentStatus_of_admin db w activeTokens st req user hauth hadmin,
    updateStatus_incidents_of_valid db w st req s hs hv hu]
  refine ⟨rfl, ?_⟩
  rw [List.forall₂_map_right_iff, List.forall₂_same]
  intro old _
  refine ⟨?_, ?_⟩
  · intro hid
    rw [if_pos hid]
    simp [applyStatus]
  · intro hid
    rw [if_neg (by simp [hid])]

/-- Witness of C12: the administrator sets incident 2 to 'In Progress' at the
clock reading of the offline world; incident 1 stays as it was. -/
theorem patchIncidentStatus_frame_witness :
    (patchIncidentStatus sqlite offlineWorld sampleTokens twoIncidents
        (statusRequest (some "Bearer admin-token") "2" (some "In Progress"))).store.lastId = 2
      ∧ List.Forall₂
          (fun old new =>
            (sqlite.idEquals "2" old.id = true →
              new.status = "In Progress" ∧ new.updated_at = offlineWorld.now ∧ new.id = old.id
                ∧ new.title = old.title ∧ new.description = old.description
                ∧ new.category = old.category ∧ new.image_url = old.image_url
                ∧ new.location = old.location ∧ new.latitude = old.latitude
                ∧ new.longitude = old.longitude ∧ new.place_name = old.place_name
                ∧ new.full_address = old.full_address
                ∧ new.nearest_landmark = old.nearest_landmark ∧ new.area = old.area
                ∧ new.city = old.city ∧ new.taluk = old.taluk ∧ new.district = old.district
                ∧ new.state = old.state ∧ new.pincode = old.pincode
                ∧ new.country = old.country ∧ new.google_maps_link = old.google_maps_link
                ∧ new.photo_analysis = old.photo_analysis ∧ new.user_id = old.user_id
                ∧ new.created_at = old.created_at)
            ∧ (sqlite.idEquals "2" old.id = false → new = old))
          twoIncidents.incidents
          (patchIncidentStatus sqlite offlineWorld sampleTokens twoIncidents
            (statusRequest (some "Bearer admin-token") "2" (some "In Progress"))).store.incidents :=
  patchIncidentStatus_frame sqlite offlineWorld sampleTokens twoIncidents
    (statusRequest (some "Bearer admin-token") "2" (some "In Progress"))
    { id := 1, username := "admin", role := "admin" } "In Progress" rfl rfl rfl (by decide) rfl

/-- C13: a status update request without a token, with a token that is not
active, or with the token of a user whose role is not 'admin' is rejected (401,
401 and 403) and the store is left as it was, whatever status it carries. -/
theorem patchIncidentStatus_rejects_unauthorized (db : SqlEngine) (w : World)
    (activeTokens : List (String × UserData)) (st : Store) (req : StatusUpdateRequest) :
    (req.credentials.authorization = none → req.credentials.queryToken = none →
        req.credentials.bodyToken = none → extractToken req.credentials = none)
      ∧ (truthyStr (extractToken req.credentials) = false →
        (patchIncidentStatus db w activeTokens st req).response.code = 401
          ∧ (patchIncidentStatus db w activeTokens st req).store = st)
      ∧ (∀ token, extractToken req.credentials = some token → token ≠ "" →
        activeTokens.lookup token = none →
        (patchIncidentStatus db w activeTokens st req).response.code = 401
          ∧ (patchIncidentStatus db w activeTokens st req).store = st)
      ∧ (∀ token user, extractToken req.credentials = some token → token ≠ "" →
        activeTokens.lookup token = some user → user.role ≠ "admin" →
        (patchIncidentStatus db w activeTokens st req).response.code = 403
          ∧ (patchIncidentStatus db w activeTokens st req).store = st) := by
  refine ⟨?_, ?_, ?_, ?_⟩
  · intro h1 h2 h3
    simp [extractToken, h1, h2, h3, truthyStr]
  · intro h
    simp [patchIncidentStatus, authenticateToken, h]
  · intro token ht hne hl
    simp [patchIncidentStatus, authenticateToken, ht, truthyStr, hne, orEmpty, hl]
  · intro token user ht hne hl hr
    simp [patchIncidentStatus, authenticateToken, ht, truthyStr, hne, orEmpty, hl, requireAdmin,
      hr]

/-- Witness of C13: no token, an unknown token and the token of a citizen, each
asking for 'Resolved'. -/
theorem patchIncidentStatus_rejects_unauthorized_witness :
    ((patchIncidentStatus sqlite offlineWorld sampleTokens twoIncidents
          (statusRequest none "2" (some "Resolved"))).response.code = 401
        ∧ (patchIncidentStatus sqlite offlineWorld sampleTokens twoIncidents
          (statusRequest none "2" (some "Resolved"))).store = twoIncidents)
      ∧ ((patchIncidentStatus sqlite offlineWorld sampleTokens twoIncidents
          (statusRequest (some "Bearer stale-token") "2" (some "Resolved"))).response.code = 401
        ∧ (patchIncidentStatus sqlite offlineWorld sampleTokens twoIncidents
          (statusRequest (some "Bearer stale-token") "2" (some "Resolved"))).store = twoIncidents)
      ∧ ((patchIncidentStatus sqlite offlineWorld sampleTokens twoIncidents
          (statusRequest (some "citizen-token") "2" (some "Resolved"))).response.code = 403
        ∧ (patchIncidentStatus sqlite offlineWorld sampleTokens twoIncidents
          (statusRequest (some "citizen-token") "2" (some "Resolved"))).store = twoIncidents) :=
  ⟨(patchIncidentStatus_rejects_unauthorized sqlite offlineWorld sampleTokens twoIncidents
      (statusRequest none "2" (some "Resolved"))).2.1 (by decide),
   (patchIncidentStatus_rejects_unauthorized sqlite offlineWorld sampleTokens twoIncidents
      (statusRequest (some "Bearer stale-token") "2" (some "Resolved"))).2.2.1
      "stale-token" (by decide) (by decide) rfl,
   (patchIncidentStatus_rejects_unauthorized sqlite offlineWorld sampleTokens twoIncidents
      (statusRequest (some "citizen-token") "2" (some "Resolved"))).2.2.2
      "citizen-token" { id := 2, username := "asha", role := "user" } (by decide) (by decide)
      rfl (by decide)⟩

/-! ## Route table and the nearby query -/

/-- C14, failing input: the table holds open incidents at about 0 m, 4999 m,
5000 m and 5001 m from the centre and a resolved one at 0 m. The request
`GET /api/incidents/nearby?latitude=12&longitude=77&radius=5000` (and the same
without radius) is served by the route `/api/incidents/:id` with id "nearby" and
answered 404 "Incident not found": no incident is returned. The nearby handler
itself, called with that query, answers 500 with the error of the SQL engine. -/
theorem nearby_scenario_returns_no_incident :
    (handleGet sqlite offlineWorld nearbyScenario "/api/incidents/nearby" centreQuery).map
        (fun r => (r.code, r.body.error?, r.body.rows?))
        = some (404, some "Incident not found", none)
      ∧ (handleGet sqlite offlineWorld nearbyScenario "/api/incidents/nearby"
          centreQueryDefaultRadius).map (fun r => (r.code, r.body.error?, r.body.rows?))
        = some (404, some "Incident not found", none)
      ∧ (getNearbyIncidents sqlite nearbyScenario centreQuery).code = 500
      ∧ (getNearbyIncidents sqlite nearbyScenario centreQuery).body.rows? = none := by
  decide

/-- C15, failing input: the table holds eleven open incidents at the centre, so
more than ten qualify. The request `GET /api/incidents/nearby?latitude=12&
longitude=77&radius=5000` is answered 404 by the route `/api/incidents/:id`, and
the nearby handler called directly answers 500: in neither case does the answer
hold the ten nearest incidents. -/
theorem nearby_crowded_returns_no_incident :
    crowdedStore.incidents.length = 11
      ∧ (handleGet sqlite offlineWorld crowdedStore "/api/incidents/nearby" centreQuery).map
          (fun r => (r.code, (r.body.rows?.map List.length)))
        = some (404, none)
      ∧ (getNearbyIncidents sqlite crowdedStore centreQuery).code = 500
      ∧ (getNearbyIncidents sqlite crowdedStore centreQuery).body.rows?.map List.length
        = none := by
  decide

/-- C16, failing input: in registration order the route `/api/incidents/:id`
comes before `/api/incidents/nearby` and `/api/incidents/role-based` and matches
both paths, with the parameter id bound to "nearby" and to "role-based"; the two
later routes, which match as well, are never reached. -/
theorem dispatchGet_shadowed_by_id_route :
    dispatchGet "/api/incidents/nearby" = some (GetHandler.incidentById, [("id", "nearby")])
      ∧ dispatchGet "/api/incidents/role-based"
        = some (GetHandler.incidentById, [("id", "role-based")])
      ∧ matchSegments [.lit "api", .lit "incidents", .lit "nearby"] ["api", "incidents", "nearby"]
        = some []
      ∧ matchSegments [.lit "api", .lit "incidents", .lit "role-based"]
          ["api", "incidents", "role-based"] = some []
      ∧ (getRoutes.map (fun route => route.2)).indexOf GetHandler.incidentById
        < (getRoutes.map (fun route => route.2)).indexOf GetHandler.nearbyIncidents
      ∧ (getRoutes.map (fun route => route.2)).indexOf GetHandler.incidentById
        < (getRoutes.map (fun route => route.2)).indexOf GetHandler.roleBased := by
  decide

/-! ## Ingestion response -/

theorem pad2_data (n : Nat) (h : n < 100) : (pad2 n).data = twoDigits n := by
  interval_cases n <;> rfl

theorem toString_data_fourDigits (n : Nat) (h1 : 1000 ≤ n) (h2 : n < 10000) :
    (toString n).data = fourDigits n := by
  obtain ⟨k, rfl⟩ : ∃ k, n = k + 1000 := ⟨n - 1000, by omega⟩
  show (Nat.repr (k + 1000)).data = _
  simp only [Nat.repr, Nat.toDigits, List.asString]
  have e1 : (k + 1000) / 10 ≠ 0 := by omega
  have e2 : (k + 1000) / 10 / 10 ≠ 0 := by omega
  have e3 : (k + 1000) / 10 / 10 / 10 ≠ 0 := by omega
  have e4 : (k + 1000) / 10 / 10 / 10 / 10 = 0 := by omega
  rw [Nat.toDigitsCore]
  simp only [e1, if_false]
  rw [Nat.toDigitsCore]
  simp only [e2, if_false]
  rw [Nat.toDigitsCore]
  simp only [e3, if_false]
  rw [Nat.toDigitsCore]
  simp only [e4, if_true]
  simp only [fourDigits]
  have a1 : (k + 1000) / 10 / 10 / 10 % 10 = (k + 1000) / 1000 := by omega
  have a2 : (k + 1000) / 10 / 10 % 10 = (k + 1000) / 100 % 10 := by omega
  rw [a1, a2]

theorem civilFromDays_month_day (days : Nat) :
    1 ≤ (civilFromDays days).2.1 ∧ (civilFromDays days).2.1 ≤ 12
      ∧ 1 ≤ (civilFromDays days).2.2 ∧ (civilFromDays days).2.2 ≤ 31 := by
  simp only [civilFromDays]
  have h2 : (days + 719468) % 146097 < 146097 := Nat.mod_lt _ (by norm_num)
  generalize (days + 719468) % 146097 = doe at *
  split_ifs <;> omega

theorem civilFromDays_year_ge (days : Nat) : 1970 ≤ (civilFromDays days).1 := by
  simp only [civilFromDays]
  have h1 : 4 ≤ (days + 719468) / 146097 := by omega
  have h2 : (days + 719468) % 146097 < 146097 := Nat.mod_lt _ (by norm_num)
  have h3 : (days + 719468) / 146097 = 4 → 135080 ≤ (days + 719468) % 146097 := by omega
  generalize (days + 719468) % 146097 = doe at *
  generalize (days + 719468) / 146097 = era at *
  split_ifs with hm <;> omega

theorem civilFromDays_year_le (days : Nat) (h : days < 2932897) :
    (civilFromDays days).1 ≤ 9999 := by
  simp only [civilFromDays]
  have h1 : (days + 719468) / 146097 ≤ 24 := by omega
  have h2 : (days + 719468) % 146097 < 146097 := Nat.mod_lt _ (by norm_num)
  have h3 : (days + 719468) / 146097 = 24 → (days + 719468) % 146097 < 146037 := by omega
  generalize (days + 719468) % 146097 = doe at *
  generalize (days + 719468) / 146097 = era at *
  split_ifs with hm <;> omega

theorem getISTDateTime_eq_render (now : Nat) (timezoneOffset : Int → Int) :
    getISTDateTime now timezoneOffset
      = renderDateTime ((now : Int) + timezoneOffset now * 60 * 1000 + 19800000
          - timezoneOffset ((now : Int) + timezoneOffset now * 60 * 1000 + 19800000)
            * 60 * 1000).toNat := rfl

theorem ist_local_reading (now : Nat) (timezoneOffset : Int → Int)
    (hoff : timezoneOffset ((now : Int) + timezoneOffset now * 60 * 1000 + 19800000)
      = timezoneOffset now) :
    ((now : Int) + timezoneOffset now * 60 * 1000 + 19800000
      - timezoneOffset ((now : Int) + timezoneOffset now * 60 * 1000 + 19800000)
        * 60 * 1000).toNat = now + 19800000 := by
  rw [hoff]
  omega

theorem renderDateTime_data (n : Nat) (h : n < 253402300800000) :
    (renderDateTime n).data
      = twoDigits (civilFromDays (n / 1000 / 86400)).2.2 ++ ['-']
        ++ twoDigits (civilFromDays (n / 1000 / 86400)).2.1 ++ ['-']
        ++ fourDigits (civilFromDays (n / 1000 / 86400)).1 ++ [' ']
        ++ twoDigits (n / 1000 % 86400 / 3600) ++ [':']
        ++ twoDigits (n / 1000 % 86400 % 3600 / 60) ++ [':']
        ++ twoDigits (n / 1000 % 86400 % 60) := by
  have hdays : n / 1000 / 86400 < 2932897 := by omega
  have hmd := civilFromDays_month_day (n / 1000 / 86400)
  have hy1 := civilFromDays_year_ge (n / 1000 / 86400)
  have hy2 := civilFromDays_year_le (n / 1000 / 86400) hdays
  unfold renderDateTime
  repeat rw [String.data_append]
  rw [pad2_data _ (by omega), pad2_data _ (by omega), pad2_data _ (by omega),
    pad2_data _ (by omega), pad2_data _ (by omega),
    toString_data_fourDigits _ (by omega) (by omega)]

theorem getISTDateTime_data (now : Nat) (timezoneOffset : Int → Int)
    (hoff : timezoneOffset ((now : Int) + timezoneOffset now * 60 * 1000 + 19800000)
      = timezoneOffset now)
    (h : now + 19800000 < 253402300800000) :
    (getISTDateTime now timezoneOffset).data
      = twoDigits (civilFromDays ((now + 19800000) / 1000 / 86400)).2.2 ++ ['-']
        ++ twoDigits (civilFromDays ((now + 19800000) / 1000 / 86400)).2.1 ++ ['-']
        ++ fourDigits (civilFromDays ((now + 19800000) / 1000 / 86400)).1 ++ [' ']
        ++ twoDigits ((now + 19800000) / 1000 % 86400 / 3600) ++ [':']
        ++ twoDigits ((now + 19800000) / 1000 % 86400 % 3600 / 60) ++ [':']
        ++ twoDigits ((now + 19800000) / 1000 % 86400 % 60) := by
  rw [getISTDateTime_eq_render, ist_local_reading now timezoneOffset hoff]
  exact renderDateTime_data _ h

theorem postIncidents_of_created (w : World) (st : Store) (req : IncidentRequest)
    (h : (postIncidents w st req).response.code = 201) :
    ∃ file title category, req.file = some file ∧ req.title = some title
      ∧ req.category = some category ∧ title ≠ "" ∧ category ≠ "" ∧ w.insertError = none
      ∧ w.readBackError = none
      ∧ (postIncidents w st req).response.body
        = .success (successBody w req
            (resolveCoordinates req.latitude req.longitude req.location
              (extractGPSFromImage w file.filename)).1
            (resolveCoordinates req.latitude req.longitude req.location
              (extractGPSFromImage w file.filename)).2
            (locateIncident w req.location
              (resolveCoordinates req.latitude req.longitude req.location
                (extractGPSFromImage w file.filename)).1
              (resolveCoordinates req.latitude req.longitude req.location
                (extractGPSFromImage w file.filename)).2).1
            (describePhoto w file.filename req.category req.description).1) := by
  unfold postIncidents at h ⊢
  cases hf : req.file with
  | none => simp [hf] at h
  | some file =>
    cases ht : req.title with
    | none => simp [hf, ht] at h
    | some title =>
      cases hc : req.category with
      | none => simp [hf, ht, hc] at h
      | some category =>
        by_cases hte : title = ""
        · simp [hf, ht, hc, hte] at h
        · by_cases hce : category = ""
          · simp [hf, ht, hc, hce] at h
          · cases hi : w.insertError with
            | some m => simp [hf, ht, hc, hte, hce, hi] at h
            | none =>
              cases hr : w.readBackError with
              | some m => simp [hf, ht, hc, hte, hce, hi, hr] at h
              | none =>
                refine ⟨file, title, category, rfl, rfl, rfl, hte, hce, rfl, rfl, ?_⟩
                simp [hte, hce]

theorem successBody_reported_datetime (w : World) (req : IncidentRequest)
    (finalLat finalLng : Option JSNum) (details : LocationDetails) (photo : JSVal) :
    (successBody w req finalLat finalLng details photo).reported_datetime
      = getISTDateTime w.now w.timezoneOffset := rfl

theorem string_length_eq_data_length (s : String) : s.length = s.data.length := by
  cases s
  rfl

/-- C17 (as amended): for every successful ingestion before the year 10000, on
a server whose time zone offset is the same at the current instant and at the
shifted instant that `getISTDateTime` builds from it, the `reported_datetime`
of the response is the text DD-MM-YYYY HH:MM:SS, 19 characters long: two-digit
day and month, four-digit year, and the hour of a 24-hour clock (00 to 23) with
two-digit minutes and seconds and no AM or PM suffix; it is the reading of the
clock moved by 5 hours 30 minutes. -/
theorem reported_datetime_format (w : World) (st : Store) (req : IncidentRequest)
    (h : (postIncidents w st req).response.code = 201)
    (hoff : w.timezoneOffset ((w.now : Int) + w.timezoneOffset w.now * 60 * 1000 + 19800000)
      = w.timezoneOffset w.now)
    (hy : w.now + 19800000 < 253402300800000) :
    ∃ b, (postIncidents w st req).response.body = .success b
      ∧ b.reported_datetime = renderDateTime (w.now + 19800000)
      ∧ b.reported_datetime.data
        = twoDigits (civilFromDays ((w.now + 19800000) / 1000 / 86400)).2.2 ++ ['-']
          ++ twoDigits (civilFromDays ((w.now + 19800000) / 1000 / 86400)).2.1 ++ ['-']
          ++ fourDigits (civilFromDays ((w.now + 19800000) / 1000 / 86400)).1 ++ [' ']
          ++ twoDigits ((w.now + 19800000) / 1000 % 86400 / 3600) ++ [':']
          ++ twoDigits ((w.now + 19800000) / 1000 % 86400 % 3600 / 60) ++ [':']
          ++ twoDigits ((w.now + 19800000) / 1000 % 86400 % 60)
      ∧ b.reported_datetime.length = 19
      ∧ 1 ≤ (civilFromDays ((w.now + 19800000) / 1000 / 86400)).2.2
      ∧ (civilFromDays ((w.now + 19800000) / 1000 / 86400)).2.2 ≤ 31
      ∧ 1 ≤ (civilFromDays ((w.now + 19800000) / 1000 / 86400)).2.1
      ∧ (civilFromDays ((w.now + 19800000) / 1000 / 86400)).2.1 ≤ 12
      ∧ 1970 ≤ (civilFromDays ((w.now + 19800000) / 1000 / 86400)).1
      ∧ (civilFromDays ((w.now + 19800000) / 1000 / 86400)).1 ≤ 9999
      ∧ (w.now + 19800000) / 1000 % 86400 / 3600 < 24
      ∧ (w.now + 19800000) / 1000 % 86400 % 3600 / 60 < 60
      ∧ (w.now + 19800000) / 1000 % 86400 % 60 < 60 := by
  obtain ⟨file, title, category, _, _, _, _, _, _, _, hbody⟩ := postIncidents_of_created w st req h
  have hdata := getISTDateTime_data w.now w.timezoneOffset hoff hy
  have hmd := civilFromDays_month_day ((w.now + 19800000) / 1000 / 86400)
  have hy1 := civilFromDays_year_ge ((w.now + 19800000) / 1000 / 86400)
  have hy2 := civilFromDays_year_le ((w.now + 19800000) / 1000 / 86400) (by omega)
  refine ⟨_, hbody, ?_, ?_, ?_, hmd.2.2.1, hmd.2.2.2, hmd.1, hmd.2.1, hy1, hy2, by omega,
    by omega, by omega⟩
  · rw [successBody_reported_datetime, getISTDateTime_eq_render,
      ist_local_reading w.now w.timezoneOffset hoff]
  · rw [successBody_reported_datetime]
    exact hdata
  · rw [string_length_eq_data_length, successBody_reported_datetime, hdata]
    simp only [List.length_append, twoDigits, fourDigits, List.length_cons, List.length_nil]

/-- Witness of C17 (as amended): the submission with explicit coordinates in the
offline world, whose server runs in UTC and whose clock reads 2024-11-05
08:00:00 UTC. -/
theorem reported_datetime_format_witness :
    ∃ b, (postIncidents offlineWorld emptyStore requestExplicitPair).response.body = .success b
      ∧ b.reported_datetime = renderDateTime (offlineWorld.now + 19800000)
      ∧ b.reported_datetime.length = 19
      ∧ (offlineWorld.now + 19800000) / 1000 % 86400 / 3600 < 24 := by
  obtain ⟨b, h1, h2, _, h4, _, _, _, _, _, _, h11, _, _⟩ :=
    reported_datetime_format offlineWorld emptyStore requestExplicitPair (by decide) rfl
      (by decide)
  exact ⟨b, h1, h2, h4, h11⟩

/-- C17 fails as stated: for the ingestion at 2024-11-05 08:00:00 UTC the response
carries "05-11-2024 13:30:00", with the hour 13 of a 24-hour clock and no AM or
PM suffix. And on a server in the zone America/New_York the ingestion at
2024-11-03 05:30:00 UTC, five hours before the end of daylight saving time,
carries "03-11-2024 10:00:00", while the UTC+5:30 reading is 11:00:00. -/
theorem reported_datetime_is_24_hour :
    (postIncidents offlineWorld emptyStore requestExplicitPair).response.code = 201
      ∧ (postIncidents offlineWorld emptyStore requestExplicitPair).response.body.success?.map
          (fun b => b.reported_datetime) = some "05-11-2024 13:30:00"
      ∧ (postIncidents newYorkWorld emptyStore requestExplicitPair).response.code = 201
      ∧ (postIncidents newYorkWorld emptyStore requestExplicitPair).response.body.success?.map
          (fun b => b.reported_datetime) = some "03-11-2024 10:00:00"
      ∧ renderDateTime (newYorkWorld.now + 19800000) = "03-11-2024 11:00:00" := by
  decide

theorem locateIncident_link_ne_empty (w : World) (location : Option String)
    (finalLat finalLng : Option JSNum) :
    (locateIncident w location finalLat finalLng).1.google_maps_link ≠ "" := by
  have hsearch : (localDetails w location).google_maps_link ≠ "" := by
    show searchMapLink w location ≠ ""
    unfold searchMapLink
    apply append_ne_empty_of_left
    decide
  unfold locateIncident
  split
  · split
    · exact coordinateMapLink_ne_empty w _ _
    · exact hsearch
  · exact hsearch

theorem JSVal.orEmpty_eq (v : JSVal) : v.orEmpty = v := by
  cases v with
  | str s =>
    by_cases hs : s = ""
    · simp [JSVal.orEmpty, JSVal.truthy, hs]
    · simp [JSVal.orEmpty, JSVal.truthy, hs]
  | protoMember key => simp [JSVal.orEmpty, JSVal.truthy]
  | list items => simp [JSVal.orEmpty, JSVal.truthy]

theorem SuccessBody.toObject_eq (b : SuccessBody) (hu : b.user_description.isFunction = false) :
    b.toObject
      = if b.photo_analysis.isFunction then
          [ ("status", .str b.status), ("place_name", .str b.place_name),
            ("full_address", .str b.full_address),
            ("nearest_landmark", .str b.nearest_landmark), ("area", .str b.area),
            ("city", .str b.city), ("state", .str b.state), ("pincode", .str b.pincode),
            ("country", .str b.country), ("google_maps_link", .str b.google_maps_link),
            ("user_description", b.user_description),
            ("reported_datetime", .str b.reported_datetime) ]
        else
          [ ("status", .str b.status), ("place_name", .str b.place_name),
            ("full_address", .str b.full_address),
            ("nearest_landmark", .str b.nearest_landmark), ("area", .str b.area),
            ("city", .str b.city), ("state", .str b.state), ("pincode", .str b.pincode),
            ("country", .str b.country), ("google_maps_link", .str b.google_maps_link),
            ("photo_analysis", b.photo_analysis), ("user_description", b.user_description),
            ("reported_datetime", .str b.reported_datetime) ] := by
  have hstr : ∀ t : String, (JSVal.str t).isFunction = false := fun _ => rfl
  unfold SuccessBody.toObject
  by_cases hp : b.photo_analysis.isFunction = true
  · simp [List.filter, hp, hu, hstr]
  · simp [List.filter, hp, hu, hstr]

theorem analyzePhoto_is_string (category description : Option String)
    (hc : ∀ c, category = some c → objectPrototypeKeys.contains c = false) :
    ∃ s, analyzePhoto category description = .str s := by
  unfold analyzePhoto
  by_cases hd : truthyStr description = true
  · simp only [hd, if_true]
    exact ⟨_, rfl⟩
  · simp only [hd, Bool.false_eq_true, if_false]
    cases category with
    | none => exact ⟨_, rfl⟩
    | some c =>
      have hk := hc c rfl
      unfold categoryAnalysis
      simp only [hk, Bool.false_eq_true, if_false]
      split_ifs <;> exact ⟨_, rfl⟩

theorem describePhoto_is_string (w : World) (filename : String)
    (category description : Option String)
    (hc : ∀ c, category = some c → objectPrototypeKeys.contains c = false) :
    ∃ s, (describePhoto w filename category description).1 = .str s := by
  have ha := analyzePhoto_is_string category description hc
  unfold describePhoto analyzePhotoWithGemini
  by_cases hg : w.geminiAI = true
  · simp only [hg, if_true, Bool.not_true, Bool.false_eq_true, if_false]
    cases w.vision filename category description with
    | readError => exact ha
    | failure => exact ha
    | text s =>
      by_cases hs : jsTrim s ≠ ""
      · simp only [hs, ne_eq, not_false_eq_true, if_true]
        exact ⟨_, rfl⟩
      · simp only [hs, if_false]
        exact ha
  · simp only [hg, Bool.false_eq_true, if_false]
    exact ha

/-- C18 (as amended): for every successful ingestion the response object has
status "success" and carries place_name, full_address, nearest_landmark, area,
city, state, pincode, country and the map link, each equal to the value stored
for the incident, plus user_description and reported_datetime; it has no taluk
and no district member. When the category is not a name inherited from
`Object.prototype`, the photo description is a string, the one stored for the
incident, and the response carries it as photo_analysis, thirteen members in
all. -/
theorem success_response_fields (w : World) (st : Store) (req : IncidentRequest)
    (h : (postIncidents w st req).response.code = 201) :
    ∃ row b, (postIncidents w st req).store.incidents = st.incidents ++ [row]
      ∧ (postIncidents w st req).response.body = .success b
      ∧ b.status = "success"
      ∧ b.place_name = row.place_name ∧ b.full_address = row.full_address
      ∧ b.nearest_landmark = row.nearest_landmark ∧ b.area = row.area ∧ b.city = row.city
      ∧ b.state = row.state ∧ b.pincode = row.pincode ∧ b.country = row.country
      ∧ b.google_maps_link = row.google_maps_link
      ∧ b.user_description = row.description
      ∧ (b.toObject.filter (fun member => member.1 ≠ "photo_analysis")).map Prod.fst
        = ["status", "place_name", "full_address", "nearest_landmark", "area", "city", "state",
            "pincode", "country", "google_maps_link", "user_description", "reported_datetime"]
      ∧ b.toObject.lookup "taluk" = none ∧ b.toObject.lookup "district" = none
      ∧ ((∀ c, req.category = some c → objectPrototypeKeys.contains c = false) →
          ∃ s, b.photo_analysis = .str s ∧ row.photo_analysis = .str s
            ∧ (selectRow row).photo_analysis = .str s
            ∧ b.toObject.lookup "photo_analysis" = some (.str s)
            ∧ b.toObject.map Prod.fst
              = ["status", "place_name", "full_address", "nearest_landmark", "area", "city",
                  "state", "pincode", "country", "google_maps_link", "photo_analysis",
                  "user_description", "reported_datetime"]) := by
  obtain ⟨file, title, category, hf, ht, hc, hte, hce, hi, _, hbody⟩ :=
    postIncidents_of_created w st req h
  refine ⟨_, _, postIncidents_incidents_of_accepted w st req file title category hf ht hc hte
    hce hi, hbody, rfl, rfl, rfl, rfl, rfl, rfl, rfl, rfl, rfl, ?_, rfl, ?_, ?_, ?_, ?_⟩
  · show orStr _ _ = _
    unfold orStr
    rw [if_neg (locateIncident_link_ne_empty w _ _ _)]
    rfl
  · rw [SuccessBody.toObject_eq]
    · split_ifs <;> rfl
    · rfl
  · rw [SuccessBody.toObject_eq]
    · split_ifs <;> rfl
    · rfl
  · rw [SuccessBody.toObject_eq]
    · split_ifs <;> rfl
    · rfl
  · intro hkey
    obtain ⟨s, hs⟩ := describePhoto_is_string w file.filename req.category req.description hkey
    have hb : (successBody w req
        (resolveCoordinates req.latitude req.longitude req.location
          (extractGPSFromImage w file.filename)).1
        (resolveCoordinates req.latitude req.longitude req.location
          (extractGPSFromImage w file.filename)).2
        (locateIncident w req.location
          (resolveCoordinates req.latitude req.longitude req.location
            (extractGPSFromImage w file.filename)).1
          (resolveCoordinates req.latitude req.longitude req.location
            (extractGPSFromImage w file.filename)).2).1
        (describePhoto w file.filename req.category req.description).1).photo_analysis
        = .str s := by
      show JSVal.orEmpty _ = _
      rw [JSVal.orEmpty_eq, hs]
    refine ⟨s, hb, ?_, ?_, ?_, ?_⟩
    · show (describePhoto w file.filename req.category req.description).1 = _
      exact hs
    · show sqlText (describePhoto w file.filename req.category req.description).1 = _
      rw [hs]
      rfl
    · rw [SuccessBody.toObject_eq, hb]
      · rfl
      · rfl
    · rw [SuccessBody.toObject_eq, hb]
      · rfl
      · rfl

/-- Witness of C18 (as amended): the submission with explicit coordinates and
the category "Electricity" in the world where OpenStreetMap answers. -/
theorem success_response_fields_witness :
    ∃ row b, (postIncidents osmWorld emptyStore requestExplicitPair).store.incidents
        = emptyStore.incidents ++ [row]
      ∧ (postIncidents osmWorld emptyStore requestExplicitPair).response.body = .success b
      ∧ b.status = "success" ∧ b.full_address = row.full_address
      ∧ b.toObject.lookup "taluk" = none ∧ b.toObject.lookup "district" = none
      ∧ ∃ s, b.photo_analysis = .str s ∧ row.photo_analysis = .str s
          ∧ b.toObject.lookup "photo_analysis" = some (.str s) := by
  obtain ⟨row, b, h1, h2, h3, _, h5, _, _, _, _, _, _, _, _, _, h16, h17, h18⟩ :=
    success_response_fields osmWorld emptyStore requestExplicitPair (by decide)
  obtain ⟨s, hs1, hs2, _, hs4, _⟩ := h18 (by decide)
  exact ⟨row, b, h1, h2, h3, h5, h16, h17, s, hs1, hs2, hs4⟩

/-- C18 fails as stated: after a geocoding that resolves taluk "Bangalore North"
and district "Bengaluru Urban", both stored with the incident, the response
object has no taluk and no district member. And for the category "constructor"
the photo description is a function, which the JSON text of the response
leaves out: that response has twelve members and no photo_analysis. -/
theorem success_response_lacks_taluk_district :
    (postIncidents osmWorld emptyStore requestExplicitPair).response.code = 201
      ∧ (postIncidents osmWorld emptyStore requestExplicitPair).store.incidents.map
          (fun row => (row.taluk, row.district)) = [("Bangalore North", "Bengaluru Urban")]
      ∧ (postIncidents osmWorld emptyStore requestExplicitPair).response.body.success?.map
          (fun b => (b.toObject.lookup "taluk", b.toObject.lookup "district")) = some (none, none)
      ∧ (postIncidents osmWorld emptyStore requestExplicitPair).response.body.success?.map
          (fun b => b.toObject.map Prod.fst)
        = some ["status", "place_name", "full_address", "nearest_landmark", "area", "city",
            "state", "pincode", "country", "google_maps_link", "photo_analysis",
            "user_description", "reported_datetime"]
      ∧ (postIncidents offlineWorld emptyStore requestConstructorCategory).response.code = 201
      ∧ (postIncidents offlineWorld emptyStore requestConstructorCategory).response.body.success?.map
          (fun b => b.toObject.map Prod.fst)
        = some ["status", "place_name", "full_address", "nearest_landmark", "area", "city",
            "state", "pincode", "country", "google_maps_link", "user_description",
            "reported_datetime"] := by
  decide

/-! ## Round trip -/

theorem resolveCoordinates_of_explicit (latitude longitude location : Option String)
    (lat lng : JSNum) (hlat : explicitCoordinate latitude = some lat)
    (hlng : explicitCoordinate longitude = some lng) (hlt : lat.truthy = true)
    (hlg : lng.truthy = true) :
    resolveCoordinates latitude longitude location none = (some lat, some lng) := by
  simp [resolveCoordinates, hlat, hlng, truthyNum, hlt, hlg]

theorem JSNum.truthy_of_isPlainDecimal (x : JSNum) (h : x.isPlainDecimal = true) :
    x.truthy = true := by
  cases x with
  | nan => simp [JSNum.isPlainDecimal] at h
  | inf negative => simp [JSNum.isPlainDecimal] at h
  | fin m e =>
    simp only [JSNum.isPlainDecimal, Bool.and_eq_true, decide_eq_true_eq] at h
    simp [JSNum.truthy, h.1.1.1]

theorem jsonNumber_sqlReal_of_isPlainDecimal (x : JSNum) (h : x.isPlainDecimal = true) :
    jsonNumber (sqlReal (some x)) = some x := by
  cases x with
  | nan => simp [JSNum.isPlainDecimal] at h
  | inf negative => simp [JSNum.isPlainDecimal] at h
  | fin m e => rfl

/-- C19 (as amended): an incident created with explicit latitude and longitude
that parse to finite non-zero numbers (of at most 15 significant digits, within
the range of a double) and with a photo without GPS tags is returned, when
fetched by its id, with that latitude and longitude and with the map link
"https://www.google.com/maps?q=<latitude>,<longitude>&key=<key>" built from
those two coordinates. -/
theorem created_incident_round_trip (db : SqlEngine) (w w2 : World) (st : Store)
    (req : IncidentRequest) (file : UploadedFile) (idText : String) (lat lng : JSNum)
    (h201 : (postIncidents w st req).response.code = 201)
    (hfile : req.file = some file)
    (hgps : extractGPSFromImage w file.filename = none)
    (hlat : explicitCoordinate req.latitude = some lat)
    (hlng : explicitCoordinate req.longitude = some lng)
    (hplat : lat.isPlainDecimal = true) (hplng : lng.isPlainDecimal = true)
    (hfresh : ∀ row ∈ st.incidents, db.idEquals idText row.id = false)
    (hid : db.idEquals idText (st.lastId + 1) = true)
    (hread : w2.readBackError = none) :
    (getIncident db w2 (postIncidents w st req).store idText).code = 200
      ∧ ∃ row, (getIncident db w2 (postIncidents w st req).store idText).body.incident?
          = some row
        ∧ row.id = st.lastId + 1
        ∧ row.latitude = some lat ∧ row.longitude = some lng
        ∧ row.google_maps_link = "https://www.google.com/maps?q=" ++ w.numToString lat ++ ","
            ++ w.numToString lng ++ "&key=" ++ w.GOOGLE_MAPS_API_KEY := by
  have hlt := JSNum.truthy_of_isPlainDecimal lat hplat
  have hlg := JSNum.truthy_of_isPlainDecimal lng hplng
  obtain ⟨file2, title, category, hf, ht, hc, hte, hce, hi, _, _⟩ :=
    postIncidents_of_created w st req h201
  have hfe : file2 = file := by
    rw [hfile] at hf
    exact (Option.some.inj hf).symm
  subst hfe
  have hstore := postIncidents_incidents_of_accepted w st req file2 title category hf ht hc
    hte hce hi
  have hres := resolveCoordinates_of_explicit req.latitude req.longitude req.location lat lng
    hlat hlng hlt hlg
  rw [hgps, hres] at hstore
  have hnone : st.incidents.find? (fun row => db.idEquals idText row.id) = none := by
    rw [List.find?_eq_none]
    intro row hrow
    simp [hfresh row hrow]
  have hfind : (postIncidents w st req).store.incidents.find?
      (fun row => db.idEquals idText row.id)
      = some (newIncident w st file2.filename title category req (some lat) (some lng)
          (locateIncident w req.location (some lat) (some lng)).1
          (describePhoto w file2.filename req.category req.description).1) := by
    rw [hstore, List.find?_append, hnone]
    simp [newIncident, hid]
  unfold getIncident
  rw [hread, hfind]
  refine ⟨rfl, _, rfl, rfl, ?_, ?_, ?_⟩
  · exact jsonNumber_sqlReal_of_isPlainDecimal lat hplat
  · exact jsonNumber_sqlReal_of_isPlainDecimal lng hplng
  · simp [jsonRow, selectRow, newIncident, locateIncident, hlt, hlg, geocodedDetails,
      coordinateMapLink]

/-- Witness of C19 (as amended): the submission with explicit coordinates
12.9716, 77.5946 in the world where OpenStreetMap answers, fetched as id "1". -/
theorem created_incident_round_trip_witness :
    (getIncident sqlite osmWorld (postIncidents osmWorld emptyStore requestExplicitPair).store
        "1").code = 200
      ∧ ∃ row, (getIncident sqlite osmWorld
            (postIncidents osmWorld emptyStore requestExplicitPair).store "1").body.incident?
          = some row
        ∧ row.id = emptyStore.lastId + 1
        ∧ row.latitude = some (.fin 129716 (-4)) ∧ row.longitude = some (.fin 775946 (-4))
        ∧ row.google_maps_link = "https://www.google.com/maps?q="
            ++ osmWorld.numToString (.fin 129716 (-4)) ++ ","
            ++ osmWorld.numToString (.fin 775946 (-4)) ++ "&key="
            ++ osmWorld.GOOGLE_MAPS_API_KEY :=
  created_incident_round_trip sqlite osmWorld osmWorld emptyStore requestExplicitPair plainPhoto
    "1" (.fin 129716 (-4)) (.fin 775946 (-4)) (by decide) rfl (by decide) (by decide)
    (by decide) (by decide) (by decide) (by simp [emptyStore]) (by decide) rfl

/-- C19 fails as stated: an incident created with explicit latitude "0" and
longitude "77.5", the free-text location "12.9, 77.6", a photo without GPS tags
and a geocoding answered by OpenStreetMap is returned by
`GET /api/incidents/1` with latitude 12.9, longitude 77.6 and a map link built
from 12.9 and 77.6. And an incident created with explicit latitude "Infinity"
and longitude "77.5" is stored with an infinite latitude and returned with the
latitude `null`. -/
theorem round_trip_loses_zero_latitude :
    (postIncidents osmWorld emptyStore requestZeroLatitude).response.code = 201
      ∧ (postIncidents osmWorld emptyStore requestZeroLatitude).calls
        = [Provider.google, Provider.osm]
      ∧ explicitCoordinate requestZeroLatitude.latitude = some (.fin 0 0)
      ∧ explicitCoordinate requestZeroLatitude.longitude = some (.fin 775 (-1))
      ∧ (handleGet sqlite osmWorld (postIncidents osmWorld emptyStore requestZeroLatitude).store
          "/api/incidents/1" ⟨none, none, none⟩).map (fun r => r.code) = some 200
      ∧ ((handleGet sqlite osmWorld (postIncidents osmWorld emptyStore requestZeroLatitude).store
          "/api/incidents/1" ⟨none, none, none⟩).bind (fun r => r.body.incident?)).map
          (fun row => row.latitude) = some (some (.fin 129 (-1)))
      ∧ ((handleGet sqlite osmWorld (postIncidents osmWorld emptyStore requestZeroLatitude).store
          "/api/incidents/1" ⟨none, none, none⟩).bind (fun r => r.body.incident?)).map
          (fun row => row.longitude) = some (some (.fin 776 (-1)))
      ∧ ((handleGet sqlite osmWorld (postIncidents osmWorld emptyStore requestZeroLatitude).store
          "/api/incidents/1" ⟨none, none, none⟩).bind (fun r => r.body.incident?)).map
          (fun row => row.full_address) = some "MG Road, Bengaluru"
      ∧ ((handleGet sqlite osmWorld (postIncidents osmWorld emptyStore requestZeroLatitude).store
          "/api/incidents/1" ⟨none, none, none⟩).bind (fun r => r.body.incident?)).map
          (fun row => row.google_maps_link)
        = some "https://www.google.com/maps?q=12.9,77.6&key=test-key"
      ∧ (postIncidents osmWorld emptyStore requestInfiniteLatitude).response.code = 201
      ∧ (postIncidents osmWorld emptyStore requestInfiniteLatitude).store.incidents.map
          (fun row => (row.latitude, row.longitude))
        = [(some (.inf false), some (.fin 775 (-1)))]
      ∧ ((handleGet sqlite osmWorld
          (postIncidents osmWorld emptyStore requestInfiniteLatitude).store
          "/api/incidents/1" ⟨none, none, none⟩).bind (fun r => r.body.incident?)).map
          (fun row => (row.latitude, row.longitude)) = some (none, some (.fin 775 (-1))) := by
  decide

/-! ## Reachable stores -/

theorem postIncidents_store_cases (w : World) (st : Store) (req : IncidentRequest) :
    (postIncidents w st req).store = st
      ∨ ∃ row, row.status = "Reported"
        ∧ (postIncidents w st req).store.incidents = st.incidents ++ [row] := by
  unfold postIncidents
  cases req.file with
  | none => exact Or.inl rfl
  | some file =>
    cases req.title with
    | none => exact Or.inl rfl
    | some title =>
      cases req.category with
      | none => exact Or.inl rfl
      | some category =>
        by_cases hg : (title = "" || category = "") = true
        · left
          dsimp only
          rw [if_pos hg]
        · dsimp only
          rw [if_neg hg]
          cases w.insertError with
          | some m => exact Or.inl rfl
          | none =>
            cases w.readBackError with
            | some m => exact Or.inr ⟨_, rfl, rfl⟩
            | none => exact Or.inr ⟨_, rfl, rfl⟩

theorem updateStatus_store_cases (db : SqlEngine) (w : World) (st : Store)
    (req : StatusUpdateRequest) :
    ((updateStatus db w st req).store = st)
      ∨ ∃ s, req.status = some s ∧ s ∈ validStatuses
        ∧ (updateStatus db w st req).response.code ≠ 400
        ∧ (updateStatus db w st req).response.code ≠ 401
        ∧ (updateStatus db w st req).response.code ≠ 403
        ∧ (updateStatus db w st req).store.incidents
          = st.incidents.map (fun row =>
              if db.idEquals req.id row.id then applyStatus w s req.department row else row) := by
  by_cases hv : ∃ s, req.status = some s ∧ s ∈ validStatuses
  · obtain ⟨s, hs, hm⟩ := hv
    cases hu : w.updateError with
    | some m =>
      left
      unfold updateStatus
      simp only [updateStatus_valid_guard req s hs hm, Bool.false_eq_true, if_false, hu]
    | none =>
      right
      refine ⟨s, hs, hm, ?_, ?_, ?_, ?_⟩
      · exact updateStatus_code_of_valid db w st req s hs hm
      · unfold updateStatus
        simp only [updateStatus_valid_guard req s hs hm, Bool.false_eq_true, if_false, hu]
        cases w.readBackError <;> simp
      · unfold updateStatus
        simp only [updateStatus_valid_guard req s hs hm, Bool.false_eq_true, if_false, hu]
        cases w.readBackError <;> simp
      · rw [updateStatus_incidents_of_valid db w st req s hs hm hu]
  · left
    rw [updateStatus_of_invalid db w st req hv]

theorem patchIncidentStatus_store_cases (db : SqlEngine) (w : World)
    (activeTokens : List (String × UserData)) (st : Store) (req : StatusUpdateRequest) :
    ((patchIncidentStatus db w activeTokens st req).store = st)
      ∨ ∃ s, req.status = some s ∧ s ∈ validStatuses
        ∧ (patchIncidentStatus db w activeTokens st req).response.code ≠ 400
        ∧ (patchIncidentStatus db w activeTokens st req).response.code ≠ 401
        ∧ (patchIncidentStatus db w activeTokens st req).response.code ≠ 403
        ∧ (patchIncidentStatus db w activeTokens st req).store.incidents
          = st.incidents.map (fun row =>
              if db.idEquals req.id row.id then applyStatus w s req.department row else row) := by
  unfold patchIncidentStatus
  split
  · exact Or.inl rfl
  · split
    · exact Or.inl rfl
    · exact updateStatus_store_cases db w st req

theorem patchIncidentStatus_rejected_store (db : SqlEngine) (w : World)
    (activeTokens : List (String × UserData)) (st : Store) (req : StatusUpdateRequest)
    (h : (patchIncidentStatus db w activeTokens st req).response.code = 400
      ∨ (patchIncidentStatus db w activeTokens st req).response.code = 401
      ∨ (patchIncidentStatus db w activeTokens st req).response.code = 403) :
    (patchIncidentStatus db w activeTokens st req).store = st := by
  rcases patchIncidentStatus_store_cases db w activeTokens st req with hst | ⟨s, _, _, h1, h2, h3, _⟩
  · exact hst
  · rcases h with h | h | h
    · exact absurd h h1
    · exact absurd h h2
    · exact absurd h h3

theorem postIncidentsMultipart_store_cases (w : World) (st : Store)
    (sub : MultipartSubmission) :
    (postIncidentsMultipart w st sub).store = st
      ∨ ∃ row, row.status = "Reported"
        ∧ (postIncidentsMultipart w st sub).store.incidents = st.incidents ++ [row] := by
  unfold postIncidentsMultipart
  cases sub.file with
  | none => exact Or.inl rfl
  | some file =>
    cases sub.title with
    | none => exact Or.inl rfl
    | some title =>
      cases sub.category with
      | none => exact Or.inl rfl
      | some category =>
        by_cases hg : (title = "" || category = "") = true
        · left
          dsimp only
          rw [if_pos hg]
        · dsimp only
          rw [if_neg hg]
          cases (describePhotoAny w file.filename (some category) sub.description).1 with
          | none => exact Or.inl rfl
          | some photo =>
            cases w.insertError with
            | some m => exact Or.inl rfl
            | none =>
              cases w.readBackError with
              | some m => exact Or.inr ⟨_, rfl, rfl⟩
              | none => exact Or.inr ⟨_, rfl, rfl⟩

theorem reachable_statuses (st : Store) (h : Reachable st) :
    ∀ row ∈ st.incidents, row.status ∈ validStatuses := by
  induction h with
  | empty => intro row hrow; simp at hrow
  | ingest w st req _ ih =>
    rcases postIncidents_store_cases w st req with hst | ⟨new, hnew, hinc⟩
    · rw [hst]
      exact ih
    · intro row hrow
      rw [hinc, List.mem_append] at hrow
      rcases hrow with hrow | hrow
      · exact ih row hrow
      · simp only [List.mem_singleton] at hrow
        rw [hrow, hnew]
        decide
  | ingestMultipart w st sub _ ih =>
    rcases postIncidentsMultipart_store_cases w st sub with hst | ⟨new, hnew, hinc⟩
    · rw [hst]
      exact ih
    · intro row hrow
      rw [hinc, List.mem_append] at hrow
      rcases hrow with hrow | hrow
      · exact ih row hrow
      · simp only [List.mem_singleton] at hrow
        rw [hrow, hnew]
        decide
  | update db w activeTokens st req _ ih =>
    rcases patchIncidentStatus_store_cases db w activeTokens st req with
      hst | ⟨s, _, hv, _, _, _, hinc⟩
    · rw [hst]
      exact ih
    · intro row hrow
      rw [hinc, List.mem_map] at hrow
      obtain ⟨old, hold, hrow⟩ := hrow
      by_cases hm : db.idEquals req.id old.id = true
      · rw [if_pos hm] at hrow
        rw [← hrow]
        exact hv
      · rw [if_neg hm] at hrow
        rw [← hrow]
        exact ih old hold

/-- C20: in every store reachable from the empty one by ingestions and status
update requests the status of each incident is one of 'Reported', 'Verified',
'In Progress', 'Resolved'; an ingestion leaves the stored incidents as they are
and adds at most one, with status 'Reported'; a rejected status update (400, 401
or 403) leaves the store as it was; and a status update changes the status of an
incident only to the valid status it requests for that id, in a request that is
not rejected. -/
theorem reachable_status_valid :
    (∀ st, Reachable st → ∀ row ∈ st.incidents, row.status ∈ validStatuses)
      ∧ (∀ (w : World) (st : Store) (req : IncidentRequest),
          (postIncidents w st req).store = st
            ∨ ∃ row, row.status = "Reported"
              ∧ (postIncidents w st req).store.incidents = st.incidents ++ [row])
      ∧ (∀ (db : SqlEngine) (w : World) (activeTokens : List (String × UserData)) (st : Store)
          (req : StatusUpdateRequest),
          ((patchIncidentStatus db w activeTokens st req).response.code = 400
            ∨ (patchIncidentStatus db w activeTokens st req).response.code = 401
            ∨ (patchIncidentStatus db w activeTokens st req).response.code = 403) →
          (patchIncidentStatus db w activeTokens st req).store = st)
      ∧ (∀ (db : SqlEngine) (w : World) (activeTokens : List (String × UserData)) (st : Store)
          (req : StatusUpdateRequest),
          List.Forall₂
            (fun old new =>
              new.status = old.status
                ∨ (req.status = some new.status ∧ new.status ∈ validStatuses
                  ∧ db.idEquals req.id old.id = true
                  ∧ (patchIncidentStatus db w activeTokens st req).response.code ≠ 400
                  ∧ (patchIncidentStatus db w activeTokens st req).response.code ≠ 401
                  ∧ (patchIncidentStatus db w activeTokens st req).response.code ≠ 403))
            st.incidents (patchIncidentStatus db w activeTokens st req).store.incidents) := by
  refine ⟨reachable_statuses, postIncidents_store_cases, patchIncidentStatus_rejected_store, ?_⟩
  intro db w activeTokens st req
  rcases patchIncidentStatus_store_cases db w activeTokens st req with
    hst | ⟨s, hs, hv, h1, h2, h3, hinc⟩
  · rw [hst, List.forall₂_same]
    intro row _
    exact Or.inl rfl
  · rw [hinc, List.forall₂_map_right_iff, List.forall₂_same]
    intro old _
    by_cases hm : db.idEquals req.id old.id = true
    · rw [if_pos hm]
      exact Or.inr ⟨hs, hv, hm, h1, h2, h3⟩
    · rw [if_neg hm]
      exact Or.inl rfl

/-! ## Ingestion: what is stored -/

theorem locateIncident_of_not_both (w : World) (location : Option String)
    (finalLat finalLng : Option JSNum)
    (h : (truthyNum finalLat && truthyNum finalLng) = false) :
    locateIncident w location finalLat finalLng = (localDetails w location, []) := by
  unfold locateIncident
  cases finalLat with
  | none => rfl
  | some lat =>
    cases finalLng with
    | none => rfl
    | some lng =>
      simp only [truthyNum] at h
      simp only [h, Bool.false_eq_true, if_false]

theorem describePhoto_calls (w : World) (filename : String) (category description : Option String) :
    ∀ p ∈ (describePhoto w filename category description).2, p = Provider.vision := by
  unfold describePhoto analyzePhotoWithGemini
  by_cases hg : w.geminiAI = true
  · simp only [hg, if_true, Bool.not_true, Bool.false_eq_true, if_false]
    cases w.vision filename category description with
    | readError => simp
    | failure => simp
    | text s => by_cases hs : jsTrim s ≠ "" <;> simp [hs]
  · simp [hg]

theorem postIncidents_calls_of_accepted (w : World) (st : Store) (req : IncidentRequest)
    (file : UploadedFile) (title category : String)
    (hfile : req.file = some file) (htitle : req.title = some title)
    (hcat : req.category = some category) (ht : title ≠ "") (hc : category ≠ "") :
    (postIncidents w st req).calls
      = (locateIncident w req.location
          (resolveCoordinates req.latitude req.longitude req.location
            (extractGPSFromImage w file.filename)).1
          (resolveCoordinates req.latitude req.longitude req.location
            (extractGPSFromImage w file.filename)).2).2
        ++ (describePhoto w file.filename req.category req.description).2 := by
  unfold postIncidents
  simp only [hfile, htitle, hcat, ht, hc, decide_False, Bool.or_self, Bool.false_eq_true,
    if_false]
  cases w.insertError with
  | some m => rfl
  | none => cases w.readBackError <;> rfl

/-- C21 (as amended): every incident persisted by the ingestion handler has the
title and the category of the submission, both non-empty, and whatever
non-empty category a submission with a photo and a title carries is stored as
it is: the handler compares the category with no list. -/
theorem postIncidents_persists_any_category (w : World) (st : Store) (req : IncidentRequest) :
    ((postIncidents w st req).store = st
        ∨ ∃ row, (postIncidents w st req).store.incidents = st.incidents ++ [row]
            ∧ row.title ≠ "" ∧ row.category ≠ ""
            ∧ req.title = some row.title ∧ req.category = some row.category)
      ∧ (∀ file title category, req.file = some file → req.title = some title →
          req.category = some category → title ≠ "" → category ≠ "" → w.insertError = none →
          ∃ row, (postIncidents w st req).store.incidents = st.incidents ++ [row]
            ∧ row.title = title ∧ row.category = category) := by
  refine ⟨?_, ?_⟩
  · cases hf : req.file with
    | none => left; unfold postIncidents; simp only [hf]
    | some file =>
      cases ht : req.title with
      | none => left; unfold postIncidents; simp only [hf, ht]
      | some title =>
        cases hc : req.category with
        | none => left; unfold postIncidents; simp only [hf, ht, hc]
        | some category =>
          by_cases hte : title = ""
          · left; unfold postIncidents; simp [hf, ht, hc, hte]
          · by_cases hce : category = ""
            · left; unfold postIncidents; simp [hf, ht, hc, hce]
            · cases hi : w.insertError with
              | some m => left; unfold postIncidents; simp [hf, ht, hc, hte, hce, hi]
              | none =>
                right
                exact ⟨_, postIncidents_incidents_of_accepted w st req file title category
                  hf ht hc hte hce hi, hte, hce, rfl, rfl⟩
  · intro file title category hf ht hc hte hce hi
    exact ⟨_, postIncidents_incidents_of_accepted w st req file title category
      hf ht hc hte hce hi, rfl, rfl⟩

/-- Witness of C21: a submission of the category "Earthquake" adds one row. -/
theorem postIncidents_persists_any_category_witness :
    ∃ row, (postIncidents offlineWorld emptyStore requestEarthquake).store.incidents
        = emptyStore.incidents ++ [row]
      ∧ row.title = "Cracks in the wall" ∧ row.category = "Earthquake" :=
  (postIncidents_persists_any_category offlineWorld emptyStore requestEarthquake).2
    plainPhoto "Cracks in the wall" "Earthquake" rfl rfl rfl (by decide) (by decide) rfl

/-- C21, counterexample to the claim as written: a submission whose category is
"Earthquake" is answered with 201 and stored with that category. -/
theorem postIncidents_stores_other_category :
    (postIncidents offlineWorld emptyStore requestEarthquake).response.code = 201
      ∧ (postIncidents offlineWorld emptyStore requestEarthquake).store.incidents.map
          (fun row => row.category) = ["Earthquake"]
      ∧ "Earthquake" ∉ ["Fire", "Flood", "Accident", "Electricity"] := by
  decide

theorem postIncidents_local_row (w : World) (st : Store) (req : IncidentRequest)
    (file : UploadedFile) (title category : String)
    (hfile : req.file = some file) (htitle : req.title = some title)
    (hcat : req.category = some category) (ht : title ≠ "") (hc : category ≠ "")
    (hins : w.insertError = none)
    (hpair : (truthyNum (resolveCoordinates req.latitude req.longitude req.location
          (extractGPSFromImage w file.filename)).1
        && truthyNum (resolveCoordinates req.latitude req.longitude req.location
          (extractGPSFromImage w file.filename)).2) = false) :
    (∀ p ∈ (postIncidents w st req).calls, p = Provider.vision)
      ∧ ∃ row, (postIncidents w st req).store.incidents = st.incidents ++ [row]
        ∧ row.place_name = orEmpty req.location ∧ row.full_address = orEmpty req.location
        ∧ row.nearest_landmark = "" ∧ row.area = "" ∧ row.city = "" ∧ row.taluk = ""
        ∧ row.district = "" ∧ row.state = "" ∧ row.pincode = "" ∧ row.country = ""
        ∧ row.google_maps_link = searchMapLink w req.location := by
  refine ⟨?_, ?_⟩
  · rw [postIncidents_calls_of_accepted w st req file title category hfile htitle hcat ht hc,
      locateIncident_of_not_both w req.location _ _ hpair]
    simpa using describePhoto_calls w file.filename req.category req.description
  · refine ⟨_, postIncidents_incidents_of_accepted w st req file title category hfile htitle
      hcat ht hc hins, ?_⟩
    rw [locateIncident_of_not_both w req.location _ _ hpair]
    simp [newIncident, localDetails, orEmpty]

/-- C22 (as amended): for every accepted submission from which no pair of two
non-zero coordinates is resolved, no geocoding provider is invoked (the only
provider that may be called is the photo description one) and the stored
address is built locally: `place_name` and `full_address` are the raw free-text
location (empty when none was sent), the other eight address fields are empty,
and the map link is the text-search link for the location. -/
theorem postIncidents_without_pair_builds_locally (w : World) (st : Store)
    (req : IncidentRequest) (file : UploadedFile) (title category : String)
    (hfile : req.file = some file) (htitle : req.title = some title)
    (hcat : req.category = some category) (ht : title ≠ "") (hc : category ≠ "")
    (hins : w.insertError = none)
    (hpair : (truthyNum (resolveCoordinates req.latitude req.longitude req.location
          (extractGPSFromImage w file.filename)).1
        && truthyNum (resolveCoordinates req.latitude req.longitude req.location
          (extractGPSFromImage w file.filename)).2) = false) :
    (∀ p ∈ (postIncidents w st req).calls,
        p ≠ Provider.gemini ∧ p ≠ Provider.google ∧ p ≠ Provider.osm)
      ∧ ∃ row, (postIncidents w st req).store.incidents = st.incidents ++ [row]
        ∧ row.place_name = orEmpty req.location ∧ row.full_address = orEmpty req.location
        ∧ row.nearest_landmark = "" ∧ row.area = "" ∧ row.city = "" ∧ row.taluk = ""
        ∧ row.district = "" ∧ row.state = "" ∧ row.pincode = "" ∧ row.country = ""
        ∧ row.google_maps_link = searchMapLink w req.location := by
  have h := postIncidents_local_row w st req file title category hfile htitle hcat ht hc hins
    hpair
  refine ⟨?_, h.2⟩
  intro p hp
  rw [h.1 p hp]
  exact ⟨by decide, by decide, by decide⟩

/-- Witness of C22: a submission with a latitude only and the location text
"near the old bridge". -/
theorem postIncidents_without_pair_builds_locally_witness :
    (∀ p ∈ (postIncidents visionDownWorld emptyStore requestLatitudeOnly).calls,
        p ≠ Provider.gemini ∧ p ≠ Provider.google ∧ p ≠ Provider.osm)
      ∧ ∃ row, (postIncidents visionDownWorld emptyStore requestLatitudeOnly).store.incidents
          = emptyStore.incidents ++ [row]
        ∧ row.place_name = orEmpty requestLatitudeOnly.location
        ∧ row.full_address = orEmpty requestLatitudeOnly.location
        ∧ row.nearest_landmark = "" ∧ row.area = "" ∧ row.city = "" ∧ row.taluk = ""
        ∧ row.district = "" ∧ row.state = "" ∧ row.pincode = "" ∧ row.country = ""
        ∧ row.google_maps_link = searchMapLink visionDownWorld requestLatitudeOnly.location :=
  postIncidents_without_pair_builds_locally visionDownWorld emptyStore requestLatitudeOnly
    plainPhoto "Tree on the road" "Accident" rfl rfl rfl (by decide) (by decide) rfl (by decide)

/-- C22, counterexample to the claim as written: with no pair resolved and the
location text "near the old bridge", no provider is called, and the stored
`place_name` and `full_address` are that text, not the empty string. -/
theorem postIncidents_local_bundle_keeps_location_text :
    (postIncidents offlineWorld emptyStore requestLatitudeOnly).calls = []
      ∧ (postIncidents offlineWorld emptyStore requestLatitudeOnly).store.incidents.map
          (fun row => (row.place_name, row.full_address))
        = [("near the old bridge", "near the old bridge")] := by
  decide

/-! ## Ingestion: failures absorbed -/

theorem MultipartSubmission.fields_ofRequest (req : IncidentRequest) :
    (MultipartSubmission.ofRequest req).fields = req := rfl

theorem describePhotoAny_single (w : World) (filename : String)
    (category description : Option String) :
    describePhotoAny w filename category (.single description)
      = (some (describePhoto w filename category description).1,
          (describePhoto w filename category description).2) := by
  unfold describePhotoAny describePhoto analyzePhotoWithGeminiAny analyzePhotoWithGemini
  by_cases hg : w.geminiAI = true
  · simp only [hg, if_true, Bool.not_true, Bool.false_eq_true, if_false, analyzePhotoAny,
      DescriptionField.text]
    cases w.vision filename category description with
    | readError => rfl
    | failure => rfl
    | text s => by_cases hs : jsTrim s ≠ "" <;> simp [hs]
  · simp only [hg, Bool.false_eq_true, if_false, analyzePhotoAny]

theorem postIncidentsMultipart_ofRequest (w : World) (st : Store) (req : IncidentRequest) :
    postIncidentsMultipart w st (MultipartSubmission.ofRequest req) = postIncidents w st req := by
  unfold postIncidentsMultipart postIncidents
  cases hf : req.file with
  | none => simp [MultipartSubmission.ofRequest, hf]
  | some file =>
    cases ht : req.title with
    | none => simp [MultipartSubmission.ofRequest, hf, ht]
    | some title =>
      cases hc : req.category with
      | none => simp [MultipartSubmission.ofRequest, hf, ht, hc]
      | some category =>
        have hd := describePhotoAny_single w file.filename (some category) req.description
        by_cases hg : (title = "" || category = "") = true
        · simp [MultipartSubmission.ofRequest, hf, ht, hc, hg]
        · simp only [MultipartSubmission.ofRequest, hf, ht, hc, hg, hd, Bool.false_eq_true,
            if_false, MultipartSubmission.fields]
          cases w.insertError with
          | some m => rfl
          | none => cases w.readBackError <;> rfl

/-- C25 (as amended): for every submission with a photo, a non-empty title and a
non-empty category whose text fields are each sent at most once, whatever the
providers answer and whatever the location and coordinate strings are, no
statement of the handler throws, and provided the INSERT and the read-back of
the new row both succeed the handler answers 201 with status "success"; the
table then holds exactly one more row, and that row carries the address
details and the photo description computed before, after all provider calls of
the request. -/
theorem postIncidents_absorbs_provider_failures (w : World) (st : Store)
    (req : IncidentRequest) (file : UploadedFile) (title category : String)
    (hfile : req.file = some file) (htitle : req.title = some title)
    (hcat : req.category = some category) (ht : title ≠ "") (hc : category ≠ "")
    (hins : w.insertError = none) (hread : w.readBackError = none) :
    postIncidentsMultipart w st (MultipartSubmission.ofRequest req) = postIncidents w st req
      ∧ (postIncidentsMultipart w st (MultipartSubmission.ofRequest req)).response.code = 201
      ∧ (postIncidentsMultipart w st (MultipartSubmission.ofRequest req)).response.body.status?
        = some "success"
      ∧ (postIncidentsMultipart w st (MultipartSubmission.ofRequest req)).store.lastId
        = st.lastId + 1
      ∧ (postIncidentsMultipart w st (MultipartSubmission.ofRequest req)).store.incidents
        = st.incidents ++ [newIncident w st file.filename title category req
            (resolveCoordinates req.latitude req.longitude req.location
              (extractGPSFromImage w file.filename)).1
            (resolveCoordinates req.latitude req.longitude req.location
              (extractGPSFromImage w file.filename)).2
            (locateIncident w req.location
              (resolveCoordinates req.latitude req.longitude req.location
                (extractGPSFromImage w file.filename)).1
              (resolveCoordinates req.latitude req.longitude req.location
                (extractGPSFromImage w file.filename)).2).1
            (describePhoto w file.filename req.category req.description).1]
      ∧ (postIncidentsMultipart w st (MultipartSubmission.ofRequest req)).calls
        = (locateIncident w req.location
            (resolveCoordinates req.latitude req.longitude req.location
              (extractGPSFromImage w file.filename)).1
            (resolveCoordinates req.latitude req.longitude req.location
              (extractGPSFromImage w file.filename)).2).2
          ++ (describePhoto w file.filename req.category req.description).2 := by
  rw [postIncidentsMultipart_ofRequest]
  refine ⟨rfl, ?_, ?_, ?_, postIncidents_incidents_of_accepted w st req file title category hfile
    htitle hcat ht hc hins, postIncidents_calls_of_accepted w st req file title category hfile
    htitle hcat ht hc⟩
  · unfold postIncidents
    simp only [hfile, htitle, hcat, ht, hc, hins, hread, decide_False, Bool.or_self,
      Bool.false_eq_true, if_false]
  · unfold postIncidents
    simp only [hfile, htitle, hcat, ht, hc, hins, hread, decide_False, Bool.or_self,
      Bool.false_eq_true, if_false]
    rfl
  · unfold postIncidents
    simp only [hfile, htitle, hcat, ht, hc, hins, hread, decide_False, Bool.or_self,
      Bool.false_eq_true, if_false]

/-- Witness of C25: the Gemini, Google and OpenStreetMap calls and the photo
description call all fail, and the location text is "12.97x, 77.59y". -/
theorem postIncidents_absorbs_provider_failures_witness :
    (postIncidentsMultipart geminiDownWorld emptyStore
        (MultipartSubmission.ofRequest requestMalformedLocation)).response.code = 201
      ∧ (postIncidentsMultipart geminiDownWorld emptyStore
          (MultipartSubmission.ofRequest requestMalformedLocation)).response.body.status?
        = some "success"
      ∧ (postIncidentsMultipart geminiDownWorld emptyStore
          (MultipartSubmission.ofRequest requestMalformedLocation)).store.incidents.length = 1
      ∧ (postIncidentsMultipart geminiDownWorld emptyStore
          (MultipartSubmission.ofRequest requestMalformedLocation)).calls
        = [Provider.gemini, Provider.google, Provider.osm, Provider.vision] := by
  have h := postIncidents_absorbs_provider_failures geminiDownWorld emptyStore
    requestMalformedLocation plainPhoto "Landslide on the ghat road" "Accident" rfl rfl rfl
    (by decide) (by decide) rfl rfl
  refine ⟨h.2.1, h.2.2.1, ?_, ?_⟩
  · rw [h.2.2.2.2.1]
    rfl
  · rw [h.2.2.2.2.2]
    decide

/-- C25, counterexample to the claim as written: the INSERT succeeds and the
read-back of the new row fails; the handler answers 500 and the row stays in
the table. And a submission with a photo, a title and a category that sends the
description twice, while the photo description provider fails, is answered
with 500 by the `catch` branch of the handler, after the geocoding and photo
description calls and with nothing stored; when the provider answers, the same
submission is answered with 201. -/
theorem postIncidents_read_back_failure_answers_500 :
    readBackDownWorld.insertError = none
      ∧ (postIncidents readBackDownWorld emptyStore requestMalformedLocation).response.code = 500
      ∧ (postIncidents readBackDownWorld emptyStore requestMalformedLocation).response.body.error?
        = some "SQLITE_BUSY: database is locked"
      ∧ (postIncidents readBackDownWorld emptyStore
          requestMalformedLocation).store.incidents.length = 1
      ∧ (postIncidentsMultipart geminiDownWorld emptyStore repeatedDescription).response.code
        = 500
      ∧ (postIncidentsMultipart geminiDownWorld emptyStore
          repeatedDescription).response.body.status? = some "error"
      ∧ (postIncidentsMultipart geminiDownWorld emptyStore repeatedDescription).calls
        = [Provider.gemini, Provider.google, Provider.osm, Provider.vision]
      ∧ (postIncidentsMultipart geminiDownWorld emptyStore
          repeatedDescription).store.incidents.length = 0
      ∧ (postIncidentsMultipart offlineWorld emptyStore repeatedDescription).response.code = 500
      ∧ (postIncidentsMultipart visionWorld emptyStore repeatedDescription).response.code = 201
      ∧ (postIncidentsMultipart visionWorld emptyStore repeatedDescription).store.incidents.map
          (fun row => row.description)
        = [JSVal.list ["Road blocked", "Two cars under the rocks"]] := by
  decide

/-! ## Zero coordinates -/

/-- C27: a coordinate equal to 0 is treated as absent. When the latitude or the
longitude resolved by STEP 2 is 0, STEP 3 calls no geocoding provider and
builds the local details, the stored map link is the text-search link for the
location, and no geocoding provider appears among the calls of the request;
and `extractGPSFromImage` returns `null` when a GPS tag of the photo is 0. -/
theorem zero_coordinate_treated_as_absent (w : World) (st : Store) (req : IncidentRequest)
    (file : UploadedFile) (title category : String) (e : Int)
    (hfile : req.file = some file) (htitle : req.title = some title)
    (hcat : req.category = some category) (ht : title ≠ "") (hc : category ≠ "")
    (hins : w.insertError = none)
    (hzero : (resolveCoordinates req.latitude req.longitude req.location
          (extractGPSFromImage w file.filename)).1 = some (.fin 0 e)
        ∨ (resolveCoordinates req.latitude req.longitude req.location
          (extractGPSFromImage w file.filename)).2 = some (.fin 0 e)) :
    locateIncident w req.location
        (resolveCoordinates req.latitude req.longitude req.location
          (extractGPSFromImage w file.filename)).1
        (resolveCoordinates req.latitude req.longitude req.location
          (extractGPSFromImage w file.filename)).2 = (localDetails w req.location, [])
      ∧ (∀ p ∈ (postIncidents w st req).calls,
          p ≠ Provider.gemini ∧ p ≠ Provider.google ∧ p ≠ Provider.osm)
      ∧ (∃ row, (postIncidents w st req).store.incidents = st.incidents ++ [row]
          ∧ row.google_maps_link = searchMapLink w req.location)
      ∧ (∀ (filename : String) (tags : ExifTags), w.exif filename = .parsed (some tags) →
          (tags.GPSLatitude = some (.fin 0 e) ∨ tags.GPSLongitude = some (.fin 0 e)) →
          extractGPSFromImage w filename = none) := by
  have hpair : (truthyNum (resolveCoordinates req.latitude req.longitude req.location
          (extractGPSFromImage w file.filename)).1
        && truthyNum (resolveCoordinates req.latitude req.longitude req.location
          (extractGPSFromImage w file.filename)).2) = false := by
    rcases hzero with h | h <;> rw [h] <;> simp [truthyNum, JSNum.truthy]
  have h := postIncidents_local_row w st req file title category hfile htitle hcat ht hc hins
    hpair
  refine ⟨locateIncident_of_not_both w req.location _ _ hpair, ?_, ?_, ?_⟩
  · intro p hp
    rw [h.1 p hp]
    exact ⟨by decide, by decide, by decide⟩
  · obtain ⟨row, hrow, hfields⟩ := h.2
    exact ⟨row, hrow, hfields.2.2.2.2.2.2.2.2.2.2⟩
  · intro filename tags hexif htag
    unfold extractGPSFromImage
    rw [hexif]
    rcases htag with h0 | h0 <;> simp [h0, truthyNum, JSNum.truthy]

/-- Witness of C27: the photo has a GPS latitude tag 0, the explicit fields are
"0" and "77.5" and the location text is "0, 77.5"; the providers would all fail
if called. -/
theorem zero_coordinate_treated_as_absent_witness :
    (resolveCoordinates requestZeroOnly.latitude requestZeroOnly.longitude
        requestZeroOnly.location (extractGPSFromImage zeroTagWorld plainPhoto.filename))
        = (some (.fin 0 0), some (.fin 775 (-1)))
      ∧ (∀ p ∈ (postIncidents zeroTagWorld emptyStore requestZeroOnly).calls,
          p ≠ Provider.gemini ∧ p ≠ Provider.google ∧ p ≠ Provider.osm)
      ∧ (∃ row, (postIncidents zeroTagWorld emptyStore requestZeroOnly).store.incidents
            = emptyStore.incidents ++ [row]
          ∧ row.google_maps_link = searchMapLink zeroTagWorld requestZeroOnly.location)
      ∧ extractGPSFromImage zeroTagWorld plainPhoto.filename = none :=
  have h := zero_coordinate_treated_as_absent zeroTagWorld emptyStore requestZeroOnly plainPhoto
    "Boat adrift" "Flood" 0 rfl rfl rfl (by decide) (by decide) rfl (Or.inl (by decide))
  ⟨by decide, h.2.1, h.2.2.1, h.2.2.2 plainPhoto.filename _ rfl (Or.inl rfl)⟩

/-! ## Department of an updated incident -/

/-- C28: after an accepted status update, the department of the incident with
the requested id is the department of the request when that is a non-empty
string and `null` otherwise, whatever department the incident had before: an
update that omits the department or gives an empty one erases it. -/
theorem patchIncidentStatus_department (db : SqlEngine) (w : World)
    (activeTokens : List (String × UserData)) (st : Store) (req : StatusUpdateRequest)
    (user : UserData) (s : String)
    (hauth : authenticateToken activeTokens req.credentials = .ok user)
    (hadmin : user.role = "admin") (hs : req.status = some s) (hv : s ∈ validStatuses)
    (hu : w.updateError = none) :
    List.Forall₂
      (fun old new =>
        db.idEquals req.id old.id = true →
          new.department = (if truthyStr req.department then req.department else none)
            ∧ ((req.department = none ∨ req.department = some "") → new.department = none)
            ∧ (∀ d, req.department = some d → d ≠ "" → new.department = some d))
      st.incidents (patchIncidentStatus db w activeTokens st req).store.incidents := by
  rw [patchIncidentStatus_of_admin db w activeTokens st req user hauth hadmin,
    updateStatus_incidents_of_valid db w st req s hs hv hu]
  rw [List.forall₂_map_right_iff, List.forall₂_same]
  intro old _ hid
  rw [if_pos hid]
  refine ⟨rfl, ?_, ?_⟩
  · intro h
    rcases h with h | h <;> simp [applyStatus, h, truthyStr]
  · intro d h hd
    simp [applyStatus, h, truthyStr, hd]

/-- Witness of C28: incident 2 is assigned to "Fire"; the administrator sets it
to 'In Progress' with no department in the request, and the department of
incident 2 becomes `null`. -/
theorem patchIncidentStatus_department_witness :
    twoIncidents.incidents.map (fun row => row.department) = [some "Fire", some "Fire"]
      ∧ (patchIncidentStatus sqlite offlineWorld sampleTokens twoIncidents
          (statusRequest (some "Bearer admin-token") "2" (some "In Progress"))).store.incidents.map
          (fun row => row.department) = [some "Fire", none]
      ∧ List.Forall₂
          (fun old new => sqlite.idEquals "2" old.id = true → new.department = none)
          twoIncidents.incidents
          (patchIncidentStatus sqlite offlineWorld sampleTokens twoIncidents
            (statusRequest (some "Bearer admin-token") "2"
              (some "In Progress"))).store.incidents :=
  ⟨by decide, by decide,
    List.Forall₂.imp (fun _ _ h hid => (h hid).2.1 (Or.inl rfl))
      (patchIncidentStatus_department sqlite offlineWorld sampleTokens twoIncidents
        (statusRequest (some "Bearer admin-token") "2" (some "In Progress"))
        { id := 1, username := "admin", role := "admin" } "In Progress" rfl rfl rfl (by decide)
        rfl)⟩

/-! ## Standalone conversion -/

theorem world_with_same_gemini (w : World) (h : w.geminiAgain = w.gemini) :
    { w with gemini := w.geminiAgain } = w := by
  cases w
  simp only at h
  simp [h]

theorem convertLocation_of_coordinates (w : World) (latitude longitude : BodyValue)
    (h1 : latitude.truthy = true) (h2 : longitude.truthy = true)
    (h3 : latitude.parseFloat.isNaN = false) (h4 : longitude.parseFloat.isNaN = false) :
    convertLocation w latitude longitude
      = match (reverseGeocodeWithGemini w latitude.parseFloat longitude.parseFloat).1 with
        | some bundle =>
          if bundle.full_address ≠ "" then
            { response := ⟨200, .conversion "success" bundle
                (conversionMapLink w latitude.parseFloat longitude.parseFloat)⟩
              calls := (reverseGeocodeWithGemini w latitude.parseFloat longitude.parseFloat).2 }
          else
            { response := ⟨200, .conversion "success"
                (reverseGeocode { w with gemini := w.geminiAgain } latitude.parseFloat
                  longitude.parseFloat).1
                (conversionMapLink w latitude.parseFloat longitude.parseFloat)⟩
              calls := (reverseGeocodeWithGemini w latitude.parseFloat longitude.parseFloat).2
                ++ (reverseGeocode { w with gemini := w.geminiAgain } latitude.parseFloat
                  longitude.parseFloat).2 }
        | none =>
          { response := ⟨200, .conversion "success"
              (reverseGeocode { w with gemini := w.geminiAgain } latitude.parseFloat
                longitude.parseFloat).1
              (conversionMapLink w latitude.parseFloat longitude.parseFloat)⟩
            calls := (reverseGeocodeWithGemini w latitude.parseFloat longitude.parseFloat).2
              ++ (reverseGeocode { w with gemini := w.geminiAgain } latitude.parseFloat
                longitude.parseFloat).2 } := by
  unfold convertLocation
  simp only [h1, h2, h3, h4, Bool.not_true, Bool.or_self, Bool.false_eq_true, if_false]

theorem reverseGeocode_of_gemini_bundle (w : World) (lat lng : JSNum) (b : AddressBundle)
    (h : (reverseGeocodeWithGemini w lat lng).1 = some b) (hb : b.full_address ≠ "") :
    (reverseGeocode w lat lng).1 = b := by
  have hg : w.geminiAI = true := by
    by_contra hg
    simp [reverseGeocodeWithGemini, hg] at h
  unfold reverseGeocode
  simp only [hg, if_true, h, hb, ne_eq, not_false_eq_true]

/-- C23 (as amended): a request to the standalone conversion endpoint whose
latitude and longitude are both truthy (a non-zero number, or a non-empty
string) and both read by `parseFloat` as a number is answered with HTTP 200,
status 'success', the ten address fields of one bundle and the link
'https://www.google.com/maps?q=<lat>,<lng>' built from the parsed coordinates,
whichever provider answered; the bundle is the one of the provider chain when
Gemini answers its second call as its first. Every other request (a missing
coordinate, the number 0, an empty string, a string that does not start with a
number) is answered with HTTP 400 and status 'error' and no provider call. -/
theorem convertLocation_answers (w : World) (latitude longitude : BodyValue) :
    ((latitude.truthy = true ∧ longitude.truthy = true
          ∧ latitude.parseFloat.isNaN = false ∧ longitude.parseFloat.isNaN = false) →
        ∃ bundle,
          (convertLocation w latitude longitude).response
            = ⟨200, .conversion "success" bundle
                ("https://www.google.com/maps?q=" ++ w.numToString latitude.parseFloat ++ ","
                  ++ w.numToString longitude.parseFloat)⟩
          ∧ (bundle = (reverseGeocode w latitude.parseFloat longitude.parseFloat).1
              ∨ bundle = (reverseGeocode { w with gemini := w.geminiAgain }
                  latitude.parseFloat longitude.parseFloat).1)
          ∧ (w.geminiAgain = w.gemini →
              bundle = (reverseGeocode w latitude.parseFloat longitude.parseFloat).1))
      ∧ (¬ (latitude.truthy = true ∧ longitude.truthy = true
            ∧ latitude.parseFloat.isNaN = false ∧ longitude.parseFloat.isNaN = false) →
          (convertLocation w latitude longitude).response.code = 400
            ∧ (convertLocation w latitude longitude).response.body.status? = some "error"
            ∧ (convertLocation w latitude longitude).calls = []) := by
  refine ⟨?_, ?_⟩
  · rintro ⟨h1, h2, h3, h4⟩
    rw [convertLocation_of_coordinates w latitude longitude h1 h2 h3 h4]
    cases hg : (reverseGeocodeWithGemini w latitude.parseFloat longitude.parseFloat).1 with
    | none =>
      refine ⟨_, rfl, Or.inr rfl, ?_⟩
      intro hsame
      rw [world_with_same_gemini w hsame]
    | some b =>
      by_cases hb : b.full_address ≠ ""
      · refine ⟨b, ?_, Or.inl ?_, fun _ => ?_⟩
        · simp only [hb, ne_eq, not_false_eq_true, if_true]
          rfl
        · exact (reverseGeocode_of_gemini_bundle w _ _ b hg hb).symm
        · exact (reverseGeocode_of_gemini_bundle w _ _ b hg hb).symm
      · refine ⟨_, ?_, Or.inr rfl, ?_⟩
        · simp only [hb, if_false]
          rfl
        · intro hsame
          rw [world_with_same_gemini w hsame]
  · intro h
    unfold convertLocation
    by_cases h12 : (!latitude.truthy || !longitude.truthy) = true
    · rw [if_pos h12]
      exact ⟨rfl, rfl, rfl⟩
    · rw [if_neg h12]
      have h34 : (latitude.parseFloat.isNaN || longitude.parseFloat.isNaN) = true := by
        by_contra h34
        apply h
        simp only [Bool.or_eq_true, Bool.not_eq_true', not_or, Bool.not_eq_false,
          Bool.not_eq_true] at h12 h34
        exact ⟨h12.1, h12.2, h34.1, h34.2⟩
      rw [if_pos h34]
      exact ⟨rfl, rfl, rfl⟩

/-- Witness of C23: the coordinates of the test script, with OpenStreetMap the
only provider that answers. -/
theorem convertLocation_answers_witness :
    ∃ bundle,
      (convertLocation osmWorld testLatitude testLongitude).response
        = ⟨200, .conversion "success" bundle
            ("https://www.google.com/maps?q=" ++ osmWorld.numToString testLatitude.parseFloat
              ++ "," ++ osmWorld.numToString testLongitude.parseFloat)⟩
      ∧ (bundle = (reverseGeocode osmWorld testLatitude.parseFloat testLongitude.parseFloat).1
          ∨ bundle = (reverseGeocode { osmWorld with gemini := osmWorld.geminiAgain }
              testLatitude.parseFloat testLongitude.parseFloat).1)
      ∧ (osmWorld.geminiAgain = osmWorld.gemini →
          bundle = (reverseGeocode osmWorld testLatitude.parseFloat testLongitude.parseFloat).1) :=
  (convertLocation_answers osmWorld testLatitude testLongitude).1
    ⟨by decide, by decide, by decide, by decide⟩

/-- C23, counterexample to the claim as written: the numeric latitude 0 is
answered with HTTP 400, and the latitude "12abc", which is not a number, is
answered with HTTP 200 and the link for latitude 12. -/
theorem convertLocation_zero_and_trailing_text :
    (convertLocation offlineWorld (.num (.fin 0 0)) testLongitude).response.code = 400
      ∧ (convertLocation offlineWorld (.num (.fin 0 0)) testLongitude).response.body.status?
        = some "error"
      ∧ (convertLocation offlineWorld (.str "12abc") testLongitude).response.code = 200
      ∧ (convertLocation offlineWorld (.str "12abc")
          testLongitude).response.body.conversion?.map (fun x => x.2)
        = some "https://www.google.com/maps?q=12,77.5946" := by
  decide

/-- C24, failing case: with the AI provider configured and every provider
failing, one request to the standalone conversion endpoint calls Gemini twice:
once directly and once more inside `reverseGeocode`. -/
theorem convertLocation_calls_gemini_twice :
    (convertLocation geminiDownWorld testLatitude testLongitude).calls
        = [Provider.gemini, Provider.gemini, Provider.google, Provider.osm]
      ∧ (convertLocation geminiDownWorld testLatitude testLongitude).response.code = 200
      ∧ (postIncidents geminiDownWorld emptyStore requestMalformedLocation).calls
        = [Provider.gemini, Provider.google, Provider.osm, Provider.vision] := by
  decide

/-! ## Client time format -/

theorem Script.formatTimeWithAmPm_of_date (parseDate : String → Option Nat)
    (timezoneOffset : Int → Int) (ms : Nat)
    (hv : ¬ ((ms : Int) + timezoneOffset ms * 60 * 1000 + 19800000).natAbs > 8640000000000000) :
    Script.formatTimeWithAmPm parseDate timezoneOffset (.date (some ms))
      = renderDateTime12 ((ms : Int) + timezoneOffset ms * 60 * 1000 + 19800000
          - timezoneOffset ((ms : Int) + timezoneOffset ms * 60 * 1000 + 19800000)
            * 60 * 1000).toNat := by
  unfold Script.formatTimeWithAmPm
  dsimp only
  rw [if_neg hv]
  rfl

theorem Admin.formatTimeWithAmPm_eq_script (parseDate : String → Option Nat)
    (timezoneOffset : Int → Int) (date : TimeInput) :
    Admin.formatTimeWithAmPm parseDate timezoneOffset date
      = Script.formatTimeWithAmPm parseDate timezoneOffset date := rfl

theorem renderDateTime12_data (n : Nat) (h : n < 253402300800000) :
    (renderDateTime12 n).data
      = twoDigits (civilFromDays (n / 1000 / 86400)).2.2 ++ ['-']
        ++ twoDigits (civilFromDays (n / 1000 / 86400)).2.1 ++ ['-']
        ++ fourDigits (civilFromDays (n / 1000 / 86400)).1 ++ [' ']
        ++ twoDigits (twelveHour (n / 1000 % 86400 / 3600)) ++ [':']
        ++ twoDigits (n / 1000 % 86400 % 3600 / 60) ++ [':']
        ++ twoDigits (n / 1000 % 86400 % 60) ++ [' ']
        ++ (if n / 1000 % 86400 / 3600 < 12 then ['A', 'M'] else ['P', 'M']) := by
  have hdays : n / 1000 / 86400 < 2932897 := by omega
  have hmd := civilFromDays_month_day (n / 1000 / 86400)
  have hy1 := civilFromDays_year_ge (n / 1000 / 86400)
  have hy2 := civilFromDays_year_le (n / 1000 / 86400) hdays
  have hh : (if n / 1000 % 86400 / 3600 % 12 ≠ 0 then n / 1000 % 86400 / 3600 % 12 else 12)
      = twelveHour (n / 1000 % 86400 / 3600) := by
    unfold twelveHour
    split_ifs <;> first | rfl | omega
  have h12 : twelveHour (n / 1000 % 86400 / 3600) < 100 := by
    unfold twelveHour
    split_ifs <;> omega
  have hs : (if n / 1000 % 86400 / 3600 ≥ 12 then "PM" else "AM").data
      = (if n / 1000 % 86400 / 3600 < 12 then ['A', 'M'] else ['P', 'M']) := by
    split_ifs <;> first | rfl | omega
  unfold renderDateTime12
  rw [hh]
  repeat rw [String.data_append]
  rw [pad2_data _ (by omega), pad2_data _ (by omega), pad2_data _ h12,
    pad2_data _ (by omega), pad2_data _ (by omega),
    toString_data_fourDigits _ (by omega) (by omega), hs]

/-- Where the browser has the same time zone offset at a date and at the shifted
date built from it, `formatTimeWithAmPm` prints, for a date from 1970 to the
year 9999, the UTC+5:30 reading as DD-MM-YYYY hh:mm:ss followed by AM or PM:
for the hour h (0 to 23) of that reading the printed hour is h mod 12, with 0
printed as 12, two digits from 01 to 12, followed by 'AM' exactly when h < 12;
a string or a record is formatted as the date it parses to; and the copies of
the function in `script.js` and `admin.js` return the same string for every
input and every time zone. -/
theorem formatTimeWithAmPm_same_offset (parseDate : String → Option Nat)
    (timezoneOffset : Int → Int) (ms : Nat)
    (hoff : timezoneOffset ((ms : Int) + timezoneOffset ms * 60 * 1000 + 19800000)
      = timezoneOffset ms)
    (hv : ¬ ((ms : Int) + timezoneOffset ms * 60 * 1000 + 19800000).natAbs > 8640000000000000)
    (hy : ms + 19800000 < 253402300800000) :
    (Script.formatTimeWithAmPm parseDate timezoneOffset (.date (some ms))).data
        = twoDigits (civilFromDays ((ms + 19800000) / 1000 / 86400)).2.2 ++ ['-']
          ++ twoDigits (civilFromDays ((ms + 19800000) / 1000 / 86400)).2.1 ++ ['-']
          ++ fourDigits (civilFromDays ((ms + 19800000) / 1000 / 86400)).1 ++ [' ']
          ++ twoDigits (twelveHour ((ms + 19800000) / 1000 % 86400 / 3600)) ++ [':']
          ++ twoDigits ((ms + 19800000) / 1000 % 86400 % 3600 / 60) ++ [':']
          ++ twoDigits ((ms + 19800000) / 1000 % 86400 % 60) ++ [' ']
          ++ (if (ms + 19800000) / 1000 % 86400 / 3600 < 12 then ['A', 'M'] else ['P', 'M'])
      ∧ (ms + 19800000) / 1000 % 86400 / 3600 < 24
      ∧ 1 ≤ twelveHour ((ms + 19800000) / 1000 % 86400 / 3600)
      ∧ twelveHour ((ms + 19800000) / 1000 % 86400 / 3600) ≤ 12
      ∧ ((ms + 19800000) / 1000 % 86400 / 3600 % 12 = 0 →
          twelveHour ((ms + 19800000) / 1000 % 86400 / 3600) = 12)
      ∧ ((ms + 19800000) / 1000 % 86400 / 3600 % 12 ≠ 0 →
          twelveHour ((ms + 19800000) / 1000 % 86400 / 3600)
            = (ms + 19800000) / 1000 % 86400 / 3600 % 12)
      ∧ (∀ s, s ≠ "" →
          Script.formatTimeWithAmPm parseDate timezoneOffset (.text s)
            = Script.formatTimeWithAmPm parseDate timezoneOffset (.date (parseDate s)))
      ∧ (∀ s, s ≠ "" →
          Script.formatTimeWithAmPm parseDate timezoneOffset (.record (some s))
            = Script.formatTimeWithAmPm parseDate timezoneOffset (.date (parseDate s)))
      ∧ (∀ date, Admin.formatTimeWithAmPm parseDate timezoneOffset date
          = Script.formatTimeWithAmPm parseDate timezoneOffset date) := by
  refine ⟨?_, by omega, ?_, ?_, ?_, ?_, ?_, ?_, Admin.formatTimeWithAmPm_eq_script parseDate
    timezoneOffset⟩
  · rw [Script.formatTimeWithAmPm_of_date parseDate timezoneOffset ms hv,
      ist_local_reading ms timezoneOffset hoff]
    exact renderDateTime12_data _ hy
  · unfold twelveHour
    split_ifs <;> omega
  · unfold twelveHour
    split_ifs <;> omega
  · intro h
    unfold twelveHour
    rw [if_pos h]
  · intro h
    unfold twelveHour
    rw [if_neg h]
  · intro s hs
    unfold Script.formatTimeWithAmPm
    simp only [hs, if_false]
  · intro s hs
    unfold Script.formatTimeWithAmPm
    simp only [truthyStr, orEmpty, hs, ne_eq, not_false_eq_true, decide_True, if_true]

/-- C26, failing case: in a browser in the zone America/New_York the date
2024-11-03 05:30:00 UTC, five hours before the end of daylight saving time, is
printed by both copies of `formatTimeWithAmPm` as "03-11-2024 10:00:00 AM",
while the UTC+5:30 time of that date is 11:00:00 AM: the shift is computed with
the offset of the date and read back with the offset of the shifted date. -/
theorem formatTimeWithAmPm_offset_change :
    Script.formatTimeWithAmPm (fun _ => none) newYorkOffset (.date (some 1730611800000))
        = "03-11-2024 10:00:00 AM"
      ∧ Admin.formatTimeWithAmPm (fun _ => none) newYorkOffset (.date (some 1730611800000))
        = "03-11-2024 10:00:00 AM"
      ∧ renderDateTime12 (1730611800000 + 19800000) = "03-11-2024 11:00:00 AM"
      ∧ Script.formatTimeWithAmPm (fun _ => none) (fun _ => 0) (.date (some 1730611800000))
        = "03-11-2024 11:00:00 AM" := by
  decide

/-! ## Sessions -/

/-- C29, failing case: a logout sent with the token in the Authorization header
without the prefix "Bearer ", or in the body, is authenticated and answered
with 200, but the token stays in `activeTokens` and the next request that
presents it is accepted; with the prefix the token is removed. -/
theorem postLogout_keeps_token :
    (postLogout sampleTokens (bareHeader "citizen-token")).response.code = 200
      ∧ (postLogout sampleTokens (bareHeader "citizen-token")).activeTokens.lookup "citizen-token"
        = some { id := 2, username := "asha", role := "user" }
      ∧ authenticateToken (postLogout sampleTokens (bareHeader "citizen-token")).activeTokens
          (bareHeader "citizen-token") = .ok { id := 2, username := "asha", role := "user" }
      ∧ (postLogout sampleTokens (bodyField "citizen-token")).response.code = 200
      ∧ authenticateToken (postLogout sampleTokens (bodyField "citizen-token")).activeTokens
          (bodyField "citizen-token") = .ok { id := 2, username := "asha", role := "user" }
      ∧ (postLogout sampleTokens (bearerHeader "citizen-token")).activeTokens.lookup
          "citizen-token" = none :=
  ⟨rfl, rfl, rfl, rfl, rfl, rfl⟩

theorem extractToken_bearer (t : String) (htok : t ≠ "") (htrim : jsTrim t = t) :
    extractToken (bearerHeader t) = some t := by
  have hne : "Bearer " ++ t ≠ "" := append_ne_empty_of_right _ _ htok
  have hdrop : String.mk (("Bearer " ++ t).data.drop 7) = t := by
    rw [String.data_append]
    rfl
  have hpre : "Bearer ".data.isPrefixOf ("Bearer " ++ t).data = true := by
    rw [String.data_append]
    simp
  unfold extractToken bearerHeader
  simp only [truthyStr, orEmpty, hne, ne_eq, not_false_eq_true, decide_True, if_true, hpre,
    hdrop, htrim, htok, Bool.not_true, Bool.false_and, Bool.false_eq_true, if_false]

/-- C30: the signup handler stores the new user with the role given in the
body ('user' when the body has none) and binds the new token to that role; it
reads no security key. For a username that is not taken, at least 3 characters
long after trimming, and a password of at least 6 characters, a signup with
role 'admin' returns a token with which `authenticateToken` and then
`requireAdmin` let a request through. -/
theorem postSignup_stores_requested_role (w : World) (st : AuthState) (req : SignupRequest)
    (username password : String)
    (hu : req.username = some username) (hp : req.password = some password)
    (h3 : 3 ≤ (jsTrim username).length) (h6 : 6 ≤ password.length)
    (hfresh : ∀ u ∈ st.users, sqlLowerTrim u.username ≠ lowerText (jsTrim username)
      ∧ u.username ≠ jsTrim username)
    (hlookup : w.userLookupError = none) (hinsert : w.userInsertError = none)
    (htok : w.generateToken ≠ "") (htrim : jsTrim w.generateToken = w.generateToken) :
    (postSignup w st req).response
        = ⟨200, .session w.generateToken (st.lastUserId + 1) (jsTrim username)
            (req.role.getD "user")⟩
      ∧ (postSignup w st req).state.users
        = st.users ++ [{ id := st.lastUserId + 1, username := jsTrim username
                         password_hash := w.hashPassword password
                         role := req.role.getD "user" }]
      ∧ (postSignup w st req).state.activeTokens.lookup w.generateToken
        = some { id := st.lastUserId + 1, username := jsTrim username
                 role := req.role.getD "user" }
      ∧ (req.role = some "admin" →
          ∃ user, authenticateToken (postSignup w st req).state.activeTokens
              (bearerHeader w.generateToken) = .ok user
            ∧ requireAdmin user = .ok ()) := by
  have hune : username ≠ "" := by
    intro he
    subst he
    revert h3
    decide
  have hpne : password ≠ "" := by
    intro he
    subst he
    revert h6
    decide
  have hany1 : st.users.any (fun u => sqlLowerTrim u.username = lowerText (jsTrim username))
      = false := by
    rw [List.any_eq_false]
    intro u hmem
    simpa using (hfresh u hmem).1
  have hany2 : st.users.any (fun u => u.username = jsTrim username) = false := by
    rw [List.any_eq_false]
    intro u hmem
    simpa using (hfresh u hmem).2
  have hrun : postSignup w st req
      = { response := ⟨200, .session w.generateToken (st.lastUserId + 1) (jsTrim username)
            (req.role.getD "user")⟩
          state :=
            { users := st.users ++ [{ id := st.lastUserId + 1, username := jsTrim username
                                      password_hash := w.hashPassword password
                                      role := req.role.getD "user" }]
              lastUserId := st.lastUserId + 1
              activeTokens :=
                (w.generateToken, { id := st.lastUserId + 1, username := jsTrim username
                                    role := req.role.getD "user" })
                  :: st.activeTokens.filter (fun entry => entry.1 ≠ w.generateToken) } } := by
    unfold postSignup
    have hl3 : ¬ (jsTrim username).length < 3 := by omega
    have hl6 : ¬ password.length < 6 := by omega
    simp only [hu, hp, truthyStr, orEmpty, hune, hpne, ne_eq, not_false_eq_true, decide_True,
      Bool.not_true, Bool.or_self, Bool.false_eq_true, if_false, hl3, hl6, hlookup, hany1,
      hany2, hinsert]
    cases req.role <;> rfl
  rw [hrun]
  refine ⟨rfl, rfl, ?_, ?_⟩
  · simp [List.lookup]
  · intro hrole
    refine ⟨{ id := st.lastUserId + 1, username := jsTrim username, role := "admin" }, ?_, ?_⟩
    · unfold authenticateToken
      rw [extractToken_bearer _ htok htrim]
      simp [truthyStr, orEmpty, htok, List.lookup, hrole]
    · simp [requireAdmin]

/-- Witness of C30: "mallory" signs up with role 'admin' and no security key on
a table that holds the default administrator. -/
theorem postSignup_stores_requested_role_witness :
    (postSignup offlineWorld defaultAuthState signupAsAdmin).response
        = ⟨200, .session offlineWorld.generateToken 2 "mallory" "admin"⟩
      ∧ ∃ user, authenticateToken (postSignup offlineWorld defaultAuthState
              signupAsAdmin).state.activeTokens (bearerHeader offlineWorld.generateToken)
            = .ok user
          ∧ requireAdmin user = .ok () :=
  have h := postSignup_stores_requested_role offlineWorld defaultAuthState signupAsAdmin
    "mallory" "secret1" rfl rfl (by decide) (by decide) (by decide) rfl rfl (by decide)
    (by decide)
  ⟨h.1, h.2.2.2 rfl⟩

/-! ## Provider calls of one ingestion -/

theorem reverseGeocodeGoogle_calls (w : World) (lat lng : JSNum) :
    (reverseGeocodeGoogle w lat lng).2 = [Provider.google]
      ∨ (reverseGeocodeGoogle w lat lng).2 = [Provider.google, Provider.osm] := by
  have ho : (fallbackReverseGeocode w lat lng).2 = [Provider.osm] := by
    unfold fallbackReverseGeocode
    cases w.osm lat lng <;> rfl
  unfold reverseGeocodeGoogle
  cases w.google lat lng with
  | failure => right; simp [ho]
  | response status results =>
    by_cases hc : (status = "OK" && decide (results.length > 0)) = true
    · simp only [hc, if_true]
      cases hh : results.head? with
      | none => right; simp [ho]
      | some result =>
        cases hn : normalizeGoogle result with
        | none => right; simp [hn, ho]
        | some b => left; simp [hn]
    · simp only [hc, if_false]
      right
      simp [ho]

theorem reverseGeocode_calls_nodup (w : World) (lat lng : JSNum) :
    (reverseGeocode w lat lng).2.Nodup ∧ Provider.vision ∉ (reverseGeocode w lat lng).2 := by
  have hgoogle := reverseGeocodeGoogle_calls w lat lng
  unfold reverseGeocode
  by_cases hg : w.geminiAI = true
  · have h1 : (reverseGeocodeWithGemini w lat lng).2 = [Provider.gemini] := by
      unfold reverseGeocodeWithGemini
      simp only [hg, Bool.not_true, Bool.false_eq_true, if_false]
      cases w.gemini lat lng <;> rfl
    simp only [hg, if_true, h1]
    cases (reverseGeocodeWithGemini w lat lng).1 with
    | none => rcases hgoogle with h | h <;> simp [h]
    | some b =>
      by_cases hb : b.full_address ≠ ""
      · simp [hb]
      · simp only [hb, if_false]
        rcases hgoogle with h | h <;> simp [h]
  · simp only [hg, Bool.false_eq_true, if_false]
    rcases hgoogle with h | h <;> simp [h]

theorem describePhoto_calls_cases (w : World) (filename : String)
    (category description : Option String) :
    (describePhoto w filename category description).2 = []
      ∨ (describePhoto w filename category description).2 = [Provider.vision] := by
  unfold describePhoto analyzePhotoWithGemini
  by_cases hg : w.geminiAI = true
  · simp only [hg, if_true, Bool.not_true, Bool.false_eq_true, if_false]
    cases w.vision filename category description with
    | readError => simp
    | failure => simp
    | text s => by_cases hs : jsTrim s ≠ "" <;> simp [hs]
  · simp [hg]

theorem postIncidents_calls_nodup (w : World) (st : Store) (req : IncidentRequest) :
    (postIncidents w st req).calls.Nodup := by
  cases hf : req.file with
  | none => unfold postIncidents; simp [hf]
  | some file =>
    cases ht : req.title with
    | none => unfold postIncidents; simp [hf, ht]
    | some title =>
      cases hc : req.category with
      | none => unfold postIncidents; simp [hf, ht, hc]
      | some category =>
        by_cases hte : title = ""
        · unfold postIncidents; simp [hf, ht, hc, hte]
        · by_cases hce : category = ""
          · unfold postIncidents; simp [hf, ht, hc, hce]
          · rw [postIncidents_calls_of_accepted w st req file title category hf ht hc hte hce]
            have hloc : ∀ a b, (locateIncident w req.location a b).2.Nodup
                ∧ Provider.vision ∉ (locateIncident w req.location a b).2 := by
              intro a b
              unfold locateIncident
              cases a with
              | none => simp
              | some lat =>
                cases b with
                | none => simp
                | some lng =>
                  by_cases hl : (lat.truthy && lng.truthy) = true
                  · simp only [hl, if_true]
                    exact reverseGeocode_calls_nodup w lat lng
                  · simp [hl]
            have h1 := hloc
              (resolveCoordinates req.latitude req.longitude req.location
                (extractGPSFromImage w file.filename)).1
              (resolveCoordinates req.latitude req.longitude req.location
                (extractGPSFromImage w file.filename)).2
            rcases describePhoto_calls_cases w file.filename req.category req.description
              with h | h
            · rw [h, List.append_nil]
              exact h1.1
            · rw [h, List.nodup_append]
              refine ⟨h1.1, by simp, ?_⟩
              intro a ha hb
              simp only [List.mem_singleton] at hb
              subst hb
              exact h1.2 ha

end DisasterAlert
